import Mathlib

/-!
# Data_Oriented_Design_Optimizations: collision pipeline

A shallow embedding of the collision detection / resolution pipeline and of the
tile lifecycle of the game (`collision.cpp`, `tiles.cpp`, `player.cpp`,
`walls.cpp`, `utility.cpp`, `constants.h`).

Number model: every `float` / `double` of the source is an exact rational
number (`ℚ`); the casts between `float`, `double` and the integer pixel sizes
are the identity.  Rounding is outside this model.  Where the square root has
to be exact (the unit speed of the tiles), the same definitions are taken over
an arbitrary linearly ordered field, of which the real numbers are an instance
(namespace `ordered_field`).

Memory model: a C array is a total map from the index to the stored value; the
loops of the source only visit the indices below the population size.

Library model: `RAND_MAX`, and the `sqrt`, `mod` and `two_pi` of the maths
library, are parameters of the functions that use them.
-/

namespace DOD

/-! ## constants.h -/

/-- The type `object_type_t` of constants.h (a `std::string`). -/
abbrev object_type_t := String

/-- The type `object_id_t` of constants.h (a `std::string`). -/
abbrev object_id_t := String

def SCREEN_WIDTH : ℕ := 1280
def SCREEN_HEIGHT : ℕ := 720

def PLAYER_SPEED : ℚ := 300
def PLAYER_WIDE_LIFETIME : ℚ := 5
def PLAYER_SPEED_MULTIPLIER_NORMAL : ℚ := 1
def PLAYER_SPEED_MULTIPLIER_WIDE : ℚ := 8 / 10

def NUM_TILES : ℕ := 2 ^ 10
def TILE_SPEED_MOVEMENT : ℚ := 100
def TILE_WIDE_LIFETIIME : ℚ := 15
def PROBABILITY_WIDE : ℚ := 2 / 10

def PLAYER_TYPE : object_type_t := "player"
def TILE_TYPE : object_type_t := "tile"
def WALL_TYPE : object_type_t := "wall"

def PLAYER_ID_NORMAL : object_id_t := "player_normal"
def PLAYER_ID_WIDE : object_id_t := "player_wide"

def TILE_ID_NORMAL : object_id_t := "tile_normal"
def TILE_ID_WIDE : object_id_t := "tile_wide"

def WALL_ID_LEFT : object_id_t := "wall_left"
def WALL_ID_RIGHT : object_id_t := "wall_right"
def WALL_ID_TOP : object_id_t := "wall_top"
def WALL_ID_BOTTOM : object_id_t := "wall_bottom"

/-! ## utility.h -/

/-- The struct `vector4` of utility.h. -/
structure vector4 where
  x : ℚ
  y : ℚ
  z : ℚ
  w : ℚ
  deriving DecidableEq

/-! ## collision.cpp: the overlap test -/

/-- The function `is_overlapping` of collision.cpp: both boxes are given by
their centre and their full width and height. -/
def is_overlapping (lhs_position_x lhs_position_y lhs_width lhs_height
    rhs_position_x rhs_position_y rhs_width rhs_height : ℚ) : Bool :=
  let overlap : ℚ := 4
  let lhs_bound_left := lhs_position_x - (lhs_width - overlap) / 2
  let lhs_bound_right := lhs_position_x + (lhs_width - overlap) / 2
  let lhs_bound_bottom := lhs_position_y - (lhs_height - overlap) / 2
  let lhs_bound_top := lhs_position_y + (lhs_height - overlap) / 2
  let rhs_bound_left := rhs_position_x - (rhs_width - overlap) / 2
  let rhs_bound_right := rhs_position_x + (rhs_width - overlap) / 2
  let rhs_bound_bottom := rhs_position_y - (rhs_height - overlap) / 2
  let rhs_bound_top := rhs_position_y + (rhs_height - overlap) / 2
  decide (lhs_bound_left < rhs_bound_right)
    && decide (lhs_bound_right > rhs_bound_left)
    && decide (lhs_bound_bottom < rhs_bound_top)
    && decide (lhs_bound_top > rhs_bound_bottom)

/-! ## The rendering library: sprite metadata -/

/-- The struct `texture_rect` of the rendering library, as far as the game reads
it: the pixel width and height of a sprite, after the cast to floating point. -/
structure texture_rect where
  width : ℚ
  height : ℚ
  deriving DecidableEq

/-- The class `magpie::spritesheet` of the rendering library, as far as the game
uses it: the lookup `get_sprite_info` by file name; `none` is the null pointer. -/
structure spritesheet where
  get_sprite_info : String → Option texture_rect

/-! ## walls.cpp -/

/-- The class `wall_t` of walls.h. -/
structure wall_t where
  size : ℚ
  position : vector4
  id : object_id_t
  deriving DecidableEq

/-- The struct `walls_t` of walls.h (a `std::list` of walls). -/
structure walls_t where
  data : List wall_t
  deriving DecidableEq

/-- The method `wall_t::get_id`. -/
def wall_t.get_id (wall : wall_t) : object_id_t := wall.id

/-- The function `initialise_walls` of walls.cpp. -/
def initialise_walls (screen_dim : vector4) : walls_t :=
  let wall_size : ℚ := max screen_dim.x screen_dim.y + 50
  let width_visible : ℚ := 5
  let left : wall_t :=
    ⟨wall_size, ⟨-screen_dim.x / 2 - wall_size / 2 + width_visible, 0, 0, 0⟩, WALL_ID_LEFT⟩
  let right : wall_t :=
    ⟨wall_size, ⟨screen_dim.x / 2 + wall_size / 2 - width_visible, 0, 0, 0⟩, WALL_ID_RIGHT⟩
  let top : wall_t :=
    ⟨wall_size, ⟨0, screen_dim.y / 2 + wall_size / 2 - width_visible, 0, 0⟩, WALL_ID_TOP⟩
  let bottom : wall_t :=
    ⟨wall_size, ⟨0, -screen_dim.y / 2 - wall_size / 2 + width_visible, 0, 0⟩, WALL_ID_BOTTOM⟩
  ⟨[left, right, top, bottom]⟩

/-! ## tiles.cpp: the tile store -/

/-- Modelled from the spec: the declaration of the struct `tiles_t` that
tiles.cpp and collision.cpp use is not in the source (tiles.h still declares the
earlier per-object tiles).  The spec's data model gives it as a structure of
parallel arrays: position-x, position-y, velocity-x, velocity-y, rotation angle,
remaining lifetime, variant id, eaten flag and active flag.  The field names are
the ones tiles.cpp uses. -/
structure tiles_t where
  pos_x : ℕ → ℚ
  pos_y : ℕ → ℚ
  vel_x : ℕ → ℚ
  vel_y : ℕ → ℚ
  angle_radians : ℕ → ℚ
  lifetime : ℕ → ℚ
  tile_id : ℕ → object_id_t
  is_eaten : ℕ → Bool
  active : ℕ → Bool

/-- Modelled from the spec: collision.cpp reads `tiles.position[i].x` and
`tiles.position[i].y`, a member whose declaration is not in the source.  In the
spec's data model a slot has one position, its position-x and position-y, so
the member is read as the pair `(pos_x[i], pos_y[i])`. -/
def tiles_t.position (tiles : tiles_t) (i : ℕ) : vector4 :=
  ⟨tiles.pos_x i, tiles.pos_y i, 0, 0⟩

/-- The method `tiles_t::get_id`. -/
def tiles_t.get_id (tiles : tiles_t) (index : ℕ) : object_id_t := tiles.tile_id index

/-- The function `get_tile_texture_rect` of tiles.cpp; `none` is the null
pointer. -/
def get_tile_texture_rect (ss : spritesheet) (id : object_id_t) : Option texture_rect :=
  if id = TILE_ID_WIDE then ss.get_sprite_info "tile_1.png"
  else if id = TILE_ID_NORMAL then ss.get_sprite_info "tile_0.png"
  else none

/-- The function `collision_resolve_tile_wall` of tiles.cpp.  The result is
`none` when the null sprite pointer is dereferenced. -/
def collision_resolve_tile_wall (ss : spritesheet) (tiles : tiles_t) (wall : wall_t)
    (tiles_index : ℕ) : Option tiles_t :=
  -- velocity response
  let tiles : tiles_t :=
    if wall.get_id = WALL_ID_LEFT ∨ wall.get_id = WALL_ID_RIGHT then
      { tiles with vel_x := Function.update tiles.vel_x tiles_index (-tiles.vel_x tiles_index) }
    else
      { tiles with vel_y := Function.update tiles.vel_y tiles_index (-tiles.vel_y tiles_index) }
  let tex_rect := get_tile_texture_rect ss (tiles.get_id tiles_index)
  -- position response
  if wall.get_id = WALL_ID_LEFT then
    let tiles : tiles_t :=
      { tiles with pos_x := Function.update tiles.pos_x tiles_index
                              (wall.position.x + wall.size / 2) }
    tex_rect.map fun r =>
      { tiles with pos_x := Function.update tiles.pos_x tiles_index
                              (tiles.pos_x tiles_index + r.width / 2) }
  else if wall.get_id = WALL_ID_RIGHT then
    let tiles : tiles_t :=
      { tiles with pos_x := Function.update tiles.pos_x tiles_index
                              (wall.position.x - wall.size / 2) }
    tex_rect.map fun r =>
      { tiles with pos_x := Function.update tiles.pos_x tiles_index
                              (tiles.pos_x tiles_index - r.width / 2) }
  else if wall.get_id = WALL_ID_TOP then
    let tiles : tiles_t :=
      { tiles with pos_y := Function.update tiles.pos_y tiles_index
                              (wall.position.y - wall.size / 2) }
    tex_rect.map fun r =>
      { tiles with pos_y := Function.update tiles.pos_y tiles_index
                              (tiles.pos_y tiles_index - r.height / 2) }
  else if wall.get_id = WALL_ID_BOTTOM then
    let tiles : tiles_t :=
      { tiles with pos_y := Function.update tiles.pos_y tiles_index
                              (wall.position.y + wall.size / 2) }
    tex_rect.map fun r =>
      { tiles with pos_y := Function.update tiles.pos_y tiles_index
                              (tiles.pos_y tiles_index + r.height / 2) }
  else
    some tiles

/-! ## player.cpp -/

/-- The dynamic class of the object behind a `player_t*`: `player_normal_t`, or
`player_wide_t` with its `lifetime` member. -/
inductive player_class_t where
  | player_normal_t
  | player_wide_t (lifetime : ℚ)
  deriving DecidableEq

/-- The class `player_t` of player.h together with the dynamic class of the
object; the input device handle `controller` is left out. -/
structure player_t where
  position : vector4
  new_player_id : object_id_t
  cls : player_class_t
  deriving DecidableEq

/-- The methods `player_normal_t::get_id` and `player_wide_t::get_id`. -/
def player_t.get_id (player : player_t) : object_id_t :=
  match player.cls with
  | .player_normal_t => PLAYER_ID_NORMAL
  | .player_wide_t _ => PLAYER_ID_WIDE

/-- The function `get_player_texture_rect` of player.cpp; `none` is the null
pointer. -/
def get_player_texture_rect (ss : spritesheet) (id : object_id_t) : Option texture_rect :=
  if id = PLAYER_ID_WIDE then ss.get_sprite_info "player_1.png"
  else if id = PLAYER_ID_NORMAL then ss.get_sprite_info "player_0.png"
  else none

/-- The function `collision_resolve_player_wall` of player.cpp.  The result is
`none` when the null sprite pointer is dereferenced. -/
def collision_resolve_player_wall (ss : spritesheet) (player : player_t) (wall : wall_t) :
    Option player_t :=
  let tex_rect := get_player_texture_rect ss player.get_id
  if wall.get_id = WALL_ID_LEFT then
    let player : player_t :=
      { player with position := { player.position with x := wall.position.x + wall.size / 2 } }
    tex_rect.map fun r =>
      { player with position := { player.position with x := player.position.x + r.width / 2 } }
  else if wall.get_id = WALL_ID_RIGHT then
    let player : player_t :=
      { player with position := { player.position with x := wall.position.x - wall.size / 2 } }
    tex_rect.map fun r =>
      { player with position := { player.position with x := player.position.x - r.width / 2 } }
  else if wall.get_id = WALL_ID_TOP then
    let player : player_t :=
      { player with position := { player.position with y := wall.position.y - wall.size / 2 } }
    tex_rect.map fun r =>
      { player with position := { player.position with y := player.position.y - r.height / 2 } }
  else if wall.get_id = WALL_ID_BOTTOM then
    let player : player_t :=
      { player with position := { player.position with y := wall.position.y + wall.size / 2 } }
    tex_rect.map fun r =>
      { player with position := { player.position with y := player.position.y + r.height / 2 } }
  else
    some player

/-! ## The collision payload -/

/-- The `void* other_data` argument of the `on_collision` callbacks: the object
the pointer refers to.  A `tile` is an object read through a `tile_t*`, on which
only `get_id` is ever called. -/
inductive other_data_t where
  | player (p : player_t)
  | tile (id : object_id_t)
  | tiles (t : tiles_t)
  | wall (w : wall_t)

/-- The method `wall_t::on_collision` of walls.cpp (empty body). -/
def wall_t.on_collision (wall : wall_t) (_other_type : object_type_t)
    (_other_data : other_data_t) (_ss : spritesheet) (_index : ℤ) : wall_t :=
  wall

/-- The method `tiles_t::on_collision` of tiles.cpp.  The result is `none` when
`other_data` is cast to a `wall_t*` without referring to a wall, or when the
null sprite pointer is dereferenced. -/
def tiles_t.on_collision (tiles : tiles_t) (other_type : object_type_t)
    (other_data : other_data_t) (ss : spritesheet) (tiles_index : ℕ) : Option tiles_t :=
  if other_type = WALL_TYPE then
    match other_data with
    | .wall w => collision_resolve_tile_wall ss tiles w tiles_index
    | _ => none
  else if other_type = PLAYER_TYPE then
    some { tiles with is_eaten := Function.update tiles.is_eaten tiles_index true }
  else
    some tiles

/-- The methods `player_normal_t::on_collision` and
`player_wide_t::on_collision` of player.cpp, selected by the dynamic class.  The
result is `none` when `other_data` is cast to a pointer type it does not refer
to, or when the null sprite pointer is dereferenced. -/
def player_t.on_collision (player : player_t) (other_type : object_type_t)
    (other_data : other_data_t) (ss : spritesheet) : Option player_t :=
  match player.cls with
  | .player_normal_t =>
    if other_type = WALL_TYPE then
      match other_data with
      | .wall w => collision_resolve_player_wall ss player w
      | _ => none
    else if other_type = TILE_TYPE then
      match other_data with
      | .tile id =>
        if id = TILE_ID_WIDE then some { player with new_player_id := PLAYER_ID_WIDE }
        else some player
      | _ => none
    else
      some player
  | .player_wide_t _ =>
    if other_type = WALL_TYPE then
      match other_data with
      | .wall w => collision_resolve_player_wall ss player w
      | _ => none
    else if other_type = TILE_TYPE then
      match other_data with
      | .tile _ => some player
      | _ => none
    else
      some player

/-! ## collision.cpp: the resolver -/

/-- The `PLAYER v WALL` loop of `resolve_collisions`, over the walls that are
still to be visited; it returns the player and the visited walls. -/
def resolve_player_walls (ss : spritesheet) :
    player_t → List wall_t → Option (player_t × List wall_t)
  | p, [] => some (p, [])
  | p, rhs :: rest =>
    match get_player_texture_rect ss p.get_id with
    | none => none
    | some lhs_rect =>
      let hit : Option (player_t × wall_t) :=
        if is_overlapping p.position.x p.position.y lhs_rect.width lhs_rect.height
            rhs.position.x rhs.position.y rhs.size rhs.size then
          match p.on_collision WALL_TYPE (.wall rhs) ss with
          | none => none
          | some p1 => some (p1, rhs.on_collision PLAYER_TYPE (.player p1) ss (-1))
        else
          some (p, rhs)
      match hit with
      | none => none
      | some (p1, rhs1) =>
        match resolve_player_walls ss p1 rest with
        | none => none
        | some (p2, rest1) => some (p2, rhs1 :: rest1)

/-- The inner loop of the `TILE v WALL` part of `resolve_collisions` for the
slot `i`, over the walls that are still to be visited; `lhs_rect` is the sprite
pointer fetched before the loop. -/
def resolve_tile_walls (ss : spritesheet) (i : ℕ) (lhs_rect : Option texture_rect) :
    tiles_t → List wall_t → Option (tiles_t × List wall_t)
  | tiles, [] => some (tiles, [])
  | tiles, rhs :: rest =>
    match lhs_rect with
    | none => none
    | some r =>
      let hit : Option (tiles_t × wall_t) :=
        if is_overlapping (tiles.position i).x (tiles.position i).y r.width r.height
            rhs.position.x rhs.position.y rhs.size rhs.size then
          match tiles.on_collision WALL_TYPE (.wall rhs) ss i with
          | none => none
          | some t1 => some (t1, rhs.on_collision TILE_TYPE (.tiles t1) ss i)
        else
          some (tiles, rhs)
      match hit with
      | none => none
      | some (t1, rhs1) =>
        match resolve_tile_walls ss i lhs_rect t1 rest with
        | none => none
        | some (t2, rest1) => some (t2, rhs1 :: rest1)

/-- The outer loop `for (int i = 0; i < n; i++)` of the `TILE v WALL` part of
`resolve_collisions`: the first `n` iterations. -/
def resolve_tiles_loop (ss : spritesheet) :
    ℕ → tiles_t → walls_t → Option (tiles_t × walls_t)
  | 0, tiles, walls => some (tiles, walls)
  | n + 1, tiles, walls =>
    match resolve_tiles_loop ss n tiles walls with
    | none => none
    | some (t1, w1) =>
      let lhs_rect := get_tile_texture_rect ss (t1.tile_id n)
      match resolve_tile_walls ss n lhs_rect t1 w1.data with
      | none => none
      | some (t2, data) => some (t2, ⟨data⟩)

/-- The function `resolve_collisions` of collision.cpp for a population of
`N` tiles (`NUM_TILES` in the source); the renderer argument is not used.  The
result is `none` when a null sprite pointer is dereferenced. -/
def resolve_collisions (N : ℕ) (ss : spritesheet) (p : player_t) (tiles : tiles_t)
    (walls : walls_t) : Option (player_t × tiles_t × walls_t) :=
  match resolve_player_walls ss p walls.data with
  | none => none
  | some (p1, data) =>
    match resolve_tiles_loop ss N tiles ⟨data⟩ with
    | none => none
    | some (t1, w1) => some (p1, t1, w1)

/-! ## utility.cpp and the tile lifecycle -/

/-- The state of the C library generator behind `rand ()`: the value each
coming call returns, and the number of calls made so far. -/
structure rand_state where
  stream : ℕ → ℕ
  calls : ℕ

/-- The C library function `rand`. -/
def rand (g : rand_state) : ℕ × rand_state :=
  (g.stream g.calls, { g with calls := g.calls + 1 })

/-- The function `random_getd` of utility.cpp; `RAND_MAX` is the constant of
the C library.  The result is `none` when the assertion `max > min` fails. -/
def random_getd (RAND_MAX : ℕ) (min max : ℚ) (g : rand_state) : Option (ℚ × rand_state) :=
  if max > min then
    let random : ℚ := ((rand g).1 : ℚ) / (RAND_MAX : ℚ)
    let range : ℚ := max - min
    some (random * range + min, (rand g).2)
  else
    none

/-- The method `tiles_t::needs_replacing` of tiles.cpp. -/
def tiles_t.needs_replacing (tiles : tiles_t) (index : ℕ) : Bool :=
  if tiles.tile_id index = TILE_ID_WIDE ∧ tiles.lifetime index < 0 then true
  else tiles.is_eaten index

/-- The block shared by `create_tile` and `create_tile_wide`: a random position
on the screen and a normalised random velocity; `sqrt` is the square root of
the maths library. -/
def randomise_tile (RAND_MAX : ℕ) (sqrt : ℚ → ℚ) (tiles : tiles_t) (tile_index : ℕ)
    (g : rand_state) : Option (tiles_t × rand_state) := do
  let (px, g) ← random_getd RAND_MAX ((SCREEN_WIDTH : ℚ) / (-2)) ((SCREEN_WIDTH : ℚ) / 2) g
  let tiles : tiles_t := { tiles with pos_x := Function.update tiles.pos_x tile_index px }
  let (py, g) ← random_getd RAND_MAX ((SCREEN_HEIGHT : ℚ) / (-2)) ((SCREEN_HEIGHT : ℚ) / 2) g
  let tiles : tiles_t := { tiles with pos_y := Function.update tiles.pos_y tile_index py }
  let (vx, g) ← random_getd RAND_MAX (-1) 1 g
  let tiles : tiles_t := { tiles with vel_x := Function.update tiles.vel_x tile_index vx }
  let (vy, g) ← random_getd RAND_MAX (-1) 1 g
  let tiles : tiles_t := { tiles with vel_y := Function.update tiles.vel_y tile_index vy }
  let magnitude : ℚ :=
    sqrt (tiles.vel_x tile_index * tiles.vel_x tile_index
      + tiles.vel_y tile_index * tiles.vel_y tile_index)
  let tiles : tiles_t :=
    { tiles with vel_x := Function.update tiles.vel_x tile_index
                            (tiles.vel_x tile_index / magnitude) }
  let tiles : tiles_t :=
    { tiles with vel_y := Function.update tiles.vel_y tile_index
                            (tiles.vel_y tile_index / magnitude) }
  pure (tiles, g)

/-- The function `create_tile` of tiles.cpp. -/
def create_tile (RAND_MAX : ℕ) (sqrt : ℚ → ℚ) (tiles : tiles_t) (tile_index : ℕ)
    (g : rand_state) : Option (tiles_t × rand_state) :=
  let tiles : tiles_t := { tiles with is_eaten := Function.update tiles.is_eaten tile_index false }
  let tiles : tiles_t :=
    { tiles with tile_id := Function.update tiles.tile_id tile_index TILE_ID_NORMAL }
  randomise_tile RAND_MAX sqrt tiles tile_index g

/-- The function `create_tile_wide` of tiles.cpp. -/
def create_tile_wide (RAND_MAX : ℕ) (sqrt : ℚ → ℚ) (tiles : tiles_t) (tile_index : ℕ)
    (g : rand_state) : Option (tiles_t × rand_state) :=
  let tiles : tiles_t := { tiles with is_eaten := Function.update tiles.is_eaten tile_index false }
  let tiles : tiles_t :=
    { tiles with lifetime := Function.update tiles.lifetime tile_index TILE_WIDE_LIFETIIME }
  let tiles : tiles_t :=
    { tiles with tile_id := Function.update tiles.tile_id tile_index TILE_ID_WIDE }
  randomise_tile RAND_MAX sqrt tiles tile_index g

/-- The first loop of `replace_expired_tiles`,
`for (i < n) tiles.active[i] = !tiles.needs_replacing (i)`: the first `n`
iterations. -/
def mark_loop : ℕ → tiles_t → tiles_t
  | 0, tiles => tiles
  | n + 1, tiles =>
    let t1 := mark_loop n tiles
    { t1 with active := Function.update t1.active n (!t1.needs_replacing n) }

/-- The body of the second loop of `replace_expired_tiles` at the slot `i`. -/
def respawn_slot (RAND_MAX : ℕ) (sqrt : ℚ → ℚ) (i : ℕ) (tiles : tiles_t) (g : rand_state) :
    Option (tiles_t × rand_state) :=
  if !tiles.active i then
    match random_getd RAND_MAX 0 1 g with
    | none => none
    | some (random, g1) =>
      if random < PROBABILITY_WIDE then create_tile_wide RAND_MAX sqrt tiles i g1
      else create_tile RAND_MAX sqrt tiles i g1
  else
    some (tiles, g)

/-- The second loop of `replace_expired_tiles` (`CREATE NEW TILES`): the first
`n` iterations. -/
def respawn_loop (RAND_MAX : ℕ) (sqrt : ℚ → ℚ) :
    ℕ → tiles_t → rand_state → Option (tiles_t × rand_state)
  | 0, tiles, g => some (tiles, g)
  | n + 1, tiles, g =>
    match respawn_loop RAND_MAX sqrt n tiles g with
    | none => none
    | some (t1, g1) => respawn_slot RAND_MAX sqrt n t1 g1

/-- The function `replace_expired_tiles` of tiles.cpp for a population of `N`
tiles (`NUM_TILES` in the source). -/
def replace_expired_tiles (RAND_MAX : ℕ) (sqrt : ℚ → ℚ) (N : ℕ) (tiles : tiles_t)
    (g : rand_state) : Option (tiles_t × rand_state) :=
  respawn_loop RAND_MAX sqrt N (mark_loop N tiles) g

/-! ## tiles.cpp: update and initialisation -/

/-- The type `__m128` of the SSE intrinsics: four packed floats. -/
abbrev __m128 := Fin 4 → ℚ

/-- The intrinsic `_mm_set1_ps`: the same value in the four lanes. -/
def _mm_set1_ps (a : ℚ) : __m128 := fun _ => a

/-- The intrinsic `_mm_mul_ps`: the lane-wise product. -/
def _mm_mul_ps (a b : __m128) : __m128 := fun l => a l * b l

/-- The intrinsic `_mm_add_ps`: the lane-wise sum. -/
def _mm_add_ps (a b : __m128) : __m128 := fun l => a l + b l

/-- Reading the element `j` of a float array through a `__m128*`: the floats
`4 j` to `4 j + 3`. -/
def m128_load (arr : ℕ → ℚ) (j : ℕ) : __m128 := fun l => arr (4 * j + l.val)

/-- Writing the element `j` of a float array through a `__m128*`. -/
def m128_store (arr : ℕ → ℚ) (j : ℕ) (v : __m128) : ℕ → ℚ :=
  fun k => if k / 4 = j then v ⟨k % 4, Nat.mod_lt k (by decide)⟩ else arr k

/-- The constant `TILE_SPEED_ROTATION` of constants.h; `two_pi` is the constant
of the maths library. -/
def TILE_SPEED_ROTATION (two_pi : ℚ) : ℚ := two_pi * 2

/-- The first loop of `tiles_t::update`, over the arrays seen as arrays of
`__m128`: the first `n` iterations. -/
def update_simd_loop (speed angle_speed : __m128) : ℕ → tiles_t → tiles_t
  | 0, tiles => tiles
  | n + 1, tiles =>
    let tiles := update_simd_loop speed angle_speed n tiles
    let temp_x := _mm_mul_ps (m128_load tiles.vel_x n) speed
    let tiles : tiles_t :=
      { tiles with pos_x := m128_store tiles.pos_x n (_mm_add_ps (m128_load tiles.pos_x n) temp_x) }
    let temp_y := _mm_mul_ps (m128_load tiles.vel_y n) speed
    let tiles : tiles_t :=
      { tiles with pos_y := m128_store tiles.pos_y n (_mm_add_ps (m128_load tiles.pos_y n) temp_y) }
    -- update angle: the product is computed and not stored
    let _temp_angle := _mm_mul_ps (m128_load tiles.angle_radians n) angle_speed
    tiles

/-- The second loop of `tiles_t::update`: the first `n` iterations; `mod` is
the function of the maths library. -/
def update_scalar_loop (two_pi : ℚ) (mod : ℚ → ℚ → ℚ) (elapsed : ℚ) : ℕ → tiles_t → tiles_t
  | 0, tiles => tiles
  | n + 1, tiles =>
    let tiles := update_scalar_loop two_pi mod elapsed n tiles
    let angle_limit : ℚ := two_pi
    let tiles : tiles_t :=
      { tiles with angle_radians := Function.update tiles.angle_radians n
                                      (mod (tiles.angle_radians n) angle_limit) }
    if tiles.tile_id n = TILE_ID_WIDE then
      { tiles with lifetime := Function.update tiles.lifetime n (tiles.lifetime n - elapsed) }
    else
      tiles

/-- The method `tiles_t::update` of tiles.cpp for a population of `N` tiles
(`NUM_TILES` in the source); the sprite sheet argument is not used. -/
def tiles_t.update (two_pi : ℚ) (mod : ℚ → ℚ → ℚ) (N : ℕ) (tiles : tiles_t) (elapsed : ℚ) :
    tiles_t :=
  let speed := _mm_set1_ps (TILE_SPEED_MOVEMENT * elapsed)
  let angle_speed := _mm_set1_ps (TILE_SPEED_ROTATION two_pi * elapsed)
  let tiles := update_simd_loop speed angle_speed (N / 4) tiles
  update_scalar_loop two_pi mod elapsed N tiles

/-- The loop of `initialise_tiles`: the first `n` iterations. -/
def initialise_loop : ℕ → tiles_t → tiles_t
  | 0, tiles => tiles
  | n + 1, tiles =>
    let tiles := initialise_loop n tiles
    let tiles : tiles_t := { tiles with is_eaten := Function.update tiles.is_eaten n true }
    { tiles with tile_id := Function.update tiles.tile_id n TILE_ID_NORMAL }

/-- The function `initialise_tiles` of tiles.cpp for a population of `N` tiles
(`NUM_TILES` in the source). -/
def initialise_tiles (RAND_MAX : ℕ) (sqrt : ℚ → ℚ) (N : ℕ) (tiles : tiles_t) (g : rand_state) :
    Option (tiles_t × rand_state) :=
  replace_expired_tiles RAND_MAX sqrt N (initialise_loop N tiles) g

/-! ## player.cpp: update and replacement -/

/-- The held directions as `update` reads them: for each direction the value
of `controller.is_key_down (..) || controller.is_down (..)`. -/
structure input_t where
  left : Bool
  right : Bool
  up : Bool
  down : Bool
  deriving DecidableEq

/-- The position update shared by `player_normal_t::update` and
`player_wide_t::update`, with the speed multiplier of the class. -/
def move_player (position : vector4) (held : input_t) (multiplier elapsed : ℚ) : vector4 :=
  let position : vector4 :=
    if held.left then { position with x := position.x - PLAYER_SPEED * multiplier * elapsed }
    else position
  let position : vector4 :=
    if held.right then { position with x := position.x + PLAYER_SPEED * multiplier * elapsed }
    else position
  let position : vector4 :=
    if held.up then { position with y := position.y + PLAYER_SPEED * multiplier * elapsed }
    else position
  let position : vector4 :=
    if held.down then { position with y := position.y - PLAYER_SPEED * multiplier * elapsed }
    else position
  position

/-- The methods `player_normal_t::update` and `player_wide_t::update` of
player.cpp, selected by the dynamic class; `held` is the state of the input
device. -/
def player_t.update (player : player_t) (held : input_t) (elapsed : ℚ) : player_t :=
  match player.cls with
  | .player_normal_t =>
    { player with
      position := move_player player.position held PLAYER_SPEED_MULTIPLIER_NORMAL elapsed }
  | .player_wide_t lifetime =>
    let player : player_t :=
      { player with
        position := move_player player.position held PLAYER_SPEED_MULTIPLIER_WIDE elapsed }
    -- update lifetime: player_wide_t only
    let lifetime := lifetime - elapsed
    let player : player_t := { player with cls := .player_wide_t lifetime }
    if lifetime < 0 then { player with new_player_id := PLAYER_ID_NORMAL } else player

/-- The constructor `player_normal_t::player_normal_t`. -/
def player_normal_t (position_x position_y : ℚ) : player_t :=
  ⟨⟨position_x, position_y, 0, 0⟩, "", .player_normal_t⟩

/-- The constructor `player_wide_t::player_wide_t`. -/
def player_wide_t (position_x position_y : ℚ) : player_t :=
  ⟨⟨position_x, position_y, 0, 0⟩, "", .player_wide_t PLAYER_WIDE_LIFETIME⟩

/-- The function `initialise_player` of player.cpp. -/
def initialise_player : player_t := player_normal_t 0 0

/-- The function `check_player_needs_replacing` of player.cpp. -/
def check_player_needs_replacing (player : player_t) : player_t :=
  if player.new_player_id = PLAYER_ID_WIDE then
    let old_position := player.position
    player_wide_t old_position.x old_position.y
  else if player.new_player_id = PLAYER_ID_NORMAL then
    let old_position := player.position
    player_normal_t old_position.x old_position.y
  else
    player

/-! ## The scalar position update -/

/-- The scalar per-tile position update that the vectorised loop of
`tiles_t::update` stands for, in the words of the specification:
`pos[i] += vel[i] * TILE_SPEED_MOVEMENT * elapsed` for every slot below `n`. -/
def update_positions_scalar (elapsed : ℚ) : ℕ → tiles_t → tiles_t
  | 0, tiles => tiles
  | n + 1, tiles =>
    let tiles := update_positions_scalar elapsed n tiles
    let tiles : tiles_t :=
      { tiles with pos_x := Function.update tiles.pos_x n
                              (tiles.pos_x n + tiles.vel_x n * TILE_SPEED_MOVEMENT * elapsed) }
    { tiles with pos_y := Function.update tiles.pos_y n
                            (tiles.pos_y n + tiles.vel_y n * TILE_SPEED_MOVEMENT * elapsed) }

/-! ## Frame predicate -/

/-- The stores `a` and `b` differ at most in the position and the velocity of
the slot `j`. -/
def same_outside (j : ℕ) (a b : tiles_t) : Prop :=
  b.tile_id = a.tile_id ∧ b.is_eaten = a.is_eaten ∧ b.active = a.active ∧
  b.lifetime = a.lifetime ∧ b.angle_radians = a.angle_radians ∧
  ∀ k, k ≠ j →
    b.pos_x k = a.pos_x k ∧ b.pos_y k = a.pos_y k ∧ b.vel_x k = a.vel_x k ∧ b.vel_y k = a.vel_y k

/-- The stores `a` and `b` hold the same data in the slot `k`. -/
def slot_same (a b : tiles_t) (k : ℕ) : Prop :=
  b.pos_x k = a.pos_x k ∧ b.pos_y k = a.pos_y k ∧ b.vel_x k = a.vel_x k ∧
  b.vel_y k = a.vel_y k ∧ b.angle_radians k = a.angle_radians k ∧
  b.lifetime k = a.lifetime k ∧ b.tile_id k = a.tile_id k ∧ b.is_eaten k = a.is_eaten k ∧
  b.active k = a.active k

/-- The value `random_getd (min, max)` returns at the `k`-th coming call of
`rand ()`. -/
def draw (RAND_MAX : ℕ) (g : rand_state) (k : ℕ) (min max : ℚ) : ℚ :=
  (g.stream (g.calls + k) : ℚ) / (RAND_MAX : ℚ) * (max - min) + min

/-- The slot `k` holds a freshly created tile: not eaten, and Normal, or Wide
with the full lifetime. -/
def fresh (t : tiles_t) (k : ℕ) : Prop :=
  t.is_eaten k = false ∧
    (t.tile_id k = TILE_ID_NORMAL ∨
      (t.tile_id k = TILE_ID_WIDE ∧ t.lifetime k = TILE_WIDE_LIFETIIME))

/-- The slot `i` of the store `t1` holds the tile that a respawn makes from the
five draws that follow the generator state `gi`: the variant draw, the two
position draws and the two velocity draws, the velocity divided by what `sqrt`
returns for its squared length. -/
def respawned_from (RAND_MAX : ℕ) (sqrt : ℚ → ℚ) (gi : rand_state) (t1 : tiles_t) (i : ℕ) :
    Prop :=
  t1.is_eaten i = false ∧
  t1.pos_x i = draw RAND_MAX gi 1 ((SCREEN_WIDTH : ℚ) / (-2)) ((SCREEN_WIDTH : ℚ) / 2) ∧
  t1.pos_y i = draw RAND_MAX gi 2 ((SCREEN_HEIGHT : ℚ) / (-2)) ((SCREEN_HEIGHT : ℚ) / 2) ∧
  t1.vel_x i = draw RAND_MAX gi 3 (-1) 1 /
    sqrt (draw RAND_MAX gi 3 (-1) 1 * draw RAND_MAX gi 3 (-1) 1
      + draw RAND_MAX gi 4 (-1) 1 * draw RAND_MAX gi 4 (-1) 1) ∧
  t1.vel_y i = draw RAND_MAX gi 4 (-1) 1 /
    sqrt (draw RAND_MAX gi 3 (-1) 1 * draw RAND_MAX gi 3 (-1) 1
      + draw RAND_MAX gi 4 (-1) 1 * draw RAND_MAX gi 4 (-1) 1) ∧
  (draw RAND_MAX gi 0 0 1 < PROBABILITY_WIDE →
    t1.tile_id i = TILE_ID_WIDE ∧ t1.lifetime i = TILE_WIDE_LIFETIIME) ∧
  (¬ draw RAND_MAX gi 0 0 1 < PROBABILITY_WIDE → t1.tile_id i = TILE_ID_NORMAL)

/-- Every respawn of the pass `replace_expired_tiles` from the store `t` and the
generator state `g` draws a velocity vector that satisfies `ok`: `gi` is the
generator state in which the respawn loop reaches a slot whose active flag is
clear, and the velocity draws are the fourth and the fifth draw after it. -/
def respawns_ok (ok : ℚ → ℚ → Prop) (RAND_MAX : ℕ) (sqrt : ℚ → ℚ) (N : ℕ) (t : tiles_t)
    (g : rand_state) : Prop :=
  ∀ i ti gi, i < N → respawn_loop RAND_MAX sqrt i (mark_loop N t) g = some (ti, gi) →
    ti.active i = false → ok (draw RAND_MAX gi 3 (-1) 1) (draw RAND_MAX gi 4 (-1) 1)

/-- The states of the tile store and of the generator that are reachable from
`initialise_tiles` by `tiles_t::update`, `resolve_collisions` and
`replace_expired_tiles`, through passes whose respawns all draw a velocity
vector that satisfies `ok`. -/
inductive reachable (ok : ℚ → ℚ → Prop) (RAND_MAX : ℕ) (sqrt : ℚ → ℚ) (two_pi : ℚ)
    (mod : ℚ → ℚ → ℚ) (N : ℕ) : tiles_t → rand_state → Prop where
  | init (t : tiles_t) (g : rand_state) (t1 : tiles_t) (g1 : rand_state) :
      respawns_ok ok RAND_MAX sqrt N (initialise_loop N t) g →
      initialise_tiles RAND_MAX sqrt N t g = some (t1, g1) →
      reachable ok RAND_MAX sqrt two_pi mod N t1 g1
  | update (t : tiles_t) (g : rand_state) (elapsed : ℚ) :
      reachable ok RAND_MAX sqrt two_pi mod N t g →
      reachable ok RAND_MAX sqrt two_pi mod N (t.update two_pi mod N elapsed) g
  | collide (t : tiles_t) (g : rand_state) (ss : spritesheet) (p : player_t) (walls : walls_t)
      (p1 : player_t) (t1 : tiles_t) (w1 : walls_t) :
      reachable ok RAND_MAX sqrt two_pi mod N t g →
      resolve_collisions N ss p t walls = some (p1, t1, w1) →
      reachable ok RAND_MAX sqrt two_pi mod N t1 g
  | replace (t : tiles_t) (g : rand_state) (t1 : tiles_t) (g1 : rand_state) :
      reachable ok RAND_MAX sqrt two_pi mod N t g →
      respawns_ok ok RAND_MAX sqrt N t g →
      replace_expired_tiles RAND_MAX sqrt N t g = some (t1, g1) →
      reachable ok RAND_MAX sqrt two_pi mod N t1 g1

/-! ## Concrete inputs -/

/-- A sprite sheet that holds a 32 x 32 sprite under every name. -/
def sheet32 : spritesheet := ⟨fun _ => some ⟨32, 32⟩⟩

/-- A tile store with every slot at the origin, moving with velocity (1, 0),
of the Normal variant, not eaten. -/
def tiles0 : tiles_t :=
  { pos_x := fun _ => 0, pos_y := fun _ => 0, vel_x := fun _ => 1, vel_y := fun _ => 0,
    angle_radians := fun _ => 0, lifetime := fun _ => 0, tile_id := fun _ => TILE_ID_NORMAL,
    is_eaten := fun _ => false, active := fun _ => true }

/-- The right wall of the 1280 x 720 screen. -/
def wall_right_1280 : wall_t := ⟨1330, ⟨1300, 0, 0, 0⟩, WALL_ID_RIGHT⟩

/-- The left wall of the 1280 x 720 screen. -/
def wall_left_1280 : wall_t := ⟨1330, ⟨-1300, 0, 0, 0⟩, WALL_ID_LEFT⟩

/-- The top wall of the 1280 x 720 screen. -/
def wall_top_1280 : wall_t := ⟨1330, ⟨0, 1020, 0, 0⟩, WALL_ID_TOP⟩

/-- The bottom wall of the 1280 x 720 screen. -/
def wall_bottom_1280 : wall_t := ⟨1330, ⟨0, -1020, 0, 0⟩, WALL_ID_BOTTOM⟩

/-- The store `tiles0` with the slot 0 at (700, 0). -/
def tiles700 : tiles_t :=
  { tiles0 with pos_x := fun k => if k = 0 then 700 else 0 }

/-- The store `tiles0` with every slot eaten. -/
def tiles_eaten : tiles_t :=
  { tiles0 with is_eaten := fun _ => true }

/-- A generator whose `rand ()` always returns 0. -/
def rand0 : rand_state := ⟨fun _ => 0, 0⟩

/-- A Normal player at the origin with no pending transition. -/
def player0 : player_t := ⟨⟨0, 0, 0, 0⟩, "", .player_normal_t⟩

/-- A stand-in for the `mod` of the maths library on rationals:
`x - y * floor (x / y)`. -/
def floor_mod (x y : ℚ) : ℚ := x - y * (⌊x / y⌋ : ℤ)

/-- The store `tiles0` with every slot of the Wide variant and lifetime 3. -/
def tiles_wide : tiles_t :=
  { tiles0 with tile_id := fun _ => TILE_ID_WIDE, lifetime := fun _ => 3 }

/-- A Wide player at (10, 20) with lifetime 1 and no pending transition. -/
def player_wide1 : player_t := ⟨⟨10, 20, 0, 0⟩, "", .player_wide_t 1⟩

/-- A Normal player at (10, 20) with a pending transition to Wide. -/
def player_pending_wide : player_t := ⟨⟨10, 20, 0, 0⟩, PLAYER_ID_WIDE, .player_normal_t⟩

/-- The input state with no direction held. -/
def held_none : input_t := ⟨false, false, false, false⟩

/-- The input state with left and right held. -/
def held_left_right : input_t := ⟨true, true, false, false⟩

/-- The store `tiles_eaten` with the slot 0 not eaten. -/
def tiles_eaten_but0 : tiles_t :=
  { tiles_eaten with is_eaten := fun k => decide (k ≠ 0) }

/-! ## The embedding over an ordered field

The square root of a rational number is in general not rational: with
`RAND_MAX` odd, no velocity that `random_getd` draws has a rational length.
The definitions of this section are the definitions above with an arbitrary
linearly ordered field `K` in the place of `ℚ`, so that `sqrt` can be an exact
square root (as it is on the real numbers).  The generator, the identifiers and
the constants are the ones above, the constants through the inclusion of `ℚ`
in `K`. -/

namespace ordered_field

variable {K : Type} [LinearOrderedField K]

/-- The struct `vector4` of utility.h. -/
structure vector4 (K : Type) where
  x : K
  y : K
  z : K
  w : K

/-! ### collision.cpp: the overlap test -/

/-- The function `is_overlapping` of collision.cpp: both boxes are given by
their centre and their full width and height. -/
def is_overlapping (lhs_position_x lhs_position_y lhs_width lhs_height
    rhs_position_x rhs_position_y rhs_width rhs_height : K) : Bool :=
  let overlap : K := 4
  let lhs_bound_left := lhs_position_x - (lhs_width - overlap) / 2
  let lhs_bound_right := lhs_position_x + (lhs_width - overlap) / 2
  let lhs_bound_bottom := lhs_position_y - (lhs_height - overlap) / 2
  let lhs_bound_top := lhs_position_y + (lhs_height - overlap) / 2
  let rhs_bound_left := rhs_position_x - (rhs_width - overlap) / 2
  let rhs_bound_right := rhs_position_x + (rhs_width - overlap) / 2
  let rhs_bound_bottom := rhs_position_y - (rhs_height - overlap) / 2
  let rhs_bound_top := rhs_position_y + (rhs_height - overlap) / 2
  decide (lhs_bound_left < rhs_bound_right)
    && decide (lhs_bound_right > rhs_bound_left)
    && decide (lhs_bound_bottom < rhs_bound_top)
    && decide (lhs_bound_top > rhs_bound_bottom)

/-! ### The rendering library: sprite metadata -/

/-- The struct `texture_rect` of the rendering library, as far as the game reads
it: the pixel width and height of a sprite, after the cast to floating point. -/
structure texture_rect (K : Type) where
  width : K
  height : K

/-- The class `magpie::spritesheet` of the rendering library, as far as the game
uses it: the lookup `get_sprite_info` by file name; `none` is the null pointer. -/
structure spritesheet (K : Type) where
  get_sprite_info : String → Option (texture_rect K)

/-! ### walls.cpp -/

/-- The class `wall_t` of walls.h. -/
structure wall_t (K : Type) where
  size : K
  position : vector4 K
  id : object_id_t

/-- The struct `walls_t` of walls.h (a `std::list` of walls). -/
structure walls_t (K : Type) where
  data : List (wall_t K)

/-- The method `wall_t::get_id`. -/
def wall_t.get_id (wall : wall_t K) : object_id_t := wall.id

/-! ### tiles.cpp: the tile store -/

/-- Modelled from the spec: the declaration of the struct `tiles_t` that
tiles.cpp and collision.cpp use is not in the source (tiles.h still declares the
earlier per-object tiles).  The spec's data model gives it as a structure of
parallel arrays: position-x, position-y, velocity-x, velocity-y, rotation angle,
remaining lifetime, variant id, eaten flag and active flag.  The field names are
the ones tiles.cpp uses. -/
structure tiles_t (K : Type) where
  pos_x : ℕ → K
  pos_y : ℕ → K
  vel_x : ℕ → K
  vel_y : ℕ → K
  angle_radians : ℕ → K
  lifetime : ℕ → K
  tile_id : ℕ → object_id_t
  is_eaten : ℕ → Bool
  active : ℕ → Bool

/-- Modelled from the spec: collision.cpp reads `tiles.position[i].x` and
`tiles.position[i].y`, a member whose declaration is not in the source.  In the
spec's data model a slot has one position, its position-x and position-y, so
the member is read as the pair `(pos_x[i], pos_y[i])`. -/
def tiles_t.position (tiles : tiles_t K) (i : ℕ) : vector4 K :=
  ⟨tiles.pos_x i, tiles.pos_y i, 0, 0⟩

/-- The method `tiles_t::get_id`. -/
def tiles_t.get_id (tiles : tiles_t K) (index : ℕ) : object_id_t := tiles.tile_id index

/-- The function `get_tile_texture_rect` of tiles.cpp; `none` is the null
pointer. -/
def get_tile_texture_rect (ss : spritesheet K) (id : object_id_t) : Option (texture_rect K) :=
  if id = TILE_ID_WIDE then ss.get_sprite_info "tile_1.png"
  else if id = TILE_ID_NORMAL then ss.get_sprite_info "tile_0.png"
  else none

/-- The function `collision_resolve_tile_wall` of tiles.cpp.  The result is
`none` when the null sprite pointer is dereferenced. -/
def collision_resolve_tile_wall (ss : spritesheet K) (tiles : tiles_t K) (wall : wall_t K)
    (tiles_index : ℕ) : Option (tiles_t K) :=
  -- velocity response
  let tiles : tiles_t K :=
    if wall.get_id = WALL_ID_LEFT ∨ wall.get_id = WALL_ID_RIGHT then
      { tiles with vel_x := Function.update tiles.vel_x tiles_index (-tiles.vel_x tiles_index) }
    else
      { tiles with vel_y := Function.update tiles.vel_y tiles_index (-tiles.vel_y tiles_index) }
  let tex_rect := get_tile_texture_rect ss (tiles.get_id tiles_index)
  -- position response
  if wall.get_id = WALL_ID_LEFT then
    let tiles : tiles_t K :=
      { tiles with pos_x := Function.update tiles.pos_x tiles_index
                              (wall.position.x + wall.size / 2) }
    tex_rect.map fun r =>
      { tiles with pos_x := Function.update tiles.pos_x tiles_index
                              (tiles.pos_x tiles_index + r.width / 2) }
  else if wall.get_id = WALL_ID_RIGHT then
    let tiles : tiles_t K :=
      { tiles with pos_x := Function.update tiles.pos_x tiles_index
                              (wall.position.x - wall.size / 2) }
    tex_rect.map fun r =>
      { tiles with pos_x := Function.update tiles.pos_x tiles_index
                              (tiles.pos_x tiles_index - r.width / 2) }
  else if wall.get_id = WALL_ID_TOP then
    let tiles : tiles_t K :=
      { tiles with pos_y := Function.update tiles.pos_y tiles_index
                              (wall.position.y - wall.size / 2) }
    tex_rect.map fun r =>
      { tiles with pos_y := Function.update tiles.pos_y tiles_index
                              (tiles.pos_y tiles_index - r.height / 2) }
  else if wall.get_id = WALL_ID_BOTTOM then
    let tiles : tiles_t K :=
      { tiles with pos_y := Function.update tiles.pos_y tiles_index
                              (wall.position.y + wall.size / 2) }
    tex_rect.map fun r =>
      { tiles with pos_y := Function.update tiles.pos_y tiles_index
                              (tiles.pos_y tiles_index + r.height / 2) }
  else
    some tiles

/-! ### player.cpp -/

/-- The dynamic class of the object behind a `player_t*`: `player_normal_t`, or
`player_wide_t` with its `lifetime` member. -/
inductive player_class_t (K : Type) where
  | player_normal_t
  | player_wide_t (lifetime : K)

/-- The class `player_t` of player.h together with the dynamic class of the
object; the input device handle `controller` is left out. -/
structure player_t (K : Type) where
  position : vector4 K
  new_player_id : object_id_t
  cls : player_class_t K

/-- The methods `player_normal_t::get_id` and `player_wide_t::get_id`. -/
def player_t.get_id (player : player_t K) : object_id_t :=
  match player.cls with
  | .player_normal_t => PLAYER_ID_NORMAL
  | .player_wide_t _ => PLAYER_ID_WIDE

/-- The function `get_player_texture_rect` of player.cpp; `none` is the null
pointer. -/
def get_player_texture_rect (ss : spritesheet K) (id : object_id_t) : Option (texture_rect K) :=
  if id = PLAYER_ID_WIDE then ss.get_sprite_info "player_1.png"
  else if id = PLAYER_ID_NORMAL then ss.get_sprite_info "player_0.png"
  else none

/-- The function `collision_resolve_player_wall` of player.cpp.  The result is
`none` when the null sprite pointer is dereferenced. -/
def collision_resolve_player_wall (ss : spritesheet K) (player : player_t K) (wall : wall_t K) :
    Option (player_t K) :=
  let tex_rect := get_player_texture_rect ss player.get_id
  if wall.get_id = WALL_ID_LEFT then
    let player : player_t K :=
      { player with position := { player.position with x := wall.position.x + wall.size / 2 } }
    tex_rect.map fun r =>
      { player with position := { player.position with x := player.position.x + r.width / 2 } }
  else if wall.get_id = WALL_ID_RIGHT then
    let player : player_t K :=
      { player with position := { player.position with x := wall.position.x - wall.size / 2 } }
    tex_rect.map fun r =>
      { player with position := { player.position with x := player.position.x - r.width / 2 } }
  else if wall.get_id = WALL_ID_TOP then
    let player : player_t K :=
      { player with position := { player.position with y := wall.position.y - wall.size / 2 } }
    tex_rect.map fun r =>
      { player with position := { player.position with y := player.position.y - r.height / 2 } }
  else if wall.get_id = WALL_ID_BOTTOM then
    let player : player_t K :=
      { player with position := { player.position with y := wall.position.y + wall.size / 2 } }
    tex_rect.map fun r =>
      { player with position := { player.position with y := player.position.y + r.height / 2 } }
  else
    some player

/-! ### The collision payload -/

/-- The `void* other_data` argument of the `on_collision` callbacks: the object
the pointer refers to.  A `tile` is an object read through a `tile_t*`, on which
only `get_id` is ever called. -/
inductive other_data_t (K : Type) where
  | player (p : player_t K)
  | tile (id : object_id_t)
  | tiles (t : tiles_t K)
  | wall (w : wall_t K)

/-- The method `wall_t::on_collision` of walls.cpp (empty body). -/
def wall_t.on_collision (wall : wall_t K) (_other_type : object_type_t)
    (_other_data : other_data_t K) (_ss : spritesheet K) (_index : ℤ) : wall_t K :=
  wall

/-- The method `tiles_t::on_collision` of tiles.cpp.  The result is `none` when
`other_data` is cast to a `wall_t*` without referring to a wall, or when the
null sprite pointer is dereferenced. -/
def tiles_t.on_collision (tiles : tiles_t K) (other_type : object_type_t)
    (other_data : other_data_t K) (ss : spritesheet K) (tiles_index : ℕ) : Option (tiles_t K) :=
  if other_type = WALL_TYPE then
    match other_data with
    | .wall w => collision_resolve_tile_wall ss tiles w tiles_index
    | _ => none
  else if other_type = PLAYER_TYPE then
    some { tiles with is_eaten := Function.update tiles.is_eaten tiles_index true }
  else
    some tiles

/-- The methods `player_normal_t::on_collision` and
`player_wide_t::on_collision` of player.cpp, selected by the dynamic class.  The
result is `none` when `other_data` is cast to a pointer type it does not refer
to, or when the null sprite pointer is dereferenced. -/
def player_t.on_collision (player : player_t K) (other_type : object_type_t)
    (other_data : other_data_t K) (ss : spritesheet K) : Option (player_t K) :=
  match player.cls with
  | .player_normal_t =>
    if other_type = WALL_TYPE then
      match other_data with
      | .wall w => collision_resolve_player_wall ss player w
      | _ => none
    else if other_type = TILE_TYPE then
      match other_data with
      | .tile id =>
        if id = TILE_ID_WIDE then some { player with new_player_id := PLAYER_ID_WIDE }
        else some player
      | _ => none
    else
      some player
  | .player_wide_t _ =>
    if other_type = WALL_TYPE then
      match other_data with
      | .wall w => collision_resolve_player_wall ss player w
      | _ => none
    else if other_type = TILE_TYPE then
      match other_data with
      | .tile _ => some player
      | _ => none
    else
      some player

/-! ### collision.cpp: the resolver -/

/-- The `PLAYER v WALL` loop of `resolve_collisions`, over the walls that are
still to be visited; it returns the player and the visited walls. -/
def resolve_player_walls (ss : spritesheet K) :
    player_t K → List (wall_t K) → Option (player_t K × List (wall_t K))
  | p, [] => some (p, [])
  | p, rhs :: rest =>
    match get_player_texture_rect ss p.get_id with
    | none => none
    | some lhs_rect =>
      let hit : Option (player_t K × wall_t K) :=
        if is_overlapping p.position.x p.position.y lhs_rect.width lhs_rect.height
            rhs.position.x rhs.position.y rhs.size rhs.size then
          match p.on_collision WALL_TYPE (.wall rhs) ss with
          | none => none
          | some p1 => some (p1, rhs.on_collision PLAYER_TYPE (.player p1) ss (-1))
        else
          some (p, rhs)
      match hit with
      | none => none
      | some (p1, rhs1) =>
        match resolve_player_walls ss p1 rest with
        | none => none
        | some (p2, rest1) => some (p2, rhs1 :: rest1)

/-- The inner loop of the `TILE v WALL` part of `resolve_collisions` for the
slot `i`, over the walls that are still to be visited; `lhs_rect` is the sprite
pointer fetched before the loop. -/
def resolve_tile_walls (ss : spritesheet K) (i : ℕ) (lhs_rect : Option (texture_rect K)) :
    tiles_t K → List (wall_t K) → Option (tiles_t K × List (wall_t K))
  | tiles, [] => some (tiles, [])
  | tiles, rhs :: rest =>
    match lhs_rect with
    | none => none
    | some r =>
      let hit : Option (tiles_t K × wall_t K) :=
        if is_overlapping (tiles.position i).x (tiles.position i).y r.width r.height
            rhs.position.x rhs.position.y rhs.size rhs.size then
          match tiles.on_collision WALL_TYPE (.wall rhs) ss i with
          | none => none
          | some t1 => some (t1, rhs.on_collision TILE_TYPE (.tiles t1) ss i)
        else
          some (tiles, rhs)
      match hit with
      | none => none
      | some (t1, rhs1) =>
        match resolve_tile_walls ss i lhs_rect t1 rest with
        | none => none
        | some (t2, rest1) => some (t2, rhs1 :: rest1)

/-- The outer loop `for (int i = 0; i < n; i++)` of the `TILE v WALL` part of
`resolve_collisions`: the first `n` iterations. -/
def resolve_tiles_loop (ss : spritesheet K) :
    ℕ → tiles_t K → walls_t K → Option (tiles_t K × walls_t K)
  | 0, tiles, walls => some (tiles, walls)
  | n + 1, tiles, walls =>
    match resolve_tiles_loop ss n tiles walls with
    | none => none
    | some (t1, w1) =>
      let lhs_rect := get_tile_texture_rect ss (t1.tile_id n)
      match resolve_tile_walls ss n lhs_rect t1 w1.data with
      | none => none
      | some (t2, data) => some (t2, ⟨data⟩)

/-- The function `resolve_collisions` of collision.cpp for a population of
`N` tiles (`NUM_TILES` in the source); the renderer argument is not used.  The
result is `none` when a null sprite pointer is dereferenced. -/
def resolve_collisions (N : ℕ) (ss : spritesheet K) (p : player_t K) (tiles : tiles_t K)
    (walls : walls_t K) : Option (player_t K × tiles_t K × walls_t K) :=
  match resolve_player_walls ss p walls.data with
  | none => none
  | some (p1, data) =>
    match resolve_tiles_loop ss N tiles ⟨data⟩ with
    | none => none
    | some (t1, w1) => some (p1, t1, w1)

/-! ### utility.cpp and the tile lifecycle -/

/-- The function `random_getd` of utility.cpp; `RAND_MAX` is the constant of
the C library.  The result is `none` when the assertion `max > min` fails. -/
def random_getd (RAND_MAX : ℕ) (min max : K) (g : rand_state) : Option (K × rand_state) :=
  if max > min then
    let random : K := ((rand g).1 : K) / (RAND_MAX : K)
    let range : K := max - min
    some (random * range + min, (rand g).2)
  else
    none

/-- The method `tiles_t::needs_replacing` of tiles.cpp. -/
def tiles_t.needs_replacing (tiles : tiles_t K) (index : ℕ) : Bool :=
  if tiles.tile_id index = TILE_ID_WIDE ∧ tiles.lifetime index < 0 then true
  else tiles.is_eaten index

/-- The block shared by `create_tile` and `create_tile_wide`: a random position
on the screen and a normalised random velocity; `sqrt` is the square root of
the maths library. -/
def randomise_tile (RAND_MAX : ℕ) (sqrt : K → K) (tiles : tiles_t K) (tile_index : ℕ)
    (g : rand_state) : Option (tiles_t K × rand_state) := do
  let (px, g) ← random_getd RAND_MAX ((SCREEN_WIDTH : K) / (-2)) ((SCREEN_WIDTH : K) / 2) g
  let tiles : tiles_t K := { tiles with pos_x := Function.update tiles.pos_x tile_index px }
  let (py, g) ← random_getd RAND_MAX ((SCREEN_HEIGHT : K) / (-2)) ((SCREEN_HEIGHT : K) / 2) g
  let tiles : tiles_t K := { tiles with pos_y := Function.update tiles.pos_y tile_index py }
  let (vx, g) ← random_getd RAND_MAX (-1) 1 g
  let tiles : tiles_t K := { tiles with vel_x := Function.update tiles.vel_x tile_index vx }
  let (vy, g) ← random_getd RAND_MAX (-1) 1 g
  let tiles : tiles_t K := { tiles with vel_y := Function.update tiles.vel_y tile_index vy }
  let magnitude : K :=
    sqrt (tiles.vel_x tile_index * tiles.vel_x tile_index
      + tiles.vel_y tile_index * tiles.vel_y tile_index)
  let tiles : tiles_t K :=
    { tiles with vel_x := Function.update tiles.vel_x tile_index
                            (tiles.vel_x tile_index / magnitude) }
  let tiles : tiles_t K :=
    { tiles with vel_y := Function.update tiles.vel_y tile_index
                            (tiles.vel_y tile_index / magnitude) }
  pure (tiles, g)

/-- The function `create_tile` of tiles.cpp. -/
def create_tile (RAND_MAX : ℕ) (sqrt : K → K) (tiles : tiles_t K) (tile_index : ℕ)
    (g : rand_state) : Option (tiles_t K × rand_state) :=
  let tiles : tiles_t K := { tiles with is_eaten := Function.update tiles.is_eaten tile_index false }
  let tiles : tiles_t K :=
    { tiles with tile_id := Function.update tiles.tile_id tile_index TILE_ID_NORMAL }
  randomise_tile RAND_MAX sqrt tiles tile_index g

/-- The function `create_tile_wide` of tiles.cpp. -/
def create_tile_wide (RAND_MAX : ℕ) (sqrt : K → K) (tiles : tiles_t K) (tile_index : ℕ)
    (g : rand_state) : Option (tiles_t K × rand_state) :=
  let tiles : tiles_t K := { tiles with is_eaten := Function.update tiles.is_eaten tile_index false }
  let tiles : tiles_t K :=
    { tiles with lifetime := Function.update tiles.lifetime tile_index (TILE_WIDE_LIFETIIME : K) }
  let tiles : tiles_t K :=
    { tiles with tile_id := Function.update tiles.tile_id tile_index TILE_ID_WIDE }
  randomise_tile RAND_MAX sqrt tiles tile_index g

/-- The first loop of `replace_expired_tiles`,
`for (i < n) tiles.active[i] = !tiles.needs_replacing (i)`: the first `n`
iterations. -/
def mark_loop : ℕ → tiles_t K → tiles_t K
  | 0, tiles => tiles
  | n + 1, tiles =>
    let t1 := mark_loop n tiles
    { t1 with active := Function.update t1.active n (!t1.needs_replacing n) }

/-- The body of the second loop of `replace_expired_tiles` at the slot `i`. -/
def respawn_slot (RAND_MAX : ℕ) (sqrt : K → K) (i : ℕ) (tiles : tiles_t K) (g : rand_state) :
    Option (tiles_t K × rand_state) :=
  if !tiles.active i then
    match random_getd RAND_MAX 0 1 g with
    | none => none
    | some (random, g1) =>
      if random < (PROBABILITY_WIDE : K) then create_tile_wide RAND_MAX sqrt tiles i g1
      else create_tile RAND_MAX sqrt tiles i g1
  else
    some (tiles, g)

/-- The second loop of `replace_expired_tiles` (`CREATE NEW TILES`): the first
`n` iterations. -/
def respawn_loop (RAND_MAX : ℕ) (sqrt : K → K) :
    ℕ → tiles_t K → rand_state → Option (tiles_t K × rand_state)
  | 0, tiles, g => some (tiles, g)
  | n + 1, tiles, g =>
    match respawn_loop RAND_MAX sqrt n tiles g with
    | none => none
    | some (t1, g1) => respawn_slot RAND_MAX sqrt n t1 g1

/-- The function `replace_expired_tiles` of tiles.cpp for a population of `N`
tiles (`NUM_TILES` in the source). -/
def replace_expired_tiles (RAND_MAX : ℕ) (sqrt : K → K) (N : ℕ) (tiles : tiles_t K)
    (g : rand_state) : Option (tiles_t K × rand_state) :=
  respawn_loop RAND_MAX sqrt N (mark_loop N tiles) g

/-! ### tiles.cpp: update and initialisation -/

/-- The type `__m128` of the SSE intrinsics: four packed floats. -/
abbrev __m128 (K : Type) := Fin 4 → K

/-- The intrinsic `_mm_set1_ps`: the same value in the four lanes. -/
def _mm_set1_ps (a : K) : __m128 K := fun _ => a

/-- The intrinsic `_mm_mul_ps`: the lane-wise product. -/
def _mm_mul_ps (a b : __m128 K) : __m128 K := fun l => a l * b l

/-- The intrinsic `_mm_add_ps`: the lane-wise sum. -/
def _mm_add_ps (a b : __m128 K) : __m128 K := fun l => a l + b l

/-- Reading the element `j` of a float array through a `__m128*`: the floats
`4 j` to `4 j + 3`. -/
def m128_load (arr : ℕ → K) (j : ℕ) : __m128 K := fun l => arr (4 * j + l.val)

/-- Writing the element `j` of a float array through a `__m128*`. -/
def m128_store (arr : ℕ → K) (j : ℕ) (v : __m128 K) : ℕ → K :=
  fun k => if k / 4 = j then v ⟨k % 4, Nat.mod_lt k (by decide)⟩ else arr k

/-- The constant `TILE_SPEED_ROTATION` of constants.h; `two_pi` is the constant
of the maths library. -/
def TILE_SPEED_ROTATION (two_pi : K) : K := two_pi * 2

/-- The first loop of `tiles_t::update`, over the arrays seen as arrays of
`__m128`: the first `n` iterations. -/
def update_simd_loop (speed angle_speed : __m128 K) : ℕ → tiles_t K → tiles_t K
  | 0, tiles => tiles
  | n + 1, tiles =>
    let tiles := update_simd_loop speed angle_speed n tiles
    let temp_x := _mm_mul_ps (m128_load tiles.vel_x n) speed
    let tiles : tiles_t K :=
      { tiles with pos_x := m128_store tiles.pos_x n (_mm_add_ps (m128_load tiles.pos_x n) temp_x) }
    let temp_y := _mm_mul_ps (m128_load tiles.vel_y n) speed
    let tiles : tiles_t K :=
      { tiles with pos_y := m128_store tiles.pos_y n (_mm_add_ps (m128_load tiles.pos_y n) temp_y) }
    -- update angle: the product is computed and not stored
    let _temp_angle := _mm_mul_ps (m128_load tiles.angle_radians n) angle_speed
    tiles

/-- The second loop of `tiles_t::update`: the first `n` iterations; `mod` is
the function of the maths library. -/
def update_scalar_loop (two_pi : K) (mod : K → K → K) (elapsed : K) : ℕ → tiles_t K → tiles_t K
  | 0, tiles => tiles
  | n + 1, tiles =>
    let tiles := update_scalar_loop two_pi mod elapsed n tiles
    let angle_limit : K := two_pi
    let tiles : tiles_t K :=
      { tiles with angle_radians := Function.update tiles.angle_radians n
                                      (mod (tiles.angle_radians n) angle_limit) }
    if tiles.tile_id n = TILE_ID_WIDE then
      { tiles with lifetime := Function.update tiles.lifetime n (tiles.lifetime n - elapsed) }
    else
      tiles

/-- The method `tiles_t::update` of tiles.cpp for a population of `N` tiles
(`NUM_TILES` in the source); the sprite sheet argument is not used. -/
def tiles_t.update (two_pi : K) (mod : K → K → K) (N : ℕ) (tiles : tiles_t K) (elapsed : K) :
    tiles_t K :=
  let speed := _mm_set1_ps ((TILE_SPEED_MOVEMENT : K) * elapsed)
  let angle_speed := _mm_set1_ps (TILE_SPEED_ROTATION two_pi * elapsed)
  let tiles := update_simd_loop speed angle_speed (N / 4) tiles
  update_scalar_loop two_pi mod elapsed N tiles

/-- The loop of `initialise_tiles`: the first `n` iterations. -/
def initialise_loop : ℕ → tiles_t K → tiles_t K
  | 0, tiles => tiles
  | n + 1, tiles =>
    let tiles := initialise_loop n tiles
    let tiles : tiles_t K := { tiles with is_eaten := Function.update tiles.is_eaten n true }
    { tiles with tile_id := Function.update tiles.tile_id n TILE_ID_NORMAL }

/-- The function `initialise_tiles` of tiles.cpp for a population of `N` tiles
(`NUM_TILES` in the source). -/
def initialise_tiles (RAND_MAX : ℕ) (sqrt : K → K) (N : ℕ) (tiles : tiles_t K) (g : rand_state) :
    Option (tiles_t K × rand_state) :=
  replace_expired_tiles RAND_MAX sqrt N (initialise_loop N tiles) g

/-! ### Reachable states -/

/-- The value `random_getd (min, max)` returns at the `k`-th coming call of
`rand ()`. -/
def draw (RAND_MAX : ℕ) (g : rand_state) (k : ℕ) (min max : K) : K :=
  (g.stream (g.calls + k) : K) / (RAND_MAX : K) * (max - min) + min

/-- The vector (vx, vy) is not the zero vector. -/
def not_zero_vector (vx vy : K) : Prop := ¬ (vx = 0 ∧ vy = 0)

/-- Every respawn of the pass `replace_expired_tiles` from the store `t` and the
generator state `g` draws a velocity vector that satisfies `ok`: `gi` is the
generator state in which the respawn loop reaches a slot whose active flag is
clear, and the velocity draws are the fourth and the fifth draw after it. -/
def respawns_ok (ok : K → K → Prop) (RAND_MAX : ℕ) (sqrt : K → K) (N : ℕ) (t : tiles_t K)
    (g : rand_state) : Prop :=
  ∀ i ti gi, i < N → respawn_loop RAND_MAX sqrt i (mark_loop N t) g = some (ti, gi) →
    ti.active i = false → ok (draw RAND_MAX gi 3 (-1) 1) (draw RAND_MAX gi 4 (-1) 1)

/-- The states of the tile store and of the generator that are reachable from
`initialise_tiles` by `tiles_t::update`, `resolve_collisions` and
`replace_expired_tiles`, through passes whose respawns all draw a velocity
vector that satisfies `ok`. -/
inductive reachable (ok : K → K → Prop) (RAND_MAX : ℕ) (sqrt : K → K) (two_pi : K)
    (mod : K → K → K) (N : ℕ) : tiles_t K → rand_state → Prop where
  | init (t : tiles_t K) (g : rand_state) (t1 : tiles_t K) (g1 : rand_state) :
      respawns_ok ok RAND_MAX sqrt N (initialise_loop N t) g →
      initialise_tiles RAND_MAX sqrt N t g = some (t1, g1) →
      reachable ok RAND_MAX sqrt two_pi mod N t1 g1
  | update (t : tiles_t K) (g : rand_state) (elapsed : K) :
      reachable ok RAND_MAX sqrt two_pi mod N t g →
      reachable ok RAND_MAX sqrt two_pi mod N (t.update two_pi mod N elapsed) g
  | collide (t : tiles_t K) (g : rand_state) (ss : spritesheet K) (p : player_t K)
      (walls : walls_t K) (p1 : player_t K) (t1 : tiles_t K) (w1 : walls_t K) :
      reachable ok RAND_MAX sqrt two_pi mod N t g →
      resolve_collisions N ss p t walls = some (p1, t1, w1) →
      reachable ok RAND_MAX sqrt two_pi mod N t1 g
  | replace (t : tiles_t K) (g : rand_state) (t1 : tiles_t K) (g1 : rand_state) :
      reachable ok RAND_MAX sqrt two_pi mod N t g →
      respawns_ok ok RAND_MAX sqrt N t g →
      replace_expired_tiles RAND_MAX sqrt N t g = some (t1, g1) →
      reachable ok RAND_MAX sqrt two_pi mod N t1 g1

/-- A tile store with every slot at the origin, at rest, of the Normal variant,
not eaten. -/
def tiles_rest : tiles_t K :=
  { pos_x := fun _ => 0, pos_y := fun _ => 0, vel_x := fun _ => 0, vel_y := fun _ => 0,
    angle_radians := fun _ => 0, lifetime := fun _ => 0, tile_id := fun _ => TILE_ID_NORMAL,
    is_eaten := fun _ => false, active := fun _ => true }

end ordered_field

/-! ## Theorems -/

/-- The overlap test unfolded into its four strict comparisons. -/
theorem is_overlapping_iff (ax ay aw ah bx bY bw bh : ℚ) :
    is_overlapping ax ay aw ah bx bY bw bh = true ↔
      (ax - (aw - 4) / 2 < bx + (bw - 4) / 2 ∧ bx - (bw - 4) / 2 < ax + (aw - 4) / 2) ∧
      (ay - (ah - 4) / 2 < bY + (bh - 4) / 2 ∧ bY - (bh - 4) / 2 < ay + (ah - 4) / 2) := by
  simp only [is_overlapping, Bool.and_eq_true, decide_eq_true_eq, gt_iff_lt]
  tauto

/-- Resolution of a tile against the left wall, in closed form. -/
theorem collision_resolve_tile_wall_left (ss : spritesheet) (t : tiles_t) (wall : wall_t)
    (i : ℕ) (r : texture_rect) (hr : get_tile_texture_rect ss (t.tile_id i) = some r)
    (hw : wall.id = WALL_ID_LEFT) :
    collision_resolve_tile_wall ss t wall i = some
      { t with
        vel_x := Function.update t.vel_x i (-t.vel_x i)
        pos_x := Function.update t.pos_x i (wall.position.x + wall.size / 2 + r.width / 2) } := by
  simp [collision_resolve_tile_wall, wall_t.get_id, tiles_t.get_id, hw, hr]

/-- Resolution of a tile against the right wall, in closed form. -/
theorem collision_resolve_tile_wall_right (ss : spritesheet) (t : tiles_t) (wall : wall_t)
    (i : ℕ) (r : texture_rect) (hr : get_tile_texture_rect ss (t.tile_id i) = some r)
    (hw : wall.id = WALL_ID_RIGHT) :
    collision_resolve_tile_wall ss t wall i = some
      { t with
        vel_x := Function.update t.vel_x i (-t.vel_x i)
        pos_x := Function.update t.pos_x i (wall.position.x - wall.size / 2 - r.width / 2) } := by
  simp [collision_resolve_tile_wall, wall_t.get_id, tiles_t.get_id, hw, hr, WALL_ID_RIGHT,
    WALL_ID_LEFT]

/-- Resolution of a tile against the top wall, in closed form. -/
theorem collision_resolve_tile_wall_top (ss : spritesheet) (t : tiles_t) (wall : wall_t)
    (i : ℕ) (r : texture_rect) (hr : get_tile_texture_rect ss (t.tile_id i) = some r)
    (hw : wall.id = WALL_ID_TOP) :
    collision_resolve_tile_wall ss t wall i = some
      { t with
        vel_y := Function.update t.vel_y i (-t.vel_y i)
        pos_y := Function.update t.pos_y i (wall.position.y - wall.size / 2 - r.height / 2) } := by
  simp [collision_resolve_tile_wall, wall_t.get_id, tiles_t.get_id, hw, hr, WALL_ID_RIGHT,
    WALL_ID_LEFT, WALL_ID_TOP]

/-- Resolution of a tile against the bottom wall, in closed form. -/
theorem collision_resolve_tile_wall_bottom (ss : spritesheet) (t : tiles_t) (wall : wall_t)
    (i : ℕ) (r : texture_rect) (hr : get_tile_texture_rect ss (t.tile_id i) = some r)
    (hw : wall.id = WALL_ID_BOTTOM) :
    collision_resolve_tile_wall ss t wall i = some
      { t with
        vel_y := Function.update t.vel_y i (-t.vel_y i)
        pos_y := Function.update t.pos_y i (wall.position.y + wall.size / 2 + r.height / 2) } := by
  simp [collision_resolve_tile_wall, wall_t.get_id, tiles_t.get_id, hw, hr, WALL_ID_RIGHT,
    WALL_ID_LEFT, WALL_ID_TOP, WALL_ID_BOTTOM]

/-- Resolution of a tile against a wall whose id is none of the four: only the
y velocity is reflected. -/
theorem collision_resolve_tile_wall_other (ss : spritesheet) (t : tiles_t) (wall : wall_t)
    (i : ℕ) (h1 : wall.id ≠ WALL_ID_LEFT) (h2 : wall.id ≠ WALL_ID_RIGHT)
    (h3 : wall.id ≠ WALL_ID_TOP) (h4 : wall.id ≠ WALL_ID_BOTTOM) :
    collision_resolve_tile_wall ss t wall i = some
      { t with vel_y := Function.update t.vel_y i (-t.vel_y i) } := by
  simp [collision_resolve_tile_wall, wall_t.get_id, h1, h2, h3, h4]

/-- C1: the overlap test is symmetric, `is_overlapping (A, B)` equals
`is_overlapping (B, A)` for every pair of boxes. -/
theorem is_overlapping_symm (ax ay aw ah bx bY bw bh : ℚ) :
    is_overlapping ax ay aw ah bx bY bw bh = is_overlapping bx bY bw bh ax ay aw ah := by
  rw [Bool.eq_iff_iff, is_overlapping_iff, is_overlapping_iff]
  tauto

/-- C2: `is_overlapping` returns true exactly when on both axes the min bound
of each box, centre - (extent - 4) / 2, is strictly below the max bound of the
other box, centre + (extent - 4) / 2; and that holds exactly when
|ax - bx| < (aw + bw) / 2 - 4 and |ay - bY| < (ah + bh) / 2 - 4. -/
theorem is_overlapping_spec (ax ay aw ah bx bY bw bh : ℚ) :
    (is_overlapping ax ay aw ah bx bY bw bh = true ↔
      (ax - (aw - 4) / 2 < bx + (bw - 4) / 2 ∧ bx - (bw - 4) / 2 < ax + (aw - 4) / 2) ∧
      (ay - (ah - 4) / 2 < bY + (bh - 4) / 2 ∧ bY - (bh - 4) / 2 < ay + (ah - 4) / 2)) ∧
    (is_overlapping ax ay aw ah bx bY bw bh = true ↔
      |ax - bx| < (aw + bw) / 2 - 4 ∧ |ay - bY| < (ah + bh) / 2 - 4) := by
  refine ⟨is_overlapping_iff ax ay aw ah bx bY bw bh, ?_⟩
  rw [is_overlapping_iff, abs_lt, abs_lt]
  constructor
  · rintro ⟨⟨h1, h2⟩, h3, h4⟩
    refine ⟨⟨?_, ?_⟩, ?_, ?_⟩ <;> linarith
  · rintro ⟨⟨h1, h2⟩, h3, h4⟩
    refine ⟨⟨?_, ?_⟩, ?_, ?_⟩ <;> linarith

/-- C3: when the full extents interpenetrate by at most the tolerance of 4 on
some axis, |ax - bx| >= (aw + bw) / 2 - 4 or |ay - bY| >= (ah + bh) / 2 - 4
(the shrunken edges touching included), `is_overlapping` returns false. -/
theorem is_overlapping_tolerance (ax ay aw ah bx bY bw bh : ℚ)
    (h : (aw + bw) / 2 - 4 ≤ |ax - bx| ∨ (ah + bh) / 2 - 4 ≤ |ay - bY|) :
    is_overlapping ax ay aw ah bx bY bw bh = false := by
  rw [← Bool.not_eq_true, is_overlapping_iff]
  rintro ⟨⟨h1, h2⟩, h3, h4⟩
  rcases h with h | h
  · have : |ax - bx| < (aw + bw) / 2 - 4 := abs_lt.mpr ⟨by linarith, by linarith⟩
    linarith
  · have : |ay - bY| < (ah + bh) / 2 - 4 := abs_lt.mpr ⟨by linarith, by linarith⟩
    linarith

/-- Witness for C3: two boxes of size 10 whose centres are 6 apart on the x
axis (the shrunken edges touch exactly) do not overlap. -/
theorem is_overlapping_tolerance_witness :
    ((10 + 10) / 2 - 4 ≤ |(0 : ℚ) - 6| ∨ ((10 : ℚ) + 10) / 2 - 4 ≤ |(0 : ℚ) - 0|) ∧
      is_overlapping 0 0 10 10 6 0 10 10 = false :=
  ⟨Or.inl (by norm_num), is_overlapping_tolerance 0 0 10 10 6 0 10 10 (Or.inl (by norm_num))⟩

/-- C4: reflection.  For a slot whose sprite is found, resolving against the
left or the right wall turns the velocity (vx, vy) into (-vx, vy), and
resolving against the top or the bottom wall turns it into (vx, -vy). -/
theorem collision_resolve_tile_wall_reflects (ss : spritesheet) (t : tiles_t) (wall : wall_t)
    (i : ℕ) (r : texture_rect) (hr : get_tile_texture_rect ss (t.tile_id i) = some r) :
    ((wall.id = WALL_ID_LEFT ∨ wall.id = WALL_ID_RIGHT) →
      ∃ t1, collision_resolve_tile_wall ss t wall i = some t1 ∧
        t1.vel_x i = -t.vel_x i ∧ t1.vel_y i = t.vel_y i) ∧
    ((wall.id = WALL_ID_TOP ∨ wall.id = WALL_ID_BOTTOM) →
      ∃ t1, collision_resolve_tile_wall ss t wall i = some t1 ∧
        t1.vel_x i = t.vel_x i ∧ t1.vel_y i = -t.vel_y i) := by
  refine ⟨?_, ?_⟩
  · rintro (hw | hw)
    · exact ⟨_, collision_resolve_tile_wall_left ss t wall i r hr hw, by simp, rfl⟩
    · exact ⟨_, collision_resolve_tile_wall_right ss t wall i r hr hw, by simp, rfl⟩
  · rintro (hw | hw)
    · exact ⟨_, collision_resolve_tile_wall_top ss t wall i r hr hw, rfl, by simp⟩
    · exact ⟨_, collision_resolve_tile_wall_bottom ss t wall i r hr hw, rfl, by simp⟩

/-- Witness for C4: slot 0 of `tiles0` against the right wall of the 1280 x 720
screen. -/
theorem collision_resolve_tile_wall_reflects_witness :
    get_tile_texture_rect sheet32 (tiles0.tile_id 0) = some ⟨32, 32⟩ ∧
    ((wall_right_1280.id = WALL_ID_LEFT ∨
        wall_right_1280.id = WALL_ID_RIGHT) →
      ∃ t1, collision_resolve_tile_wall sheet32 tiles0 wall_right_1280 0
          = some t1 ∧ t1.vel_x 0 = -tiles0.vel_x 0 ∧ t1.vel_y 0 = tiles0.vel_y 0) :=
  ⟨by decide,
    (collision_resolve_tile_wall_reflects sheet32 tiles0 wall_right_1280
      0 ⟨32, 32⟩ (by decide)).1⟩

/-- C5: tile clamp.  For a slot with sprite size (w, h) = (r.width, r.height)
and a wall with centre (wx, wy) and side s, resolution puts the coordinate
normal to the wall flush against the inner edge of the wall (left:
x = wx + s/2 + w/2, right: x = wx - s/2 - w/2, top: y = wy - s/2 - h/2, bottom:
y = wy + s/2 + h/2) and leaves the other coordinate as it was. -/
theorem collision_resolve_tile_wall_clamps (ss : spritesheet) (t : tiles_t) (wall : wall_t)
    (i : ℕ) (r : texture_rect) (hr : get_tile_texture_rect ss (t.tile_id i) = some r) :
    (wall.id = WALL_ID_LEFT →
      ∃ t1, collision_resolve_tile_wall ss t wall i = some t1 ∧
        t1.pos_x i = wall.position.x + wall.size / 2 + r.width / 2 ∧ t1.pos_y i = t.pos_y i) ∧
    (wall.id = WALL_ID_RIGHT →
      ∃ t1, collision_resolve_tile_wall ss t wall i = some t1 ∧
        t1.pos_x i = wall.position.x - wall.size / 2 - r.width / 2 ∧ t1.pos_y i = t.pos_y i) ∧
    (wall.id = WALL_ID_TOP →
      ∃ t1, collision_resolve_tile_wall ss t wall i = some t1 ∧
        t1.pos_y i = wall.position.y - wall.size / 2 - r.height / 2 ∧ t1.pos_x i = t.pos_x i) ∧
    (wall.id = WALL_ID_BOTTOM →
      ∃ t1, collision_resolve_tile_wall ss t wall i = some t1 ∧
        t1.pos_y i = wall.position.y + wall.size / 2 + r.height / 2 ∧ t1.pos_x i = t.pos_x i) := by
  refine ⟨fun hw => ?_, fun hw => ?_, fun hw => ?_, fun hw => ?_⟩
  · exact ⟨_, collision_resolve_tile_wall_left ss t wall i r hr hw, by simp, rfl⟩
  · exact ⟨_, collision_resolve_tile_wall_right ss t wall i r hr hw, by simp, rfl⟩
  · exact ⟨_, collision_resolve_tile_wall_top ss t wall i r hr hw, by simp, rfl⟩
  · exact ⟨_, collision_resolve_tile_wall_bottom ss t wall i r hr hw, by simp, rfl⟩

/-- Witness for C5: slot 0 of `tiles0` against the right wall of the 1280 x 720
screen is put at x = 1300 - 1330 / 2 - 32 / 2. -/
theorem collision_resolve_tile_wall_clamps_witness :
    get_tile_texture_rect sheet32 (tiles0.tile_id 0) = some ⟨32, 32⟩ ∧
    (wall_right_1280.id = WALL_ID_RIGHT →
      ∃ t1, collision_resolve_tile_wall sheet32 tiles0 wall_right_1280 0
          = some t1 ∧ t1.pos_x 0 = 1300 - 1330 / 2 - 32 / 2 ∧ t1.pos_y 0 = tiles0.pos_y 0) :=
  ⟨by decide,
    (collision_resolve_tile_wall_clamps sheet32 tiles0 wall_right_1280
      0 ⟨32, 32⟩ (by decide)).2.1⟩

/-- C7: wall resolution is idempotent on position.  For a slot whose sprite is
found and any wall, a second resolution against the same wall leaves both
position arrays as the first resolution left them. -/
theorem collision_resolve_tile_wall_idempotent (ss : spritesheet) (t : tiles_t) (wall : wall_t)
    (i : ℕ) (r : texture_rect) (hr : get_tile_texture_rect ss (t.tile_id i) = some r) :
    ∃ t1 t2, collision_resolve_tile_wall ss t wall i = some t1 ∧
      collision_resolve_tile_wall ss t1 wall i = some t2 ∧
      t2.pos_x = t1.pos_x ∧ t2.pos_y = t1.pos_y := by
  by_cases h1 : wall.id = WALL_ID_LEFT
  · refine ⟨_, _, collision_resolve_tile_wall_left ss t wall i r hr h1,
      collision_resolve_tile_wall_left ss _ wall i r hr h1, ?_, rfl⟩
    simp
  by_cases h2 : wall.id = WALL_ID_RIGHT
  · refine ⟨_, _, collision_resolve_tile_wall_right ss t wall i r hr h2,
      collision_resolve_tile_wall_right ss _ wall i r hr h2, ?_, rfl⟩
    simp
  by_cases h3 : wall.id = WALL_ID_TOP
  · refine ⟨_, _, collision_resolve_tile_wall_top ss t wall i r hr h3,
      collision_resolve_tile_wall_top ss _ wall i r hr h3, rfl, ?_⟩
    simp
  by_cases h4 : wall.id = WALL_ID_BOTTOM
  · refine ⟨_, _, collision_resolve_tile_wall_bottom ss t wall i r hr h4,
      collision_resolve_tile_wall_bottom ss _ wall i r hr h4, rfl, ?_⟩
    simp
  · exact ⟨_, _, collision_resolve_tile_wall_other ss t wall i h1 h2 h3 h4,
      collision_resolve_tile_wall_other ss _ wall i h1 h2 h3 h4, rfl, rfl⟩

/-- Witness for C7: slot 0 of `tiles0` resolved twice against the right wall of
the 1280 x 720 screen. -/
theorem collision_resolve_tile_wall_idempotent_witness :
    get_tile_texture_rect sheet32 (tiles0.tile_id 0) = some ⟨32, 32⟩ ∧
    ∃ t1 t2, collision_resolve_tile_wall sheet32 tiles0 wall_right_1280 0 = some t1 ∧
      collision_resolve_tile_wall sheet32 t1 wall_right_1280 0 = some t2 ∧
      t2.pos_x = t1.pos_x ∧ t2.pos_y = t1.pos_y :=
  ⟨by decide,
    collision_resolve_tile_wall_idempotent sheet32 tiles0 wall_right_1280 0 ⟨32, 32⟩ (by decide)⟩

/-- Resolution of the player against a wall, in closed form for each of the
four wall ids. -/
theorem collision_resolve_player_wall_eq (ss : spritesheet) (p : player_t) (wall : wall_t)
    (r : texture_rect) (hr : get_player_texture_rect ss p.get_id = some r) :
    (wall.id = WALL_ID_LEFT → collision_resolve_player_wall ss p wall = some
      { p with position :=
          { p.position with x := wall.position.x + wall.size / 2 + r.width / 2 } }) ∧
    (wall.id = WALL_ID_RIGHT → collision_resolve_player_wall ss p wall = some
      { p with position :=
          { p.position with x := wall.position.x - wall.size / 2 - r.width / 2 } }) ∧
    (wall.id = WALL_ID_TOP → collision_resolve_player_wall ss p wall = some
      { p with position :=
          { p.position with y := wall.position.y - wall.size / 2 - r.height / 2 } }) ∧
    (wall.id = WALL_ID_BOTTOM → collision_resolve_player_wall ss p wall = some
      { p with position :=
          { p.position with y := wall.position.y + wall.size / 2 + r.height / 2 } }) := by
  refine ⟨fun hw => ?_, fun hw => ?_, fun hw => ?_, fun hw => ?_⟩ <;>
    simp [collision_resolve_player_wall, wall_t.get_id, hw, hr, WALL_ID_RIGHT,
      WALL_ID_LEFT, WALL_ID_TOP, WALL_ID_BOTTOM]

/-- The `WALL_TYPE` branch of `on_collision` is `collision_resolve_player_wall`
for both player classes. -/
theorem player_on_collision_wall (ss : spritesheet) (p : player_t) (wall : wall_t) :
    p.on_collision WALL_TYPE (.wall wall) ss = collision_resolve_player_wall ss p wall := by
  unfold player_t.on_collision
  cases p.cls <;> simp

/-- C8: player clamp.  For a player of either class with sprite size
(w, h) = (r.width, r.height) and a wall with centre (wx, wy) and side s,
`on_collision` with `WALL_TYPE` puts the coordinate normal to the wall flush
with the inner edge of the wall (left: x = wx + s/2 + w/2, right:
x = wx - s/2 - w/2, top: y = wy - s/2 - h/2, bottom: y = wy + s/2 + h/2) and
changes neither the other coordinate nor the pending transition id. -/
theorem player_on_collision_wall_clamps (ss : spritesheet) (p : player_t) (wall : wall_t)
    (r : texture_rect) (hr : get_player_texture_rect ss p.get_id = some r) :
    (wall.id = WALL_ID_LEFT →
      ∃ p1, p.on_collision WALL_TYPE (.wall wall) ss = some p1 ∧
        p1.position.x = wall.position.x + wall.size / 2 + r.width / 2 ∧
        p1.position.y = p.position.y ∧ p1.new_player_id = p.new_player_id) ∧
    (wall.id = WALL_ID_RIGHT →
      ∃ p1, p.on_collision WALL_TYPE (.wall wall) ss = some p1 ∧
        p1.position.x = wall.position.x - wall.size / 2 - r.width / 2 ∧
        p1.position.y = p.position.y ∧ p1.new_player_id = p.new_player_id) ∧
    (wall.id = WALL_ID_TOP →
      ∃ p1, p.on_collision WALL_TYPE (.wall wall) ss = some p1 ∧
        p1.position.y = wall.position.y - wall.size / 2 - r.height / 2 ∧
        p1.position.x = p.position.x ∧ p1.new_player_id = p.new_player_id) ∧
    (wall.id = WALL_ID_BOTTOM →
      ∃ p1, p.on_collision WALL_TYPE (.wall wall) ss = some p1 ∧
        p1.position.y = wall.position.y + wall.size / 2 + r.height / 2 ∧
        p1.position.x = p.position.x ∧ p1.new_player_id = p.new_player_id) := by
  obtain ⟨hl, hR, ht, hb⟩ := collision_resolve_player_wall_eq ss p wall r hr
  rw [player_on_collision_wall]
  exact ⟨fun hw => ⟨_, hl hw, rfl, rfl, rfl⟩, fun hw => ⟨_, hR hw, rfl, rfl, rfl⟩,
    fun hw => ⟨_, ht hw, rfl, rfl, rfl⟩, fun hw => ⟨_, hb hw, rfl, rfl, rfl⟩⟩

/-- Witness for C8: the Normal player at the origin against the right wall of
the 1280 x 720 screen is put at x = 1300 - 1330 / 2 - 32 / 2. -/
theorem player_on_collision_wall_clamps_witness :
    get_player_texture_rect sheet32 player0.get_id = some ⟨32, 32⟩ ∧
    (wall_right_1280.id = WALL_ID_RIGHT →
      ∃ p1, player0.on_collision WALL_TYPE (.wall wall_right_1280) sheet32 = some p1 ∧
        p1.position.x = 1300 - 1330 / 2 - 32 / 2 ∧
        p1.position.y = player0.position.y ∧ p1.new_player_id = player0.new_player_id) :=
  ⟨by decide,
    (player_on_collision_wall_clamps sheet32 player0 wall_right_1280 ⟨32, 32⟩ (by decide)).2.1⟩

/-- The frame predicate is reflexive. -/
theorem same_outside_refl (j : ℕ) (a : tiles_t) : same_outside j a a :=
  ⟨rfl, rfl, rfl, rfl, rfl, fun _ _ => ⟨rfl, rfl, rfl, rfl⟩⟩

/-- The frame predicate is transitive. -/
theorem same_outside_trans {j : ℕ} {a b c : tiles_t} (h1 : same_outside j a b)
    (h2 : same_outside j b c) : same_outside j a c := by
  obtain ⟨a1, a2, a3, a4, a5, a6⟩ := h1
  obtain ⟨b1, b2, b3, b4, b5, b6⟩ := h2
  refine ⟨b1.trans a1, b2.trans a2, b3.trans a3, b4.trans a4, b5.trans a5, fun k hk => ?_⟩
  obtain ⟨c1, c2, c3, c4⟩ := a6 k hk
  obtain ⟨d1, d2, d3, d4⟩ := b6 k hk
  exact ⟨d1.trans c1, d2.trans c2, d3.trans c3, d4.trans c4⟩

/-- With the sprite of the slot found, resolving the slot `j` against any wall
returns, and changes at most the position and velocity of the slot `j`. -/
theorem collision_resolve_tile_wall_frame (ss : spritesheet) (t : tiles_t) (wall : wall_t)
    (j : ℕ) (r : texture_rect) (hr : get_tile_texture_rect ss (t.tile_id j) = some r) :
    ∃ t1, collision_resolve_tile_wall ss t wall j = some t1 ∧ same_outside j t t1 := by
  have key : ∀ k, k ≠ j → ∀ (f : ℕ → ℚ) (v : ℚ), Function.update f j v k = f k :=
    fun k hk f v => Function.update_noteq hk v f
  by_cases h1 : wall.id = WALL_ID_LEFT
  · exact ⟨_, collision_resolve_tile_wall_left ss t wall j r hr h1, rfl, rfl, rfl, rfl, rfl,
      fun k hk => ⟨key k hk _ _, rfl, key k hk _ _, rfl⟩⟩
  by_cases h2 : wall.id = WALL_ID_RIGHT
  · exact ⟨_, collision_resolve_tile_wall_right ss t wall j r hr h2, rfl, rfl, rfl, rfl, rfl,
      fun k hk => ⟨key k hk _ _, rfl, key k hk _ _, rfl⟩⟩
  by_cases h3 : wall.id = WALL_ID_TOP
  · exact ⟨_, collision_resolve_tile_wall_top ss t wall j r hr h3, rfl, rfl, rfl, rfl, rfl,
      fun k hk => ⟨rfl, key k hk _ _, rfl, key k hk _ _⟩⟩
  by_cases h4 : wall.id = WALL_ID_BOTTOM
  · exact ⟨_, collision_resolve_tile_wall_bottom ss t wall j r hr h4, rfl, rfl, rfl, rfl, rfl,
      fun k hk => ⟨rfl, key k hk _ _, rfl, key k hk _ _⟩⟩
  · exact ⟨_, collision_resolve_tile_wall_other ss t wall j h1 h2 h3 h4, rfl, rfl, rfl, rfl, rfl,
      fun k hk => ⟨rfl, rfl, rfl, key k hk _ _⟩⟩

/-- One step of the inner tile loop when the wall is not overlapped. -/
theorem resolve_tile_walls_miss (ss : spritesheet) (i : ℕ) (r : texture_rect) (t : tiles_t)
    (rhs : wall_t) (rest : List wall_t)
    (h : is_overlapping (t.pos_x i) (t.pos_y i) r.width r.height
      rhs.position.x rhs.position.y rhs.size rhs.size = false) :
    resolve_tile_walls ss i (some r) t (rhs :: rest) =
      (resolve_tile_walls ss i (some r) t rest).map fun q => (q.1, rhs :: q.2) := by
  simp only [resolve_tile_walls, tiles_t.position, h, Bool.false_eq_true, if_false]
  generalize resolve_tile_walls ss i (some r) t rest = o
  rcases o with _ | ⟨a, b⟩ <;> rfl

/-- One step of the inner tile loop when the wall is overlapped. -/
theorem resolve_tile_walls_hit (ss : spritesheet) (i : ℕ) (r : texture_rect) (t t1 : tiles_t)
    (rhs : wall_t) (rest : List wall_t)
    (h : is_overlapping (t.pos_x i) (t.pos_y i) r.width r.height
      rhs.position.x rhs.position.y rhs.size rhs.size = true)
    (h1 : collision_resolve_tile_wall ss t rhs i = some t1) :
    resolve_tile_walls ss i (some r) t (rhs :: rest) =
      (resolve_tile_walls ss i (some r) t1 rest).map fun q => (q.1, rhs :: q.2) := by
  simp only [resolve_tile_walls, tiles_t.position, h, tiles_t.on_collision, h1,
    wall_t.on_collision, if_true]
  generalize resolve_tile_walls ss i (some r) t1 rest = o
  rcases o with _ | ⟨a, b⟩ <;> rfl

/-- With the sprite of the slot found, the inner tile loop for the slot `j`
returns, leaves the walls as they are and changes at most the position and
velocity of the slot `j`. -/
theorem resolve_tile_walls_frame (ss : spritesheet) (j : ℕ) (r : texture_rect)
    (ws : List wall_t) :
    ∀ t : tiles_t, get_tile_texture_rect ss (t.tile_id j) = some r →
      ∃ t1, resolve_tile_walls ss j (some r) t ws = some (t1, ws) ∧ same_outside j t t1 := by
  induction ws with
  | nil => intro t _; exact ⟨t, rfl, same_outside_refl j t⟩
  | cons rhs rest ih =>
    intro t hr
    cases h : is_overlapping (t.pos_x j) (t.pos_y j) r.width r.height
      rhs.position.x rhs.position.y rhs.size rhs.size with
    | false =>
      obtain ⟨t1, e1, f1⟩ := ih t hr
      exact ⟨t1, by rw [resolve_tile_walls_miss ss j r t rhs rest h, e1]; rfl, f1⟩
    | true =>
      obtain ⟨t1, e1, f1⟩ := collision_resolve_tile_wall_frame ss t rhs j r hr
      obtain ⟨t2, e2, f2⟩ := ih t1 (by rw [f1.1]; exact hr)
      exact ⟨t2, by rw [resolve_tile_walls_hit ss j r t t1 rhs rest h e1, e2]; rfl,
        same_outside_trans f1 f2⟩

/-- The walls of the 1280 x 720 screen, evaluated. -/
theorem initialise_walls_1280 :
    initialise_walls ⟨1280, 720, 0, 0⟩ =
      ⟨[wall_left_1280, wall_right_1280, wall_top_1280, wall_bottom_1280]⟩ := by
  norm_num [initialise_walls, wall_left_1280, wall_right_1280, wall_top_1280, wall_bottom_1280]

/-- With every sprite of the first `n` slots found, the outer tile loop
returns after `n` iterations, leaves the walls and the variant ids as they
are, and leaves the position and velocity of every slot from `n` on as they
are. -/
theorem resolve_tiles_loop_frame (ss : spritesheet) (t : tiles_t) (w : walls_t) :
    ∀ n : ℕ, (∀ j, j < n → (get_tile_texture_rect ss (t.tile_id j)).isSome = true) →
      ∃ t1, resolve_tiles_loop ss n t w = some (t1, w) ∧ t1.tile_id = t.tile_id ∧
        ∀ k, n ≤ k → t1.pos_x k = t.pos_x k ∧ t1.pos_y k = t.pos_y k ∧
          t1.vel_x k = t.vel_x k ∧ t1.vel_y k = t.vel_y k := by
  intro n
  induction n with
  | zero => intro _; exact ⟨t, rfl, rfl, fun _ _ => ⟨rfl, rfl, rfl, rfl⟩⟩
  | succ n ih =>
    intro hall
    obtain ⟨t1, e1, hid, hfr⟩ := ih (fun j hj => hall j (Nat.lt_succ_of_lt hj))
    obtain ⟨r, hr⟩ := Option.isSome_iff_exists.mp (hall n (Nat.lt_succ_self n))
    rw [← hid] at hr
    obtain ⟨t2, e2, f2⟩ := resolve_tile_walls_frame ss n r w.data t1 hr
    refine ⟨t2, ?_, f2.1.trans hid, fun k hk => ?_⟩
    · simp only [resolve_tiles_loop, e1, hr, e2]
    · have hne : k ≠ n := by omega
      obtain ⟨c1, c2, c3, c4⟩ := f2.2.2.2.2.2 k hne
      obtain ⟨d1, d2, d3, d4⟩ := hfr k (by omega)
      exact ⟨c1.trans d1, c2.trans d2, c3.trans d3, c4.trans d4⟩

/-- Once the outer tile loop has passed the slot `k`, the later iterations
leave the position and velocity of the slot `k` as they are. -/
theorem resolve_tiles_loop_stable (ss : spritesheet) (t : tiles_t) (w : walls_t) (a : ℕ)
    (ta : tiles_t) (ha : resolve_tiles_loop ss a t w = some (ta, w)) :
    ∀ n : ℕ, a ≤ n → (∀ j, j < n → (get_tile_texture_rect ss (t.tile_id j)).isSome = true) →
      ∃ tn, resolve_tiles_loop ss n t w = some (tn, w) ∧
        ∀ k, k < a → tn.pos_x k = ta.pos_x k ∧ tn.pos_y k = ta.pos_y k ∧
          tn.vel_x k = ta.vel_x k ∧ tn.vel_y k = ta.vel_y k := by
  intro n han
  induction n, han using Nat.le_induction with
  | base => intro _; exact ⟨ta, ha, fun _ _ => ⟨rfl, rfl, rfl, rfl⟩⟩
  | succ n han ih =>
    intro hall
    obtain ⟨tn, en, hst⟩ := ih (fun j hj => hall j (Nat.lt_succ_of_lt hj))
    obtain ⟨tn1, en1, hid, _⟩ :=
      resolve_tiles_loop_frame ss t w n (fun j hj => hall j (Nat.lt_succ_of_lt hj))
    have htn : tn1 = tn := by
      have := en1.symm.trans en
      simpa using this
    subst htn
    obtain ⟨r, hr⟩ := Option.isSome_iff_exists.mp (hall n (Nat.lt_succ_self n))
    rw [← hid] at hr
    obtain ⟨t2, e2, f2⟩ := resolve_tile_walls_frame ss n r w.data tn1 hr
    refine ⟨t2, ?_, fun k hk => ?_⟩
    · simp only [resolve_tiles_loop, en, hr, e2]
    · have hne : k ≠ n := by omega
      obtain ⟨c1, c2, c3, c4⟩ := f2.2.2.2.2.2 k hne
      obtain ⟨d1, d2, d3, d4⟩ := hst k hk
      exact ⟨c1.trans d1, c2.trans d2, c3.trans d3, c4.trans d4⟩

/-- With the sprite of the player found, resolving the player against any wall
returns and keeps the class and the pending transition id of the player. -/
theorem collision_resolve_player_wall_total (ss : spritesheet) (p : player_t) (wall : wall_t)
    (r : texture_rect) (hr : get_player_texture_rect ss p.get_id = some r) :
    ∃ p1, collision_resolve_player_wall ss p wall = some p1 ∧ p1.cls = p.cls ∧
      p1.new_player_id = p.new_player_id := by
  obtain ⟨hl, hR, ht, hb⟩ := collision_resolve_player_wall_eq ss p wall r hr
  by_cases h1 : wall.id = WALL_ID_LEFT
  · exact ⟨_, hl h1, rfl, rfl⟩
  by_cases h2 : wall.id = WALL_ID_RIGHT
  · exact ⟨_, hR h2, rfl, rfl⟩
  by_cases h3 : wall.id = WALL_ID_TOP
  · exact ⟨_, ht h3, rfl, rfl⟩
  by_cases h4 : wall.id = WALL_ID_BOTTOM
  · exact ⟨_, hb h4, rfl, rfl⟩
  · exact ⟨p, by simp [collision_resolve_player_wall, wall_t.get_id, h1, h2, h3, h4], rfl, rfl⟩

/-- With the sprite of the player found, the player loop returns, leaves the
walls as they are and keeps the class and the pending transition id of the
player. -/
theorem resolve_player_walls_total (ss : spritesheet) (ws : List wall_t) :
    ∀ (p : player_t) (r : texture_rect), get_player_texture_rect ss p.get_id = some r →
      ∃ p1, resolve_player_walls ss p ws = some (p1, ws) ∧ p1.cls = p.cls ∧
        p1.new_player_id = p.new_player_id := by
  induction ws with
  | nil => intro p r _; exact ⟨p, rfl, rfl, rfl⟩
  | cons rhs rest ih =>
    intro p r hr
    cases h : is_overlapping p.position.x p.position.y r.width r.height
      rhs.position.x rhs.position.y rhs.size rhs.size with
    | false =>
      obtain ⟨p2, e2, c2, n2⟩ := ih p r hr
      refine ⟨p2, ?_, c2, n2⟩
      simp only [resolve_player_walls, hr, h, Bool.false_eq_true, if_false, e2]
    | true =>
      obtain ⟨p1, e1, c1, n1⟩ := collision_resolve_player_wall_total ss p rhs r hr
      have hr1 : get_player_texture_rect ss p1.get_id = some r := by
        rw [← hr]; simp only [player_t.get_id, c1]
      obtain ⟨p2, e2, c2, n2⟩ := ih p1 r hr1
      refine ⟨p2, ?_, c2.trans c1, n2.trans n1⟩
      simp only [resolve_player_walls, hr, h, if_true, player_on_collision_wall, e1,
        wall_t.on_collision, e2]

/-- The inner tile loop of the scenario: a slot at (700, 0) with velocity
(1, 0) and sprite size (w, h) against the four walls of the 1280 x 720
screen. -/
theorem resolve_tile_walls_scenario (ss : spritesheet) (i : ℕ) (w h : ℚ) (t : tiles_t)
    (hrect : get_tile_texture_rect ss (t.tile_id i) = some ⟨w, h⟩)
    (hw : 0 < w ∧ w < 700) (hh : 0 < h ∧ h < 700)
    (hpos : t.pos_x i = 700 ∧ t.pos_y i = 0) (hvel : t.vel_x i = 1 ∧ t.vel_y i = 0) :
    ∃ t1, resolve_tile_walls ss i (some ⟨w, h⟩) t (initialise_walls ⟨1280, 720, 0, 0⟩).data
        = some (t1, (initialise_walls ⟨1280, 720, 0, 0⟩).data) ∧
      t1.vel_x i = -1 ∧ t1.vel_y i = 0 ∧ t1.pos_x i = 635 - w / 2 ∧ t1.pos_y i = 0 := by
  obtain ⟨hw0, hw1⟩ := hw
  obtain ⟨hh0, hh1⟩ := hh
  obtain ⟨hx, hy⟩ := hpos
  obtain ⟨hvx, hvy⟩ := hvel
  have hL : is_overlapping (t.pos_x i) (t.pos_y i) w h wall_left_1280.position.x
      wall_left_1280.position.y wall_left_1280.size wall_left_1280.size = false := by
    rw [← Bool.not_eq_true, is_overlapping_iff, hx, hy]
    simp only [wall_left_1280]
    rintro ⟨⟨h1, h2⟩, h3, h4⟩
    linarith
  have hR : is_overlapping (t.pos_x i) (t.pos_y i) w h wall_right_1280.position.x
      wall_right_1280.position.y wall_right_1280.size wall_right_1280.size = true := by
    rw [is_overlapping_iff, hx, hy]
    simp only [wall_right_1280]
    refine ⟨⟨?_, ?_⟩, ?_, ?_⟩ <;> linarith
  have e1c := collision_resolve_tile_wall_right ss t wall_right_1280 i ⟨w, h⟩ hrect rfl
  obtain ⟨t1, ht1, e1⟩ : ∃ t1 : tiles_t, t1 = _ ∧
      collision_resolve_tile_wall ss t wall_right_1280 i = some t1 := ⟨_, rfl, e1c⟩
  have px : t1.pos_x i = 635 - w / 2 := by
    rw [ht1]; simp only [wall_right_1280, Function.update_same]; ring
  have py : t1.pos_y i = 0 := by rw [ht1]; exact hy
  have vx : t1.vel_x i = -1 := by rw [ht1]; simp only [Function.update_same, hvx]
  have vy : t1.vel_y i = 0 := by rw [ht1]; exact hvy
  have hT : is_overlapping (t1.pos_x i) (t1.pos_y i) w h wall_top_1280.position.x
      wall_top_1280.position.y wall_top_1280.size wall_top_1280.size = false := by
    rw [← Bool.not_eq_true, is_overlapping_iff, px, py]
    simp only [wall_top_1280]
    rintro ⟨⟨h1, h2⟩, h3, h4⟩
    linarith
  have hB : is_overlapping (t1.pos_x i) (t1.pos_y i) w h wall_bottom_1280.position.x
      wall_bottom_1280.position.y wall_bottom_1280.size wall_bottom_1280.size = false := by
    rw [← Bool.not_eq_true, is_overlapping_iff, px, py]
    simp only [wall_bottom_1280]
    rintro ⟨⟨h1, h2⟩, h3, h4⟩
    linarith
  refine ⟨t1, ?_, vx, vy, px, py⟩
  rw [initialise_walls_1280]
  have s1 := resolve_tile_walls_miss ss i ⟨w, h⟩ t wall_left_1280
    [wall_right_1280, wall_top_1280, wall_bottom_1280] hL
  have s2 := resolve_tile_walls_hit ss i ⟨w, h⟩ t t1 wall_right_1280
    [wall_top_1280, wall_bottom_1280] hR e1
  have s3 := resolve_tile_walls_miss ss i ⟨w, h⟩ t1 wall_top_1280 [wall_bottom_1280] hT
  have s4 := resolve_tile_walls_miss ss i ⟨w, h⟩ t1 wall_bottom_1280 [] hB
  have s5 : resolve_tile_walls ss i (some ⟨w, h⟩) t1 [] = some (t1, []) := rfl
  rw [s5] at s4
  rw [s4] at s3
  rw [s3] at s2
  rw [s2] at s1
  rw [s1]
  rfl

/-- C6: scenario.  With the walls of the 1280 x 720 screen, a slot `i` at
(700, 0) with velocity (1, 0) and sprite size (w, h), 0 < w, h < 700, overlaps
the right wall and no other wall (neither at (700, 0) nor at the resolved
position), and `resolve_collisions` returns with the slot at velocity (-1, 0)
and position (635 - w / 2, 0), the sprites of the player and of the tiles
being found. -/
theorem resolve_collisions_scenario (N i : ℕ) (ss : spritesheet) (p : player_t) (t : tiles_t)
    (w h : ℚ) (rp : texture_rect) (hi : i < N)
    (hp : get_player_texture_rect ss p.get_id = some rp)
    (hall : ∀ j, j < N → (get_tile_texture_rect ss (t.tile_id j)).isSome = true)
    (hrect : get_tile_texture_rect ss (t.tile_id i) = some ⟨w, h⟩)
    (hw : 0 < w ∧ w < 700) (hh : 0 < h ∧ h < 700)
    (hpos : t.pos_x i = 700 ∧ t.pos_y i = 0) (hvel : t.vel_x i = 1 ∧ t.vel_y i = 0) :
    (∀ wall ∈ (initialise_walls ⟨1280, 720, 0, 0⟩).data,
      (is_overlapping 700 0 w h wall.position.x wall.position.y wall.size wall.size = true ↔
        wall.id = WALL_ID_RIGHT) ∧
      (wall.id ≠ WALL_ID_RIGHT →
        is_overlapping (635 - w / 2) 0 w h wall.position.x wall.position.y wall.size wall.size
          = false)) ∧
    ∃ p1 t1, resolve_collisions N ss p t (initialise_walls ⟨1280, 720, 0, 0⟩)
        = some (p1, t1, initialise_walls ⟨1280, 720, 0, 0⟩) ∧
      t1.vel_x i = -1 ∧ t1.vel_y i = 0 ∧ t1.pos_x i = 635 - w / 2 ∧ t1.pos_y i = 0 := by
  refine ⟨?_, ?_⟩
  · intro wall hmem
    rw [initialise_walls_1280] at hmem
    simp only [List.mem_cons, List.mem_singleton, List.not_mem_nil, or_false] at hmem
    rcases hmem with rfl | rfl | rfl | rfl
    · refine ⟨⟨fun hov => ?_, fun hid => absurd hid (by decide)⟩, fun _ => ?_⟩
      · rw [is_overlapping_iff] at hov
        simp only [wall_left_1280] at hov
        linarith [hov.1.1, hov.1.2, hw.1, hw.2]
      · rw [← Bool.not_eq_true, is_overlapping_iff]
        simp only [wall_left_1280]
        rintro ⟨⟨h1, h2⟩, h3, h4⟩
        linarith [hw.1, hw.2]
    · refine ⟨⟨fun _ => rfl, fun _ => ?_⟩, fun hid => absurd rfl hid⟩
      rw [is_overlapping_iff]
      simp only [wall_right_1280]
      refine ⟨⟨?_, ?_⟩, ?_, ?_⟩ <;> linarith [hw.1, hw.2, hh.1, hh.2]
    · refine ⟨⟨fun hov => ?_, fun hid => absurd hid (by decide)⟩, fun _ => ?_⟩
      · rw [is_overlapping_iff] at hov
        simp only [wall_top_1280] at hov
        linarith [hov.2.1, hov.2.2, hh.1, hh.2]
      · rw [← Bool.not_eq_true, is_overlapping_iff]
        simp only [wall_top_1280]
        rintro ⟨⟨h1, h2⟩, h3, h4⟩
        linarith [hh.1, hh.2]
    · refine ⟨⟨fun hov => ?_, fun hid => absurd hid (by decide)⟩, fun _ => ?_⟩
      · rw [is_overlapping_iff] at hov
        simp only [wall_bottom_1280] at hov
        linarith [hov.2.1, hov.2.2, hh.1, hh.2]
      · rw [← Bool.not_eq_true, is_overlapping_iff]
        simp only [wall_bottom_1280]
        rintro ⟨⟨h1, h2⟩, h3, h4⟩
        linarith [hh.1, hh.2]
  · obtain ⟨p1, ep, -, -⟩ :=
      resolve_player_walls_total ss (initialise_walls ⟨1280, 720, 0, 0⟩).data p rp hp
    -- the tile loop up to the slot `i`
    obtain ⟨ti, ei, hid, hfr⟩ := resolve_tiles_loop_frame ss t
      (initialise_walls ⟨1280, 720, 0, 0⟩) i (fun j hj => hall j (lt_trans hj hi))
    obtain ⟨q1, q2, q3, q4⟩ := hfr i le_rfl
    have hrect1 : get_tile_texture_rect ss (ti.tile_id i) = some ⟨w, h⟩ := by
      rw [hid]; exact hrect
    obtain ⟨ta, ea, vx, vy, px, py⟩ := resolve_tile_walls_scenario ss i w h ti hrect1 hw hh
      ⟨q1.trans hpos.1, q2.trans hpos.2⟩ ⟨q3.trans hvel.1, q4.trans hvel.2⟩
    have esucc : resolve_tiles_loop ss (i + 1) t (initialise_walls ⟨1280, 720, 0, 0⟩)
        = some (ta, initialise_walls ⟨1280, 720, 0, 0⟩) := by
      simp only [resolve_tiles_loop, ei, hrect1, ea]
    -- the remaining iterations
    obtain ⟨tn, en, hst⟩ := resolve_tiles_loop_stable ss t
      (initialise_walls ⟨1280, 720, 0, 0⟩) (i + 1) ta esucc N hi hall
    obtain ⟨s1, s2, s3, s4⟩ := hst i (Nat.lt_succ_self i)
    refine ⟨p1, tn, ?_, s3.trans vx, s4.trans vy, s1.trans px, s2.trans py⟩
    simp only [resolve_collisions, ep, en]

/-- Witness for C6: two slots, the slot 0 at (700, 0) with a 32 x 32 sprite. -/
theorem resolve_collisions_scenario_witness :
    ∃ p1 t1, resolve_collisions 2 sheet32 player0 tiles700 (initialise_walls ⟨1280, 720, 0, 0⟩)
        = some (p1, t1, initialise_walls ⟨1280, 720, 0, 0⟩) ∧
      t1.vel_x 0 = -1 ∧ t1.vel_y 0 = 0 ∧ t1.pos_x 0 = 635 - 32 / 2 ∧ t1.pos_y 0 = 0 :=
  (resolve_collisions_scenario 2 0 sheet32 player0 tiles700 32 32 ⟨32, 32⟩ (by decide)
    (by decide) (fun _ _ => rfl) (by decide) (by norm_num) (by norm_num)
    ⟨by simp [tiles700], rfl⟩ ⟨rfl, rfl⟩).2

/-! ### The tile lifecycle -/

/-- Slot equality is reflexive. -/
theorem slot_same_refl (a : tiles_t) (k : ℕ) : slot_same a a k :=
  ⟨rfl, rfl, rfl, rfl, rfl, rfl, rfl, rfl, rfl⟩

/-- Slot equality is transitive. -/
theorem slot_same_trans {a b c : tiles_t} {k : ℕ} (h1 : slot_same a b k)
    (h2 : slot_same b c k) : slot_same a c k := by
  obtain ⟨a1, a2, a3, a4, a5, a6, a7, a8, a9⟩ := h1
  obtain ⟨b1, b2, b3, b4, b5, b6, b7, b8, b9⟩ := h2
  exact ⟨b1.trans a1, b2.trans a2, b3.trans a3, b4.trans a4, b5.trans a5, b6.trans a6,
    b7.trans a7, b8.trans a8, b9.trans a9⟩

/-- The method `needs_replacing` as a proposition: the slot is eaten, or it is
a Wide tile with a negative lifetime. -/
theorem needs_replacing_iff (t : tiles_t) (k : ℕ) :
    t.needs_replacing k = true ↔
      (t.is_eaten k = true ∨ (t.tile_id k = TILE_ID_WIDE ∧ t.lifetime k < 0)) := by
  unfold tiles_t.needs_replacing
  split_ifs with h
  · simp [h]
  · constructor
    · exact fun he => Or.inl he
    · rintro (he | hwide)
      · exact he
      · exact absurd hwide h

/-- The method `needs_replacing` reads the variant id, the lifetime and the
eaten flag of the slot only. -/
theorem needs_replacing_congr {a b : tiles_t} {k : ℕ} (h1 : b.tile_id k = a.tile_id k)
    (h2 : b.lifetime k = a.lifetime k) (h3 : b.is_eaten k = a.is_eaten k) :
    b.needs_replacing k = a.needs_replacing k := by
  simp only [tiles_t.needs_replacing, h1, h2, h3]

/-- The first loop of `replace_expired_tiles` writes the active flags of the
slots below `n` and nothing else. -/
theorem mark_loop_spec (t : tiles_t) :
    ∀ n : ℕ, (mark_loop n t).pos_x = t.pos_x ∧ (mark_loop n t).pos_y = t.pos_y ∧
      (mark_loop n t).vel_x = t.vel_x ∧ (mark_loop n t).vel_y = t.vel_y ∧
      (mark_loop n t).angle_radians = t.angle_radians ∧ (mark_loop n t).lifetime = t.lifetime ∧
      (mark_loop n t).tile_id = t.tile_id ∧ (mark_loop n t).is_eaten = t.is_eaten ∧
      ∀ k, (mark_loop n t).active k = if k < n then !t.needs_replacing k else t.active k := by
  intro n
  induction n with
  | zero => exact ⟨rfl, rfl, rfl, rfl, rfl, rfl, rfl, rfl, fun k => by simp [mark_loop]⟩
  | succ n ih =>
    obtain ⟨h1, h2, h3, h4, h5, h6, h7, h8, h9⟩ := ih
    refine ⟨h1, h2, h3, h4, h5, h6, h7, h8, fun k => ?_⟩
    have hn : (mark_loop n t).needs_replacing n = t.needs_replacing n :=
      needs_replacing_congr (congrFun h7 n) (congrFun h6 n) (congrFun h8 n)
    simp only [mark_loop, hn]
    rcases Nat.lt_trichotomy k n with hk | hk | hk
    · rw [Function.update_noteq (by omega), h9 k, if_pos hk, if_pos (by omega)]
    · subst hk; simp
    · rw [Function.update_noteq (by omega), h9 k, if_neg (by omega), if_neg (by omega)]

/-- The function `random_getd` on a non-empty range, in closed form. -/
theorem random_getd_eq (R : ℕ) (min max : ℚ) (g : rand_state) (h : min < max) :
    random_getd R min max g = some (draw R g 0 min max, ⟨g.stream, g.calls + 1⟩) := by
  simp [random_getd, h, rand, draw]

/-- The shared block of `create_tile` and `create_tile_wide`, in closed form:
four draws, the last two normalised. -/
theorem randomise_tile_eq (R : ℕ) (sqrt : ℚ → ℚ) (t : tiles_t) (i : ℕ) (g : rand_state) :
    randomise_tile R sqrt t i g = some
      ({ t with
          pos_x := Function.update t.pos_x i
            (draw R g 0 ((SCREEN_WIDTH : ℚ) / (-2)) ((SCREEN_WIDTH : ℚ) / 2))
          pos_y := Function.update t.pos_y i
            (draw R g 1 ((SCREEN_HEIGHT : ℚ) / (-2)) ((SCREEN_HEIGHT : ℚ) / 2))
          vel_x := Function.update t.vel_x i
            (draw R g 2 (-1) 1 /
              sqrt (draw R g 2 (-1) 1 * draw R g 2 (-1) 1 + draw R g 3 (-1) 1 * draw R g 3 (-1) 1))
          vel_y := Function.update t.vel_y i
            (draw R g 3 (-1) 1 /
              sqrt (draw R g 2 (-1) 1 * draw R g 2 (-1) 1
                + draw R g 3 (-1) 1 * draw R g 3 (-1) 1)) },
        ⟨g.stream, g.calls + 4⟩) := by
  have hw : (SCREEN_WIDTH : ℚ) / (-2) < (SCREEN_WIDTH : ℚ) / 2 := by norm_num [SCREEN_WIDTH]
  have hh : (SCREEN_HEIGHT : ℚ) / (-2) < (SCREEN_HEIGHT : ℚ) / 2 := by norm_num [SCREEN_HEIGHT]
  have h1 : (-1 : ℚ) < 1 := by norm_num
  simp only [randomise_tile, random_getd_eq R _ _ _ hw, random_getd_eq R _ _ _ hh,
    random_getd_eq R _ _ _ h1, Option.bind_eq_bind, Option.some_bind, Option.pure_def,
    Function.update_same, Function.update_idem, draw, add_zero, add_assoc]
  rfl

/-- The function `create_tile` returns after four draws; the slot is then a
Normal tile that is not eaten, and no other slot and no active flag has
changed. -/
theorem create_tile_spec (R : ℕ) (sqrt : ℚ → ℚ) (t : tiles_t) (i : ℕ) (g : rand_state) :
    ∃ t1, create_tile R sqrt t i g = some (t1, ⟨g.stream, g.calls + 4⟩) ∧
      t1.is_eaten i = false ∧ t1.tile_id i = TILE_ID_NORMAL ∧ t1.lifetime = t.lifetime ∧
      t1.active = t.active ∧ ∀ k, k ≠ i → slot_same t t1 k := by
  simp only [create_tile, randomise_tile_eq]
  refine ⟨_, rfl, ?_, ?_, rfl, rfl, ?_⟩
  · simp
  · simp
  · intro k hk
    simp [slot_same, Function.update_noteq hk]

/-- The function `create_tile_wide` returns after four draws; the slot is then
a Wide tile with the full lifetime that is not eaten, and no other slot and no
active flag has changed. -/
theorem create_tile_wide_spec (R : ℕ) (sqrt : ℚ → ℚ) (t : tiles_t) (i : ℕ) (g : rand_state) :
    ∃ t1, create_tile_wide R sqrt t i g = some (t1, ⟨g.stream, g.calls + 4⟩) ∧
      t1.is_eaten i = false ∧ t1.tile_id i = TILE_ID_WIDE ∧
      t1.lifetime i = TILE_WIDE_LIFETIIME ∧
      t1.active = t.active ∧ ∀ k, k ≠ i → slot_same t t1 k := by
  simp only [create_tile_wide, randomise_tile_eq]
  refine ⟨_, rfl, ?_, ?_, ?_, rfl, ?_⟩
  · simp
  · simp
  · simp
  · intro k hk
    simp [slot_same, Function.update_noteq hk]

/-- The body of the respawn loop at the slot `i` always returns.  It never
writes an active flag or another slot.  With the active flag of the slot set it
does nothing; with the flag clear it makes five draws and leaves a tile that is
not eaten and is Normal, or Wide with the full lifetime. -/
theorem respawn_slot_spec (R : ℕ) (sqrt : ℚ → ℚ) (i : ℕ) (t : tiles_t) (g : rand_state) :
    ∃ t1 g1, respawn_slot R sqrt i t g = some (t1, g1) ∧ t1.active = t.active ∧
      g1.stream = g.stream ∧ (∀ k, k ≠ i → slot_same t t1 k) ∧
      (t.active i = true → t1 = t ∧ g1 = g) ∧
      (t.active i = false → g1.calls = g.calls + 5 ∧ fresh t1 i) := by
  cases ha : t.active i with
  | true =>
    exact ⟨t, g, by simp [respawn_slot, ha], rfl, rfl, fun k _ => slot_same_refl t k,
      fun _ => ⟨rfl, rfl⟩, fun h => by simp at h⟩
  | false =>
    have h01 : (0 : ℚ) < 1 := by norm_num
    by_cases hd : draw R g 0 0 1 < PROBABILITY_WIDE
    · obtain ⟨t1, e1, c1, c2, c3, c4, c5⟩ :=
        create_tile_wide_spec R sqrt t i ⟨g.stream, g.calls + 1⟩
      refine ⟨t1, ⟨g.stream, g.calls + 1 + 4⟩, ?_, c4, rfl, c5, fun h => by simp at h,
        fun _ => ⟨rfl, c1, Or.inr ⟨c2, c3⟩⟩⟩
      simp only [respawn_slot, ha, Bool.not_false, if_true, random_getd_eq R 0 1 g h01, hd]
      exact e1
    · obtain ⟨t1, e1, c1, c2, c3, c4, c5⟩ :=
        create_tile_spec R sqrt t i ⟨g.stream, g.calls + 1⟩
      refine ⟨t1, ⟨g.stream, g.calls + 1 + 4⟩, ?_, c4, rfl, c5, fun h => by simp at h,
        fun _ => ⟨rfl, c1, Or.inl c2⟩⟩
      simp only [respawn_slot, ha, Bool.not_false, if_true, random_getd_eq R 0 1 g h01, hd,
        if_false]
      exact e1

/-- A freshly created tile does not need replacing. -/
theorem fresh_needs_replacing {t : tiles_t} {k : ℕ} (h : fresh t k) :
    t.needs_replacing k = false := by
  obtain ⟨he, hid | ⟨hid, hl⟩⟩ := h
  · simp [tiles_t.needs_replacing, he, hid, TILE_ID_NORMAL, TILE_ID_WIDE]
  · simp [tiles_t.needs_replacing, he, hid, hl, TILE_WIDE_LIFETIIME]

/-- The respawn loop always returns after `n` iterations.  It never writes an
active flag.  The slots from `n` on and the slots whose active flag is set are
left as they are; the slots below `n` whose active flag is clear hold a freshly
created tile. -/
theorem respawn_loop_spec (R : ℕ) (sqrt : ℚ → ℚ) (t : tiles_t) (g : rand_state) :
    ∀ n : ℕ, ∃ t1 g1, respawn_loop R sqrt n t g = some (t1, g1) ∧ t1.active = t.active ∧
      g1.stream = g.stream ∧ (∀ k, n ≤ k → slot_same t t1 k) ∧
      (∀ k, k < n → t.active k = true → slot_same t t1 k) ∧
      (∀ k, k < n → t.active k = false → fresh t1 k) := by
  intro n
  induction n with
  | zero =>
    exact ⟨t, g, rfl, rfl, rfl, fun k _ => slot_same_refl t k, fun k hk => absurd hk (by omega),
      fun k hk => absurd hk (by omega)⟩
  | succ n ih =>
    obtain ⟨tn, gn, en, an, sn, hge, hact, hfresh⟩ := ih
    obtain ⟨t1, g1, e1, a1, s1, hne, hset, hclr⟩ := respawn_slot_spec R sqrt n tn gn
    refine ⟨t1, g1, ?_, a1.trans an, s1.trans sn, fun k hk => ?_, fun k hk ha => ?_,
      fun k hk ha => ?_⟩
    · simp only [respawn_loop, en, e1]
    · exact slot_same_trans (hge k (by omega)) (hne k (by omega))
    · rcases Nat.lt_succ_iff_lt_or_eq.mp hk with hlt | rfl
      · exact slot_same_trans (hact k hlt ha) (hne k (by omega))
      · have htn : tn.active k = true := by rw [an]; exact ha
        rw [(hset htn).1]
        exact hge k le_rfl
    · rcases Nat.lt_succ_iff_lt_or_eq.mp hk with hlt | rfl
      · obtain ⟨f1, f2⟩ := hfresh k hlt ha
        obtain ⟨-, -, -, -, -, q6, q7, q8, -⟩ := hne k (by omega)
        exact ⟨q8.trans f1, by rw [q7, q6]; exact f2⟩
      · have htn : tn.active k = false := by rw [an]; exact ha
        exact (hclr htn).2

/-- The function `replace_expired_tiles` always returns.  Afterwards the active
flag of each of the `N` slots is the negation of what `needs_replacing` gave
before the pass, no slot needs replacing, and a slot that did not need
replacing holds the data it held. -/
theorem replace_expired_tiles_spec (R : ℕ) (sqrt : ℚ → ℚ) (N : ℕ) (t : tiles_t)
    (g : rand_state) :
    ∃ t1 g1, replace_expired_tiles R sqrt N t g = some (t1, g1) ∧
      (∀ k, k < N → t1.active k = !t.needs_replacing k) ∧
      (∀ k, k < N → t1.needs_replacing k = false) ∧
      (∀ k, k < N → t.needs_replacing k = false → slot_same (mark_loop N t) t1 k) := by
  obtain ⟨m1, m2, m3, m4, m5, m6, m7, m8, m9⟩ := mark_loop_spec t N
  obtain ⟨t1, g1, e1, a1, -, -, hact, hfresh⟩ := respawn_loop_spec R sqrt (mark_loop N t) g N
  have hmark : ∀ k, k < N → (mark_loop N t).active k = !t.needs_replacing k := by
    intro k hk; rw [m9 k, if_pos hk]
  refine ⟨t1, g1, e1, fun k hk => ?_, fun k hk => ?_, fun k hk hn => ?_⟩
  · rw [a1]; exact hmark k hk
  · cases hn : t.needs_replacing k with
    | true =>
      exact fresh_needs_replacing (hfresh k hk (by rw [hmark k hk, hn]; rfl))
    | false =>
      obtain ⟨-, -, -, -, -, q6, q7, q8, -⟩ := hact k hk (by rw [hmark k hk, hn]; rfl)
      rw [needs_replacing_congr q7 q6 q8,
        needs_replacing_congr (congrFun m7 k) (congrFun m6 k) (congrFun m8 k)]
      exact hn
  · exact hact k hk (by rw [hmark k hk, hn]; rfl)

/-- C9, as the claim states it, fails: with one slot that is eaten, the pass
respawns the slot and leaves its active flag clear. -/
theorem replace_expired_tiles_active_counterexample :
    (replace_expired_tiles 32767 (fun _ => 1) 1 tiles_eaten rand0).map
      (fun q => q.1.active 0) = some false := by
  obtain ⟨t1, g1, e1, hact, -, -⟩ :=
    replace_expired_tiles_spec 32767 (fun _ => 1) 1 tiles_eaten rand0
  have h0 : tiles_eaten.needs_replacing 0 = true := by
    simp [tiles_t.needs_replacing, tiles_eaten]
  rw [e1, Option.map_some', hact 0 (by decide), h0]
  rfl

/-- C9, amended: for every population size `N` and every state of the tile
store and of the generator, `replace_expired_tiles` returns, and afterwards no
slot below `N` needs replacing (each holds a tile that is not eaten and is not
a Wide tile with a negative lifetime), so exactly `N` tiles are live; the
stored active flag of a slot is set exactly when the slot did not need
replacing before the pass. -/
theorem replace_expired_tiles_population (R : ℕ) (sqrt : ℚ → ℚ) (N : ℕ) (t : tiles_t)
    (g : rand_state) :
    ∃ t1 g1, replace_expired_tiles R sqrt N t g = some (t1, g1) ∧
      (List.range N).countP (fun i => !t1.needs_replacing i) = N ∧
      ∀ i, i < N → t1.needs_replacing i = false ∧ t1.active i = !t.needs_replacing i := by
  obtain ⟨t1, g1, e1, hact, hlive, -⟩ := replace_expired_tiles_spec R sqrt N t g
  refine ⟨t1, g1, e1, ?_, fun i hi => ⟨hlive i hi, hact i hi⟩⟩
  have hall : ∀ i ∈ List.range N, (fun i => !t1.needs_replacing i) i = true := by
    intro i hi
    simp only [hlive i (List.mem_range.mp hi), Bool.not_false]
  rw [List.countP_eq_length.mpr hall, List.length_range]

/-- Witness for C9 (amended): two eaten slots; the slot 0 is live after the pass
and its active flag is clear. -/
theorem replace_expired_tiles_population_witness :
    ∃ t1 g1, replace_expired_tiles 32767 (fun _ => 1) 2 tiles_eaten rand0 = some (t1, g1) ∧
      (List.range 2).countP (fun i => !t1.needs_replacing i) = 2 ∧
      t1.needs_replacing 0 = false ∧ t1.active 0 = !tiles_eaten.needs_replacing 0 :=
  (replace_expired_tiles_population 32767 (fun _ => 1) 2 tiles_eaten rand0).imp fun _ h1 =>
    h1.imp fun _ h2 => ⟨h2.1, h2.2.1, h2.2.2 0 (by decide)⟩

/-- The first loop of `update` after `n` iterations: the slots below `4 n` have
moved by velocity times speed, and nothing else has changed. -/
theorem update_simd_loop_spec (s a : ℚ) (t : tiles_t) :
    ∀ n : ℕ,
      (∀ k, (update_simd_loop (_mm_set1_ps s) (_mm_set1_ps a) n t).pos_x k =
        if k < 4 * n then t.pos_x k + t.vel_x k * s else t.pos_x k) ∧
      (∀ k, (update_simd_loop (_mm_set1_ps s) (_mm_set1_ps a) n t).pos_y k =
        if k < 4 * n then t.pos_y k + t.vel_y k * s else t.pos_y k) ∧
      (update_simd_loop (_mm_set1_ps s) (_mm_set1_ps a) n t).vel_x = t.vel_x ∧
      (update_simd_loop (_mm_set1_ps s) (_mm_set1_ps a) n t).vel_y = t.vel_y ∧
      (update_simd_loop (_mm_set1_ps s) (_mm_set1_ps a) n t).angle_radians = t.angle_radians ∧
      (update_simd_loop (_mm_set1_ps s) (_mm_set1_ps a) n t).lifetime = t.lifetime ∧
      (update_simd_loop (_mm_set1_ps s) (_mm_set1_ps a) n t).tile_id = t.tile_id ∧
      (update_simd_loop (_mm_set1_ps s) (_mm_set1_ps a) n t).is_eaten = t.is_eaten ∧
      (update_simd_loop (_mm_set1_ps s) (_mm_set1_ps a) n t).active = t.active := by
  intro n
  induction n with
  | zero =>
    exact ⟨fun k => by simp [update_simd_loop], fun k => by simp [update_simd_loop],
      rfl, rfl, rfl, rfl, rfl, rfl, rfl⟩
  | succ n ih =>
    obtain ⟨hx, hy, hvx, hvy, h5, h6, h7, h8, h9⟩ := ih
    refine ⟨fun k => ?_, fun k => ?_, hvx, hvy, h5, h6, h7, h8, h9⟩
    · simp only [update_simd_loop, m128_store, _mm_add_ps, _mm_mul_ps, _mm_set1_ps, m128_load,
        hvx]
      by_cases hk : k / 4 = n
      · have e1 : 4 * n + k % 4 = k := by omega
        rw [if_pos hk, e1, hx k, if_neg (by omega), if_pos (by omega)]
      · rw [if_neg hk, hx k]
        by_cases hlt : k < 4 * n
        · rw [if_pos hlt, if_pos (by omega)]
        · rw [if_neg hlt, if_neg (by omega)]
    · simp only [update_simd_loop, m128_store, _mm_add_ps, _mm_mul_ps, _mm_set1_ps, m128_load,
        hvy]
      by_cases hk : k / 4 = n
      · have e1 : 4 * n + k % 4 = k := by omega
        rw [if_pos hk, e1, hy k, if_neg (by omega), if_pos (by omega)]
      · rw [if_neg hk, hy k]
        by_cases hlt : k < 4 * n
        · rw [if_pos hlt, if_pos (by omega)]
        · rw [if_neg hlt, if_neg (by omega)]

/-- The second loop of `update` after `n` iterations: the angle of each slot
below `n` has been passed through `mod`, the lifetime of each Wide slot below
`n` has decreased by the elapsed time, and nothing else has changed. -/
theorem update_scalar_loop_spec (two_pi : ℚ) (mod : ℚ → ℚ → ℚ) (e : ℚ) (t : tiles_t) :
    ∀ n : ℕ,
      (update_scalar_loop two_pi mod e n t).pos_x = t.pos_x ∧
      (update_scalar_loop two_pi mod e n t).pos_y = t.pos_y ∧
      (update_scalar_loop two_pi mod e n t).vel_x = t.vel_x ∧
      (update_scalar_loop two_pi mod e n t).vel_y = t.vel_y ∧
      (∀ k, (update_scalar_loop two_pi mod e n t).angle_radians k =
        if k < n then mod (t.angle_radians k) two_pi else t.angle_radians k) ∧
      (∀ k, (update_scalar_loop two_pi mod e n t).lifetime k =
        if k < n ∧ t.tile_id k = TILE_ID_WIDE then t.lifetime k - e else t.lifetime k) ∧
      (update_scalar_loop two_pi mod e n t).tile_id = t.tile_id ∧
      (update_scalar_loop two_pi mod e n t).is_eaten = t.is_eaten ∧
      (update_scalar_loop two_pi mod e n t).active = t.active := by
  intro n
  induction n with
  | zero =>
    exact ⟨rfl, rfl, rfl, rfl, fun k => by simp [update_scalar_loop],
      fun k => by simp [update_scalar_loop], rfl, rfl, rfl⟩
  | succ n ih =>
    obtain ⟨h1, h2, h3, h4, h5, h6, h7, h8, h9⟩ := ih
    have hid : (update_scalar_loop two_pi mod e n t).tile_id n = t.tile_id n := congrFun h7 n
    by_cases hw : t.tile_id n = TILE_ID_WIDE
    · have hw1 : (update_scalar_loop two_pi mod e n t).tile_id n = TILE_ID_WIDE := hid.trans hw
      simp only [update_scalar_loop, hw1, if_true]
      refine ⟨h1, h2, h3, h4, fun k => ?_, fun k => ?_, h7, h8, h9⟩
      · rcases Nat.lt_trichotomy k n with hk | hk | hk
        · rw [Function.update_noteq (by omega), h5 k, if_pos hk, if_pos (by omega)]
        · subst hk; rw [Function.update_same, h5 k, if_neg (by omega), if_pos (by omega)]
        · rw [Function.update_noteq (by omega), h5 k, if_neg (by omega), if_neg (by omega)]
      · rcases Nat.lt_trichotomy k n with hk | hk | hk
        · rw [Function.update_noteq (by omega), h6 k]
          by_cases hkw : t.tile_id k = TILE_ID_WIDE
          · rw [if_pos ⟨hk, hkw⟩, if_pos ⟨by omega, hkw⟩]
          · rw [if_neg (fun h => hkw h.2), if_neg (fun h => hkw h.2)]
        · subst hk
          rw [Function.update_same, h6 k, if_neg (fun h => absurd h.1 (by omega)),
            if_pos ⟨by omega, hw⟩]
        · rw [Function.update_noteq (by omega), h6 k, if_neg (fun h => absurd h.1 (by omega)),
            if_neg (fun h => absurd h.1 (by omega))]
    · have hw1 : ¬ (update_scalar_loop two_pi mod e n t).tile_id n = TILE_ID_WIDE := by
        rw [hid]; exact hw
      simp only [update_scalar_loop, hw1, if_false]
      refine ⟨h1, h2, h3, h4, fun k => ?_, fun k => ?_, h7, h8, h9⟩
      · rcases Nat.lt_trichotomy k n with hk | hk | hk
        · rw [Function.update_noteq (by omega), h5 k, if_pos hk, if_pos (by omega)]
        · subst hk; rw [Function.update_same, h5 k, if_neg (by omega), if_pos (by omega)]
        · rw [Function.update_noteq (by omega), h5 k, if_neg (by omega), if_neg (by omega)]
      · rw [h6 k]
        rcases Nat.lt_trichotomy k n with hk | hk | hk
        · by_cases hkw : t.tile_id k = TILE_ID_WIDE
          · rw [if_pos ⟨hk, hkw⟩, if_pos ⟨by omega, hkw⟩]
          · rw [if_neg (fun h => hkw h.2), if_neg (fun h => hkw h.2)]
        · subst hk
          rw [if_neg (fun h => absurd h.1 (by omega)), if_neg (fun h => hw h.2)]
        · rw [if_neg (fun h => absurd h.1 (by omega)), if_neg (fun h => absurd h.1 (by omega))]

/-- The method `update` in closed form, field by field. -/
theorem tiles_update_spec (two_pi : ℚ) (mod : ℚ → ℚ → ℚ) (N : ℕ) (t : tiles_t) (e : ℚ) :
    (∀ k, (t.update two_pi mod N e).pos_x k =
      if k < 4 * (N / 4) then t.pos_x k + t.vel_x k * (TILE_SPEED_MOVEMENT * e)
      else t.pos_x k) ∧
    (∀ k, (t.update two_pi mod N e).pos_y k =
      if k < 4 * (N / 4) then t.pos_y k + t.vel_y k * (TILE_SPEED_MOVEMENT * e)
      else t.pos_y k) ∧
    (t.update two_pi mod N e).vel_x = t.vel_x ∧
    (t.update two_pi mod N e).vel_y = t.vel_y ∧
    (∀ k, (t.update two_pi mod N e).angle_radians k =
      if k < N then mod (t.angle_radians k) two_pi else t.angle_radians k) ∧
    (∀ k, (t.update two_pi mod N e).lifetime k =
      if k < N ∧ t.tile_id k = TILE_ID_WIDE then t.lifetime k - e else t.lifetime k) ∧
    (t.update two_pi mod N e).tile_id = t.tile_id ∧
    (t.update two_pi mod N e).is_eaten = t.is_eaten ∧
    (t.update two_pi mod N e).active = t.active := by
  obtain ⟨a1, a2, a3, a4, a5, a6, a7, a8, a9⟩ :=
    update_simd_loop_spec (TILE_SPEED_MOVEMENT * e) (TILE_SPEED_ROTATION two_pi * e) t (N / 4)
  obtain ⟨b1, b2, b3, b4, b5, b6, b7, b8, b9⟩ :=
    update_scalar_loop_spec two_pi mod e
      (update_simd_loop (_mm_set1_ps (TILE_SPEED_MOVEMENT * e))
        (_mm_set1_ps (TILE_SPEED_ROTATION two_pi * e)) (N / 4) t) N
  refine ⟨fun k => ?_, fun k => ?_, b3.trans a3, b4.trans a4, fun k => ?_, fun k => ?_,
    b7.trans a7, b8.trans a8, b9.trans a9⟩
  · exact (congrFun b1 k).trans (a1 k)
  · exact (congrFun b2 k).trans (a2 k)
  · exact (b5 k).trans (by rw [a5])
  · exact (b6 k).trans (by rw [a6, a7])

/-- C15: for every elapsed time `e` and every slot `i < NUM_TILES`, `update`
sets the position to (x + vx * TILE_SPEED_MOVEMENT * e,
y + vy * TILE_SPEED_MOVEMENT * e), with TILE_SPEED_MOVEMENT = 100, and leaves
the velocity as it was. -/
theorem tiles_update_position (two_pi : ℚ) (mod : ℚ → ℚ → ℚ) (t : tiles_t) (e : ℚ) (i : ℕ)
    (hi : i < NUM_TILES) :
    TILE_SPEED_MOVEMENT = 100 ∧
    (t.update two_pi mod NUM_TILES e).pos_x i = t.pos_x i + t.vel_x i * TILE_SPEED_MOVEMENT * e ∧
    (t.update two_pi mod NUM_TILES e).pos_y i = t.pos_y i + t.vel_y i * TILE_SPEED_MOVEMENT * e ∧
    (t.update two_pi mod NUM_TILES e).vel_x i = t.vel_x i ∧
    (t.update two_pi mod NUM_TILES e).vel_y i = t.vel_y i := by
  obtain ⟨hx, hy, hvx, hvy, -⟩ := tiles_update_spec two_pi mod NUM_TILES t e
  have hlt : i < 4 * (NUM_TILES / 4) := by
    have : 4 * (NUM_TILES / 4) = NUM_TILES := by decide
    omega
  refine ⟨rfl, ?_, ?_, congrFun hvx i, congrFun hvy i⟩
  · rw [hx i, if_pos hlt, mul_assoc]
  · rw [hy i, if_pos hlt, mul_assoc]

/-- Witness for C15: the slot 5 of `tiles0` (velocity (1, 0)) after half a
second. -/
theorem tiles_update_position_witness :
    TILE_SPEED_MOVEMENT = 100 ∧
    (tiles0.update (710 / 113) floor_mod NUM_TILES (1 / 2)).pos_x 5
      = tiles0.pos_x 5 + tiles0.vel_x 5 * TILE_SPEED_MOVEMENT * (1 / 2) ∧
    (tiles0.update (710 / 113) floor_mod NUM_TILES (1 / 2)).pos_y 5
      = tiles0.pos_y 5 + tiles0.vel_y 5 * TILE_SPEED_MOVEMENT * (1 / 2) ∧
    (tiles0.update (710 / 113) floor_mod NUM_TILES (1 / 2)).vel_x 5 = tiles0.vel_x 5 ∧
    (tiles0.update (710 / 113) floor_mod NUM_TILES (1 / 2)).vel_y 5 = tiles0.vel_y 5 :=
  tiles_update_position (710 / 113) floor_mod tiles0 (1 / 2) 5 (by decide)

/-- C16, what the code does: for every slot below `N` the angle after `update`
is `mod` of the old angle and `two_pi`, whatever the elapsed time; the angle is
not advanced by TILE_SPEED_ROTATION * e. -/
theorem tiles_update_angle_not_advanced (two_pi : ℚ) (mod : ℚ → ℚ → ℚ) (N : ℕ) (t : tiles_t)
    (e : ℚ) (i : ℕ) (hi : i < N) :
    (t.update two_pi mod N e).angle_radians i = mod (t.angle_radians i) two_pi ∧
    (t.update two_pi mod N e).angle_radians i = (t.update two_pi mod N 0).angle_radians i := by
  obtain ⟨-, -, -, -, ha, -⟩ := tiles_update_spec two_pi mod N t e
  obtain ⟨-, -, -, -, h0, -⟩ := tiles_update_spec two_pi mod N t 0
  rw [ha i, h0 i, if_pos hi]
  exact ⟨rfl, rfl⟩

/-- Witness for C16: the slot 0 of `tiles0` (angle 0) after a tenth of a
second, with 710 / 113 standing for 2 pi: the angle is still 0, and the
advanced and wrapped angle would be 142 / 113. -/
theorem tiles_update_angle_not_advanced_witness :
    ((tiles0.update (710 / 113) floor_mod 4 (1 / 10)).angle_radians 0
        = floor_mod (tiles0.angle_radians 0) (710 / 113) ∧
      (tiles0.update (710 / 113) floor_mod 4 (1 / 10)).angle_radians 0
        = (tiles0.update (710 / 113) floor_mod 4 0).angle_radians 0) ∧
    floor_mod (tiles0.angle_radians 0) (710 / 113) = 0 ∧
    floor_mod (tiles0.angle_radians 0 + TILE_SPEED_ROTATION (710 / 113) * (1 / 10)) (710 / 113)
      = 142 / 113 := by
  refine ⟨tiles_update_angle_not_advanced (710 / 113) floor_mod 4 tiles0 (1 / 10) 0 (by decide),
    ?_, ?_⟩
  · simp [floor_mod, tiles0]
  · have hfl : ⌊((0 : ℚ) + 710 / 113 * 2 * (1 / 10)) / (710 / 113)⌋ = 0 := by
      rw [Int.floor_eq_iff]; constructor <;> norm_num
    simp only [floor_mod, tiles0, TILE_SPEED_ROTATION, hfl]
    norm_num

/-- C17: for every elapsed time `e` and every slot below `N`, `update`
decreases the lifetime of a Wide tile by exactly `e`, and leaves the stored
lifetime, the variant id and the eaten flag of a Normal tile as they were. -/
theorem tiles_update_lifetime (two_pi : ℚ) (mod : ℚ → ℚ → ℚ) (N : ℕ) (t : tiles_t) (e : ℚ)
    (i : ℕ) (hi : i < N) :
    (t.tile_id i = TILE_ID_WIDE →
      (t.update two_pi mod N e).lifetime i = t.lifetime i - e) ∧
    (t.tile_id i = TILE_ID_NORMAL →
      (t.update two_pi mod N e).lifetime i = t.lifetime i ∧
      (t.update two_pi mod N e).tile_id i = t.tile_id i ∧
      (t.update two_pi mod N e).is_eaten i = t.is_eaten i) := by
  obtain ⟨-, -, -, -, -, hl, hid, he, -⟩ := tiles_update_spec two_pi mod N t e
  refine ⟨fun hw => ?_, fun hn => ⟨?_, congrFun hid i, congrFun he i⟩⟩
  · rw [hl i, if_pos ⟨hi, hw⟩]
  · rw [hl i, if_neg]
    rintro ⟨-, hw⟩
    rw [hn] at hw
    exact absurd hw (by decide)

/-- Witness for C17: the slot 1 of `tiles_wide` (lifetime 3) after half a
second. -/
theorem tiles_update_lifetime_witness :
    (tiles_wide.update (710 / 113) floor_mod 4 (1 / 2)).lifetime 1 = tiles_wide.lifetime 1 - 1 / 2 :=
  (tiles_update_lifetime (710 / 113) floor_mod 4 tiles_wide (1 / 2) 1 (by decide)).1 rfl

/-! ### The player: replacement, expiry and tiles -/

/-- C18: `check_player_needs_replacing` reconstructs the player.  With a
pending transition to Wide the result is a Wide player at the same (x, y) with
no pending transition and the countdown PLAYER_WIDE_LIFETIME = 5, whatever the
class and countdown of the old player; with a pending transition to Normal it
is a Normal player at the same (x, y) with no pending transition; with neither
pending the player is unchanged. -/
theorem check_player_needs_replacing_spec (p : player_t) :
    PLAYER_WIDE_LIFETIME = 5 ∧
    (p.new_player_id = PLAYER_ID_WIDE →
      (check_player_needs_replacing p).cls = .player_wide_t PLAYER_WIDE_LIFETIME ∧
      (check_player_needs_replacing p).position.x = p.position.x ∧
      (check_player_needs_replacing p).position.y = p.position.y ∧
      (check_player_needs_replacing p).new_player_id = "") ∧
    (p.new_player_id = PLAYER_ID_NORMAL →
      (check_player_needs_replacing p).cls = .player_normal_t ∧
      (check_player_needs_replacing p).position.x = p.position.x ∧
      (check_player_needs_replacing p).position.y = p.position.y ∧
      (check_player_needs_replacing p).new_player_id = "") ∧
    (p.new_player_id ≠ PLAYER_ID_WIDE → p.new_player_id ≠ PLAYER_ID_NORMAL →
      check_player_needs_replacing p = p) := by
  refine ⟨rfl, fun h => ?_, fun h => ?_, fun h1 h2 => ?_⟩
  · simp [check_player_needs_replacing, h, player_wide_t]
  · simp [check_player_needs_replacing, h, player_normal_t, PLAYER_ID_NORMAL, PLAYER_ID_WIDE]
  · simp [check_player_needs_replacing, h1, h2]

/-- Witness for C18: a Normal player at (10, 20) with a pending transition to
Wide becomes a Wide player at (10, 20) with the full countdown. -/
theorem check_player_needs_replacing_spec_witness :
    (check_player_needs_replacing player_pending_wide).cls = .player_wide_t PLAYER_WIDE_LIFETIME ∧
    (check_player_needs_replacing player_pending_wide).position.x = player_pending_wide.position.x ∧
    (check_player_needs_replacing player_pending_wide).position.y = player_pending_wide.position.y ∧
    (check_player_needs_replacing player_pending_wide).new_player_id = "" :=
  (check_player_needs_replacing_spec player_pending_wide).2.1 rfl

/-- The method `update` on a Wide player, in closed form. -/
theorem player_update_wide (p : player_t) (held : input_t) (e L : ℚ)
    (hc : p.cls = .player_wide_t L) :
    p.update held e =
      { position := move_player p.position held PLAYER_SPEED_MULTIPLIER_WIDE e
        new_player_id := if L - e < 0 then PLAYER_ID_NORMAL else p.new_player_id
        cls := .player_wide_t (L - e) } := by
  unfold player_t.update
  rw [hc]
  by_cases h : L - e < 0 <;> simp [h]

/-- C19: Wide player expiry.  For a Wide player with remaining lifetime `L` and
elapsed time `e`, `update` stores the lifetime `L - e`, sets the pending
transition to Normal when `L - e < 0` and leaves the pending transition as it
was otherwise (so, with no transition to Normal pending before, one is pending
afterwards exactly when `L - e < 0`); and when `L - e < 0`,
`check_player_needs_replacing` then yields a Normal player, with no pending
transition, at the (x, y) the Wide player has after the movement of that
update. -/
theorem player_wide_expiry (p : player_t) (held : input_t) (e L : ℚ)
    (hc : p.cls = .player_wide_t L) :
    (p.update held e).cls = .player_wide_t (L - e) ∧
    (p.update held e).position = move_player p.position held PLAYER_SPEED_MULTIPLIER_WIDE e ∧
    (L - e < 0 → (p.update held e).new_player_id = PLAYER_ID_NORMAL) ∧
    (¬ L - e < 0 → (p.update held e).new_player_id = p.new_player_id) ∧
    (p.new_player_id ≠ PLAYER_ID_NORMAL →
      ((p.update held e).new_player_id = PLAYER_ID_NORMAL ↔ L - e < 0)) ∧
    (L - e < 0 →
      check_player_needs_replacing (p.update held e) =
        player_normal_t (p.update held e).position.x (p.update held e).position.y ∧
      (check_player_needs_replacing (p.update held e)).cls = .player_normal_t ∧
      (check_player_needs_replacing (p.update held e)).new_player_id = "" ∧
      (check_player_needs_replacing (p.update held e)).position.x =
        (move_player p.position held PLAYER_SPEED_MULTIPLIER_WIDE e).x ∧
      (check_player_needs_replacing (p.update held e)).position.y =
        (move_player p.position held PLAYER_SPEED_MULTIPLIER_WIDE e).y) := by
  rw [player_update_wide p held e L hc]
  refine ⟨rfl, rfl, fun h => by simp [h], fun h => by simp [h], fun hn => ?_, fun h => ?_⟩
  · by_cases h : L - e < 0
    · simp [h]
    · simp [h, hn]
  · simp [check_player_needs_replacing, h, player_normal_t, PLAYER_ID_NORMAL, PLAYER_ID_WIDE]

/-- Witness for C19: a Wide player at (10, 20) with lifetime 1 and no input
held, after a frame of two seconds, is replaced by a Normal player at
(10, 20). -/
theorem player_wide_expiry_witness :
    (player_wide1.update held_none 2).new_player_id = PLAYER_ID_NORMAL ∧
    check_player_needs_replacing (player_wide1.update held_none 2) = player_normal_t 10 20 := by
  obtain ⟨-, hpos, hpend, -, -, hrep⟩ := player_wide_expiry player_wide1 held_none 2 1 rfl
  refine ⟨hpend (by norm_num), ?_⟩
  rw [(hrep (by norm_num)).1, hpos]
  rfl

/-- C20, as the claim states it, fails for the Wide player: a Wide player that
consumes a Wide tile records no pending transition. -/
theorem player_wide_on_collision_tile_counterexample :
    (player_wide1.on_collision TILE_TYPE (.tile TILE_ID_WIDE) sheet32).map
      (fun q => decide (q.new_player_id = PLAYER_ID_WIDE)) = some false := by
  decide

/-- C20, amended: for a Normal player, `on_collision` with `TILE_TYPE` records
a pending transition to Wide when the consumed tile is Wide and leaves the
player unchanged when it is Normal; for a Wide player, `on_collision` with
`TILE_TYPE` leaves the player, its pending transition included, unchanged
whatever the variant of the consumed tile. -/
theorem player_on_collision_tile (p : player_t) (ss : spritesheet) :
    (p.cls = .player_normal_t →
      p.on_collision TILE_TYPE (.tile TILE_ID_WIDE) ss
        = some { p with new_player_id := PLAYER_ID_WIDE } ∧
      p.on_collision TILE_TYPE (.tile TILE_ID_NORMAL) ss = some p) ∧
    (∀ L id, p.cls = .player_wide_t L → p.on_collision TILE_TYPE (.tile id) ss = some p) := by
  refine ⟨fun h => ⟨?_, ?_⟩, fun L id h => ?_⟩
  · unfold player_t.on_collision
    rw [h]
    simp [TILE_TYPE, WALL_TYPE]
  · unfold player_t.on_collision
    rw [h]
    simp [TILE_TYPE, WALL_TYPE, TILE_ID_NORMAL, TILE_ID_WIDE]
  · unfold player_t.on_collision
    rw [h]
    simp [TILE_TYPE, WALL_TYPE]

/-- Witness for C20 (amended): the Normal player at the origin consumes a Wide
tile, and a Wide player consumes a Wide tile. -/
theorem player_on_collision_tile_witness :
    player0.on_collision TILE_TYPE (.tile TILE_ID_WIDE) sheet32
      = some { player0 with new_player_id := PLAYER_ID_WIDE } ∧
    player_wide1.on_collision TILE_TYPE (.tile TILE_ID_WIDE) sheet32 = some player_wide1 :=
  ⟨((player_on_collision_tile player0 sheet32).1 rfl).1,
    (player_on_collision_tile player_wide1 sheet32).2 1 TILE_ID_WIDE rfl⟩

/-! ### The respawned tile -/

/-- The draws after one call of `rand ()` are the later draws of the state
before the call. -/
theorem draw_shift (R : ℕ) (g : rand_state) (k : ℕ) (min max : ℚ) :
    draw R ⟨g.stream, g.calls + 1⟩ k min max = draw R g (k + 1) min max := by
  simp only [draw]
  rw [show g.calls + 1 + k = g.calls + (k + 1) by omega]

/-- The body of the respawn loop at a slot whose active flag is clear, in terms
of the five draws it makes. -/
theorem respawn_slot_respawned (R : ℕ) (sqrt : ℚ → ℚ) (i : ℕ) (t : tiles_t) (g : rand_state)
    (ha : t.active i = false) :
    ∃ t1, respawn_slot R sqrt i t g = some (t1, ⟨g.stream, g.calls + 5⟩) ∧
      respawned_from R sqrt g t1 i := by
  have h01 : (0 : ℚ) < 1 := by norm_num
  by_cases hd : draw R g 0 0 1 < PROBABILITY_WIDE
  · simp only [respawn_slot, ha, Bool.not_false, if_true, random_getd_eq R 0 1 g h01, hd,
      create_tile_wide, randomise_tile_eq, draw_shift]
    refine ⟨_, rfl, ?_⟩
    simp [respawned_from, hd]
  · simp only [respawn_slot, ha, Bool.not_false, if_true, random_getd_eq R 0 1 g h01, hd,
      if_false, create_tile, randomise_tile_eq, draw_shift]
    refine ⟨_, rfl, ?_⟩
    simp [respawned_from, hd]

/-- The slot `i` keeps, to the end of the respawn loop, the data the iteration
`i` gave it. -/
theorem respawn_loop_slot (R : ℕ) (sqrt : ℚ → ℚ) (t : tiles_t) (g : rand_state) (i : ℕ) :
    ∀ n : ℕ, i + 1 ≤ n →
      ∃ ti gi t1 g1 tn gn, respawn_loop R sqrt i t g = some (ti, gi) ∧
        respawn_slot R sqrt i ti gi = some (t1, g1) ∧
        respawn_loop R sqrt n t g = some (tn, gn) ∧ slot_same t1 tn i ∧
        ti.active = t.active ∧ gi.stream = g.stream := by
  intro n hn
  induction n, hn using Nat.le_induction with
  | base =>
    obtain ⟨ti, gi, ei, ai, si, -⟩ := respawn_loop_spec R sqrt t g i
    obtain ⟨t1, g1, e1, -⟩ := respawn_slot_spec R sqrt i ti gi
    exact ⟨ti, gi, t1, g1, t1, g1, ei, e1, by simp only [respawn_loop, ei, e1],
      slot_same_refl t1 i, ai, si⟩
  | succ n hn ih =>
    obtain ⟨ti, gi, t1, g1, tn, gn, ei, e1, en, hs, ai, si⟩ := ih
    obtain ⟨t2, g2, e2, -, -, hne, -⟩ := respawn_slot_spec R sqrt n tn gn
    exact ⟨ti, gi, t1, g1, t2, g2, ei, e1, by simp only [respawn_loop, en, e2],
      slot_same_trans hs (hne i (by omega)), ai, si⟩

/-- A slot below `N` that needs replacing holds, after `replace_expired_tiles`,
the tile made from the five draws that follow the generator state in which the
respawn loop reached the slot. -/
theorem replace_expired_tiles_slot (R : ℕ) (sqrt : ℚ → ℚ) (N : ℕ) (t : tiles_t)
    (g : rand_state) (i : ℕ) (hi : i < N) (hn : t.needs_replacing i = true) :
    ∃ ti gi tN gN, respawn_loop R sqrt i (mark_loop N t) g = some (ti, gi) ∧
      ti.active i = false ∧ gi.stream = g.stream ∧
      replace_expired_tiles R sqrt N t g = some (tN, gN) ∧ respawned_from R sqrt gi tN i := by
  obtain ⟨-, -, -, -, -, -, -, -, m9⟩ := mark_loop_spec t N
  obtain ⟨ti, gi, t1, g1, tN, gN, ei, e1, eN, hs, ai, si⟩ :=
    respawn_loop_slot R sqrt (mark_loop N t) g i N hi
  have ha : ti.active i = false := by
    rw [ai, m9 i, if_pos hi, hn]; rfl
  obtain ⟨t1', e1', hr⟩ := respawn_slot_respawned R sqrt i ti gi ha
  have ht : t1' = t1 := by
    have := e1'.symm.trans e1
    simp only [Option.some.injEq, Prod.mk.injEq] at this
    exact this.1
  subst ht
  obtain ⟨s1, s2, s3, s4, -, s6, s7, s8, -⟩ := hs
  obtain ⟨r1, r2, r3, r4, r5, r6, r7⟩ := hr
  refine ⟨ti, gi, tN, gN, ei, ha, si, eN, s8.trans r1, s1.trans r2, s2.trans r3, s3.trans r4,
    s4.trans r5, fun hd => ?_, fun hd => ?_⟩
  · exact ⟨s7.trans (r6 hd).1, s6.trans (r6 hd).2⟩
  · exact s7.trans (r7 hd)

/-- C11: a slot `i` below `N` that `replace_expired_tiles` respawns (it needs
replacing) ends the pass with its eaten flag clear; with `r` the variant draw
`random_getd (0, 1)` of its respawn, it is a Wide tile with lifetime
TILE_WIDE_LIFETIIME = 15 when `r < PROBABILITY_WIDE` = 0.2, and a Normal tile
otherwise. -/
theorem replace_expired_tiles_variant (R : ℕ) (sqrt : ℚ → ℚ) (N : ℕ) (t : tiles_t)
    (g : rand_state) (i : ℕ) (hi : i < N) (hn : t.needs_replacing i = true) :
    PROBABILITY_WIDE = 2 / 10 ∧ TILE_WIDE_LIFETIIME = 15 ∧
    ∃ ti gi r g1 tN gN, respawn_loop R sqrt i (mark_loop N t) g = some (ti, gi) ∧
      random_getd R 0 1 gi = some (r, g1) ∧
      replace_expired_tiles R sqrt N t g = some (tN, gN) ∧
      tN.is_eaten i = false ∧
      (r < PROBABILITY_WIDE → tN.tile_id i = TILE_ID_WIDE ∧ tN.lifetime i = TILE_WIDE_LIFETIIME) ∧
      (¬ r < PROBABILITY_WIDE → tN.tile_id i = TILE_ID_NORMAL) := by
  obtain ⟨ti, gi, tN, gN, ei, -, -, eN, r1, -, -, -, -, r6, r7⟩ :=
    replace_expired_tiles_slot R sqrt N t g i hi hn
  exact ⟨rfl, rfl, ti, gi, _, _, tN, gN, ei, random_getd_eq R 0 1 gi (by norm_num), eN, r1, r6, r7⟩

/-- Witness for C11: two eaten slots and a generator that always returns 0, so
the variant draw is 0 < 0.2 and the slot 1 becomes a Wide tile. -/
theorem replace_expired_tiles_variant_witness :
    ∃ ti gi r g1 tN gN,
      respawn_loop 32767 (fun _ => 1) 1 (mark_loop 2 tiles_eaten) rand0 = some (ti, gi) ∧
      random_getd 32767 0 1 gi = some (r, g1) ∧
      replace_expired_tiles 32767 (fun _ => 1) 2 tiles_eaten rand0 = some (tN, gN) ∧
      tN.is_eaten 1 = false ∧
      (r < PROBABILITY_WIDE → tN.tile_id 1 = TILE_ID_WIDE ∧ tN.lifetime 1 = TILE_WIDE_LIFETIIME) ∧
      (¬ r < PROBABILITY_WIDE → tN.tile_id 1 = TILE_ID_NORMAL) :=
  (replace_expired_tiles_variant 32767 (fun _ => 1) 2 tiles_eaten rand0 1 (by decide)
    (by decide)).2.2

/-- A draw lies between `min` and `max` when `rand ()` returns at most
`RAND_MAX`. -/
theorem draw_mem (R : ℕ) (g : rand_state) (k : ℕ) (min max : ℚ) (hR : 0 < R)
    (hs : g.stream (g.calls + k) ≤ R) (hm : min ≤ max) :
    min ≤ draw R g k min max ∧ draw R g k min max ≤ max := by
  have hRq : (0 : ℚ) < (R : ℚ) := by exact_mod_cast hR
  have h0 : (0 : ℚ) ≤ (g.stream (g.calls + k) : ℚ) / (R : ℚ) := by positivity
  have h1 : (g.stream (g.calls + k) : ℚ) / (R : ℚ) ≤ 1 := by
    rw [div_le_one hRq]; exact_mod_cast hs
  have hd : (0 : ℚ) ≤ max - min := by linarith
  simp only [draw]
  constructor
  · nlinarith [mul_nonneg h0 hd]
  · nlinarith [mul_nonneg (sub_nonneg.mpr h1) hd]

/-- C12: when `rand ()` returns values between 0 and `RAND_MAX` (positive),
`random_getd (min, max)` with `max > min` returns a number between `min` and
`max` inclusive, and a slot `i` below `N` that `replace_expired_tiles` respawns
ends the pass inside the screen rectangle: -640 <= x <= 640 and
-360 <= y <= 360. -/
theorem replace_expired_tiles_position (R : ℕ) (sqrt : ℚ → ℚ) (N : ℕ) (t : tiles_t)
    (g : rand_state) (i : ℕ) (hR : 0 < R) (hs : ∀ k, g.stream k ≤ R) (hi : i < N)
    (hn : t.needs_replacing i = true) :
    (∀ (min max : ℚ) (g0 : rand_state), min < max → g0.stream g0.calls ≤ R →
      ∃ v g1, random_getd R min max g0 = some (v, g1) ∧ min ≤ v ∧ v ≤ max) ∧
    ∃ tN gN, replace_expired_tiles R sqrt N t g = some (tN, gN) ∧
      -640 ≤ tN.pos_x i ∧ tN.pos_x i ≤ 640 ∧ -360 ≤ tN.pos_y i ∧ tN.pos_y i ≤ 360 := by
  constructor
  · intro min max g0 hlt hs0
    have := draw_mem R g0 0 min max hR (by simpa using hs0) hlt.le
    exact ⟨_, _, random_getd_eq R min max g0 hlt, this.1, this.2⟩
  · obtain ⟨ti, gi, tN, gN, -, -, si, eN, -, px, py, -⟩ :=
      replace_expired_tiles_slot R sqrt N t g i hi hn
    have hx := draw_mem R gi 1 ((SCREEN_WIDTH : ℚ) / (-2)) ((SCREEN_WIDTH : ℚ) / 2) hR
      (by rw [si]; exact hs _) (by norm_num [SCREEN_WIDTH])
    have hy := draw_mem R gi 2 ((SCREEN_HEIGHT : ℚ) / (-2)) ((SCREEN_HEIGHT : ℚ) / 2) hR
      (by rw [si]; exact hs _) (by norm_num [SCREEN_HEIGHT])
    rw [← px] at hx
    rw [← py] at hy
    norm_num [SCREEN_WIDTH, SCREEN_HEIGHT] at hx hy
    exact ⟨tN, gN, eN, hx.1, hx.2, hy.1, hy.2⟩

/-- Witness for C12: two eaten slots and a generator that always returns 0;
the slot 0 is respawned inside the screen rectangle. -/
theorem replace_expired_tiles_position_witness :
    ∃ tN gN, replace_expired_tiles 32767 (fun _ => 1) 2 tiles_eaten rand0 = some (tN, gN) ∧
      -640 ≤ tN.pos_x 0 ∧ tN.pos_x 0 ≤ 640 ∧ -360 ≤ tN.pos_y 0 ∧ tN.pos_y 0 ≤ 360 :=
  (replace_expired_tiles_position 32767 (fun _ => 1) 2 tiles_eaten rand0 0 (by decide)
    (fun _ => Nat.zero_le _) (by decide) (by decide)).2

/-! ### Initialisation of the tiles -/

/-- The loop of `initialise_tiles` after `n` iterations: the slots below `n` are
eaten Normal tiles, and nothing else has changed. -/
theorem initialise_loop_spec (t : tiles_t) :
    ∀ n : ℕ, (initialise_loop n t).pos_x = t.pos_x ∧ (initialise_loop n t).pos_y = t.pos_y ∧
      (initialise_loop n t).vel_x = t.vel_x ∧ (initialise_loop n t).vel_y = t.vel_y ∧
      (initialise_loop n t).angle_radians = t.angle_radians ∧
      (initialise_loop n t).lifetime = t.lifetime ∧ (initialise_loop n t).active = t.active ∧
      (∀ k, (initialise_loop n t).is_eaten k = if k < n then true else t.is_eaten k) ∧
      (∀ k, (initialise_loop n t).tile_id k = if k < n then TILE_ID_NORMAL else t.tile_id k) := by
  intro n
  induction n with
  | zero =>
    exact ⟨rfl, rfl, rfl, rfl, rfl, rfl, rfl, fun k => by simp [initialise_loop],
      fun k => by simp [initialise_loop]⟩
  | succ n ih =>
    obtain ⟨h1, h2, h3, h4, h5, h6, h7, h8, h9⟩ := ih
    refine ⟨h1, h2, h3, h4, h5, h6, h7, fun k => ?_, fun k => ?_⟩
    · simp only [initialise_loop]
      rcases Nat.lt_trichotomy k n with hk | hk | hk
      · rw [Function.update_noteq (by omega), h8 k, if_pos hk, if_pos (by omega)]
      · subst hk; rw [Function.update_same, if_pos (by omega)]
      · rw [Function.update_noteq (by omega), h8 k, if_neg (by omega), if_neg (by omega)]
    · simp only [initialise_loop]
      rcases Nat.lt_trichotomy k n with hk | hk | hk
      · rw [Function.update_noteq (by omega), h9 k, if_pos hk, if_pos (by omega)]
      · subst hk; rw [Function.update_same, if_pos (by omega)]
      · rw [Function.update_noteq (by omega), h9 k, if_neg (by omega), if_neg (by omega)]

/-- When the active flag of every slot below `n` is clear, the respawn loop
makes five draws for each of them. -/
theorem respawn_loop_calls (R : ℕ) (sqrt : ℚ → ℚ) (t : tiles_t) (g : rand_state) :
    ∀ n : ℕ, (∀ k, k < n → t.active k = false) →
      ∃ t1, respawn_loop R sqrt n t g = some (t1, ⟨g.stream, g.calls + 5 * n⟩) := by
  intro n
  induction n with
  | zero => intro _; exact ⟨t, rfl⟩
  | succ n ih =>
    intro hall
    obtain ⟨tn, en⟩ := ih (fun k hk => hall k (by omega))
    obtain ⟨tn', gn', en', an, -⟩ := respawn_loop_spec R sqrt t g n
    have hpair := en'.symm.trans en
    simp only [Option.some.injEq, Prod.mk.injEq] at hpair
    obtain ⟨rfl, -⟩ := hpair
    have ha : tn'.active n = false := by rw [an]; exact hall n (by omega)
    obtain ⟨t1, e1, -⟩ := respawn_slot_respawned R sqrt n tn' ⟨g.stream, g.calls + 5 * n⟩ ha
    refine ⟨t1, ?_⟩
    simp only [respawn_loop, en, e1]
    rw [show g.calls + 5 * n + 5 = g.calls + 5 * (n + 1) by omega]

/-- C14: `initialise_tiles` spawns a full population.  Whatever the prior
contents of the store, it returns after five draws for each of the `N` slots
(`N` is `NUM_TILES` in the source), and each slot `i` below `N` then holds the
tile made from the draws `5 i` to `5 i + 4`: its eaten flag is clear, its
variant is Normal or Wide, and (with `rand ()` between 0 and a positive
`RAND_MAX`) its position lies inside the screen rectangle. -/
theorem initialise_tiles_full (R : ℕ) (sqrt : ℚ → ℚ) (N : ℕ) (t : tiles_t) (g : rand_state)
    (i : ℕ) (hR : 0 < R) (hs : ∀ k, g.stream k ≤ R) (hi : i < N) :
    ∃ t1, initialise_tiles R sqrt N t g = some (t1, ⟨g.stream, g.calls + 5 * N⟩) ∧
      respawned_from R sqrt ⟨g.stream, g.calls + 5 * i⟩ t1 i ∧
      t1.is_eaten i = false ∧ (t1.tile_id i = TILE_ID_NORMAL ∨ t1.tile_id i = TILE_ID_WIDE) ∧
      -640 ≤ t1.pos_x i ∧ t1.pos_x i ≤ 640 ∧ -360 ≤ t1.pos_y i ∧ t1.pos_y i ≤ 360 := by
  obtain ⟨-, -, -, -, -, -, -, he, -⟩ := initialise_loop_spec t N
  have hneeds : ∀ k, k < N → (initialise_loop N t).needs_replacing k = true := by
    intro k hk
    rw [needs_replacing_iff]
    exact Or.inl (by rw [he k, if_pos hk])
  obtain ⟨-, -, -, -, -, -, -, -, m9⟩ := mark_loop_spec (initialise_loop N t) N
  have hclear : ∀ k, k < N → (mark_loop N (initialise_loop N t)).active k = false := by
    intro k hk
    rw [m9 k, if_pos hk, hneeds k hk]; rfl
  obtain ⟨t1, e1⟩ := respawn_loop_calls R sqrt (mark_loop N (initialise_loop N t)) g N hclear
  obtain ⟨ti', ei'⟩ := respawn_loop_calls R sqrt (mark_loop N (initialise_loop N t)) g i
    (fun k hk => hclear k (by omega))
  obtain ⟨ti, gi, tN, gN, ei, -, -, eN, hr⟩ :=
    replace_expired_tiles_slot R sqrt N (initialise_loop N t) g i hi (hneeds i hi)
  have hgi := ei'.symm.trans ei
  simp only [Option.some.injEq, Prod.mk.injEq] at hgi
  obtain ⟨-, rfl⟩ := hgi
  have htN := e1.symm.trans eN
  simp only [replace_expired_tiles, Option.some.injEq, Prod.mk.injEq] at htN
  obtain ⟨rfl, -⟩ := htN
  have hx := draw_mem R ⟨g.stream, g.calls + 5 * i⟩ 1 ((SCREEN_WIDTH : ℚ) / (-2))
    ((SCREEN_WIDTH : ℚ) / 2) hR (hs _) (by norm_num [SCREEN_WIDTH])
  have hy := draw_mem R ⟨g.stream, g.calls + 5 * i⟩ 2 ((SCREEN_HEIGHT : ℚ) / (-2))
    ((SCREEN_HEIGHT : ℚ) / 2) hR (hs _) (by norm_num [SCREEN_HEIGHT])
  obtain ⟨r1, r2, r3, r4, r5, r6, r7⟩ := hr
  rw [← r2] at hx
  rw [← r3] at hy
  norm_num [SCREEN_WIDTH, SCREEN_HEIGHT] at hx hy
  refine ⟨t1, e1, ⟨r1, r2, r3, r4, r5, r6, r7⟩, r1, ?_, hx.1, hx.2, hy.1, hy.2⟩
  by_cases hd : draw R ⟨g.stream, g.calls + 5 * i⟩ 0 0 1 < PROBABILITY_WIDE
  · exact Or.inr (r6 hd).1
  · exact Or.inl (r7 hd)

/-- Witness for C14: the full population of `NUM_TILES` slots from the store
`tiles0` and a generator that always returns 0; the last slot. -/
theorem initialise_tiles_full_witness :
    ∃ t1, initialise_tiles 32767 (fun _ => 1) NUM_TILES tiles0 rand0
        = some (t1, ⟨rand0.stream, rand0.calls + 5 * NUM_TILES⟩) ∧
      respawned_from 32767 (fun _ => 1) ⟨rand0.stream, rand0.calls + 5 * 1023⟩ t1 1023 ∧
      t1.is_eaten 1023 = false ∧
      (t1.tile_id 1023 = TILE_ID_NORMAL ∨ t1.tile_id 1023 = TILE_ID_WIDE) ∧
      -640 ≤ t1.pos_x 1023 ∧ t1.pos_x 1023 ≤ 640 ∧ -360 ≤ t1.pos_y 1023 ∧ t1.pos_y 1023 ≤ 360 :=
  initialise_tiles_full 32767 (fun _ => 1) NUM_TILES tiles0 rand0 1023 (by decide)
    (fun _ => Nat.zero_le _) (by decide)

/-! ### Constant tile speed

The lemmas of this section are about the definitions over the field `K`.  A
lemma whose name ends in `_K` is the lemma of the same name above, with `K` in
the place of `ℚ`. -/

namespace ordered_field

variable {K : Type}

/-- The loop of `initialise_tiles` after `n` iterations: the slots below `n` are
eaten Normal tiles, and nothing else has changed. -/
theorem initialise_loop_spec_K (t : tiles_t K) :
    ∀ n : ℕ, (initialise_loop n t).pos_x = t.pos_x ∧ (initialise_loop n t).pos_y = t.pos_y ∧
      (initialise_loop n t).vel_x = t.vel_x ∧ (initialise_loop n t).vel_y = t.vel_y ∧
      (initialise_loop n t).angle_radians = t.angle_radians ∧
      (initialise_loop n t).lifetime = t.lifetime ∧ (initialise_loop n t).active = t.active ∧
      (∀ k, (initialise_loop n t).is_eaten k = if k < n then true else t.is_eaten k) ∧
      (∀ k, (initialise_loop n t).tile_id k = if k < n then TILE_ID_NORMAL else t.tile_id k) := by
  intro n
  induction n with
  | zero =>
    exact ⟨rfl, rfl, rfl, rfl, rfl, rfl, rfl, fun k => by simp [initialise_loop],
      fun k => by simp [initialise_loop]⟩
  | succ n ih =>
    obtain ⟨h1, h2, h3, h4, h5, h6, h7, h8, h9⟩ := ih
    refine ⟨h1, h2, h3, h4, h5, h6, h7, fun k => ?_, fun k => ?_⟩
    · simp only [initialise_loop]
      rcases Nat.lt_trichotomy k n with hk | hk | hk
      · rw [Function.update_noteq (by omega), h8 k, if_pos hk, if_pos (by omega)]
      · subst hk; rw [Function.update_same, if_pos (by omega)]
      · rw [Function.update_noteq (by omega), h8 k, if_neg (by omega), if_neg (by omega)]
    · simp only [initialise_loop]
      rcases Nat.lt_trichotomy k n with hk | hk | hk
      · rw [Function.update_noteq (by omega), h9 k, if_pos hk, if_pos (by omega)]
      · subst hk; rw [Function.update_same, if_pos (by omega)]
      · rw [Function.update_noteq (by omega), h9 k, if_neg (by omega), if_neg (by omega)]

variable [LinearOrderedField K]

/-- The method `needs_replacing` as a proposition: the slot is eaten, or it is
a Wide tile with a negative lifetime. -/
theorem needs_replacing_iff_K (t : tiles_t K) (k : ℕ) :
    t.needs_replacing k = true ↔
      (t.is_eaten k = true ∨ (t.tile_id k = TILE_ID_WIDE ∧ t.lifetime k < 0)) := by
  unfold tiles_t.needs_replacing
  split_ifs with h
  · simp [h]
  · constructor
    · exact fun he => Or.inl he
    · rintro (he | hwide)
      · exact he
      · exact absurd hwide h

/-- The method `needs_replacing` reads the variant id, the lifetime and the
eaten flag of the slot only. -/
theorem needs_replacing_congr_K {a b : tiles_t K} {k : ℕ} (h1 : b.tile_id k = a.tile_id k)
    (h2 : b.lifetime k = a.lifetime k) (h3 : b.is_eaten k = a.is_eaten k) :
    b.needs_replacing k = a.needs_replacing k := by
  simp only [tiles_t.needs_replacing, h1, h2, h3]

/-- The first loop of `replace_expired_tiles` writes the active flags of the
slots below `n` and nothing else. -/
theorem mark_loop_spec_K (t : tiles_t K) :
    ∀ n : ℕ, (mark_loop n t).pos_x = t.pos_x ∧ (mark_loop n t).pos_y = t.pos_y ∧
      (mark_loop n t).vel_x = t.vel_x ∧ (mark_loop n t).vel_y = t.vel_y ∧
      (mark_loop n t).angle_radians = t.angle_radians ∧ (mark_loop n t).lifetime = t.lifetime ∧
      (mark_loop n t).tile_id = t.tile_id ∧ (mark_loop n t).is_eaten = t.is_eaten ∧
      ∀ k, (mark_loop n t).active k = if k < n then !t.needs_replacing k else t.active k := by
  intro n
  induction n with
  | zero => exact ⟨rfl, rfl, rfl, rfl, rfl, rfl, rfl, rfl, fun k => by simp [mark_loop]⟩
  | succ n ih =>
    obtain ⟨h1, h2, h3, h4, h5, h6, h7, h8, h9⟩ := ih
    refine ⟨h1, h2, h3, h4, h5, h6, h7, h8, fun k => ?_⟩
    have hn : (mark_loop n t).needs_replacing n = t.needs_replacing n :=
      needs_replacing_congr_K (congrFun h7 n) (congrFun h6 n) (congrFun h8 n)
    simp only [mark_loop, hn]
    rcases Nat.lt_trichotomy k n with hk | hk | hk
    · rw [Function.update_noteq (by omega), h9 k, if_pos hk, if_pos (by omega)]
    · subst hk; simp
    · rw [Function.update_noteq (by omega), h9 k, if_neg (by omega), if_neg (by omega)]

/-- The function `random_getd` on a non-empty range, in closed form. -/
theorem random_getd_eq_K (R : ℕ) (min max : K) (g : rand_state) (h : min < max) :
    random_getd R min max g = some (draw R g 0 min max, ⟨g.stream, g.calls + 1⟩) := by
  simp [random_getd, h, rand, draw]

/-- The shared block of `create_tile` and `create_tile_wide`, in closed form:
four draws, the last two normalised. -/
theorem randomise_tile_eq_K (R : ℕ) (sqrt : K → K) (t : tiles_t K) (i : ℕ) (g : rand_state) :
    randomise_tile R sqrt t i g = some
      ({ t with
          pos_x := Function.update t.pos_x i
            (draw R g 0 ((SCREEN_WIDTH : K) / (-2)) ((SCREEN_WIDTH : K) / 2))
          pos_y := Function.update t.pos_y i
            (draw R g 1 ((SCREEN_HEIGHT : K) / (-2)) ((SCREEN_HEIGHT : K) / 2))
          vel_x := Function.update t.vel_x i
            (draw R g 2 (-1) 1 /
              sqrt (draw R g 2 (-1) 1 * draw R g 2 (-1) 1 + draw R g 3 (-1) 1 * draw R g 3 (-1) 1))
          vel_y := Function.update t.vel_y i
            (draw R g 3 (-1) 1 /
              sqrt (draw R g 2 (-1) 1 * draw R g 2 (-1) 1
                + draw R g 3 (-1) 1 * draw R g 3 (-1) 1)) },
        ⟨g.stream, g.calls + 4⟩) := by
  have hw : (SCREEN_WIDTH : K) / (-2) < (SCREEN_WIDTH : K) / 2 := by norm_num [SCREEN_WIDTH]
  have hh : (SCREEN_HEIGHT : K) / (-2) < (SCREEN_HEIGHT : K) / 2 := by norm_num [SCREEN_HEIGHT]
  have h1 : (-1 : K) < 1 := by norm_num
  simp only [randomise_tile, random_getd_eq_K R _ _ _ hw, random_getd_eq_K R _ _ _ hh,
    random_getd_eq_K R _ _ _ h1, Option.bind_eq_bind, Option.some_bind, Option.pure_def,
    Function.update_same, Function.update_idem, draw, add_zero, add_assoc]
  rfl

/-- The draws after one call of `rand ()` are the later draws of the state
before the call. -/
theorem draw_shift_K (R : ℕ) (g : rand_state) (k : ℕ) (min max : K) :
    draw R ⟨g.stream, g.calls + 1⟩ k min max = draw R g (k + 1) min max := by
  simp only [draw]
  rw [show g.calls + 1 + k = g.calls + (k + 1) by omega]

/-- Resolution of a tile against the left wall, in closed form. -/
theorem collision_resolve_tile_wall_left_K (ss : spritesheet K) (t : tiles_t K) (wall : wall_t K)
    (i : ℕ) (r : texture_rect K) (hr : get_tile_texture_rect ss (t.tile_id i) = some r)
    (hw : wall.id = WALL_ID_LEFT) :
    collision_resolve_tile_wall ss t wall i = some
      { t with
        vel_x := Function.update t.vel_x i (-t.vel_x i)
        pos_x := Function.update t.pos_x i (wall.position.x + wall.size / 2 + r.width / 2) } := by
  simp [collision_resolve_tile_wall, wall_t.get_id, tiles_t.get_id, hw, hr]

/-- Resolution of a tile against the right wall, in closed form. -/
theorem collision_resolve_tile_wall_right_K (ss : spritesheet K) (t : tiles_t K) (wall : wall_t K)
    (i : ℕ) (r : texture_rect K) (hr : get_tile_texture_rect ss (t.tile_id i) = some r)
    (hw : wall.id = WALL_ID_RIGHT) :
    collision_resolve_tile_wall ss t wall i = some
      { t with
        vel_x := Function.update t.vel_x i (-t.vel_x i)
        pos_x := Function.update t.pos_x i (wall.position.x - wall.size / 2 - r.width / 2) } := by
  simp [collision_resolve_tile_wall, wall_t.get_id, tiles_t.get_id, hw, hr, WALL_ID_RIGHT,
    WALL_ID_LEFT]

/-- Resolution of a tile against the top wall, in closed form. -/
theorem collision_resolve_tile_wall_top_K (ss : spritesheet K) (t : tiles_t K) (wall : wall_t K)
    (i : ℕ) (r : texture_rect K) (hr : get_tile_texture_rect ss (t.tile_id i) = some r)
    (hw : wall.id = WALL_ID_TOP) :
    collision_resolve_tile_wall ss t wall i = some
      { t with
        vel_y := Function.update t.vel_y i (-t.vel_y i)
        pos_y := Function.update t.pos_y i (wall.position.y - wall.size / 2 - r.height / 2) } := by
  simp [collision_resolve_tile_wall, wall_t.get_id, tiles_t.get_id, hw, hr, WALL_ID_RIGHT,
    WALL_ID_LEFT, WALL_ID_TOP]

/-- Resolution of a tile against the bottom wall, in closed form. -/
theorem collision_resolve_tile_wall_bottom_K (ss : spritesheet K) (t : tiles_t K) (wall : wall_t K)
    (i : ℕ) (r : texture_rect K) (hr : get_tile_texture_rect ss (t.tile_id i) = some r)
    (hw : wall.id = WALL_ID_BOTTOM) :
    collision_resolve_tile_wall ss t wall i = some
      { t with
        vel_y := Function.update t.vel_y i (-t.vel_y i)
        pos_y := Function.update t.pos_y i (wall.position.y + wall.size / 2 + r.height / 2) } := by
  simp [collision_resolve_tile_wall, wall_t.get_id, tiles_t.get_id, hw, hr, WALL_ID_RIGHT,
    WALL_ID_LEFT, WALL_ID_TOP, WALL_ID_BOTTOM]

/-- Resolution of a tile against a wall whose id is none of the four: only the
y velocity is reflected. -/
theorem collision_resolve_tile_wall_other_K (ss : spritesheet K) (t : tiles_t K) (wall : wall_t K)
    (i : ℕ) (h1 : wall.id ≠ WALL_ID_LEFT) (h2 : wall.id ≠ WALL_ID_RIGHT)
    (h3 : wall.id ≠ WALL_ID_TOP) (h4 : wall.id ≠ WALL_ID_BOTTOM) :
    collision_resolve_tile_wall ss t wall i = some
      { t with vel_y := Function.update t.vel_y i (-t.vel_y i) } := by
  simp [collision_resolve_tile_wall, wall_t.get_id, h1, h2, h3, h4]

/-- One step of the inner tile loop when the wall is not overlapped. -/
theorem resolve_tile_walls_miss_K (ss : spritesheet K) (i : ℕ) (r : texture_rect K) (t : tiles_t K)
    (rhs : wall_t K) (rest : List (wall_t K))
    (h : is_overlapping (t.pos_x i) (t.pos_y i) r.width r.height
      rhs.position.x rhs.position.y rhs.size rhs.size = false) :
    resolve_tile_walls ss i (some r) t (rhs :: rest) =
      (resolve_tile_walls ss i (some r) t rest).map fun q => (q.1, rhs :: q.2) := by
  simp only [resolve_tile_walls, tiles_t.position, h, Bool.false_eq_true, if_false]
  generalize resolve_tile_walls ss i (some r) t rest = o
  rcases o with _ | ⟨a, b⟩ <;> rfl

/-- One step of the inner tile loop when the wall is overlapped. -/
theorem resolve_tile_walls_hit_K (ss : spritesheet K) (i : ℕ) (r : texture_rect K) (t t1 : tiles_t K)
    (rhs : wall_t K) (rest : List (wall_t K))
    (h : is_overlapping (t.pos_x i) (t.pos_y i) r.width r.height
      rhs.position.x rhs.position.y rhs.size rhs.size = true)
    (h1 : collision_resolve_tile_wall ss t rhs i = some t1) :
    resolve_tile_walls ss i (some r) t (rhs :: rest) =
      (resolve_tile_walls ss i (some r) t1 rest).map fun q => (q.1, rhs :: q.2) := by
  simp only [resolve_tile_walls, tiles_t.position, h, tiles_t.on_collision, h1,
    wall_t.on_collision, if_true]
  generalize resolve_tile_walls ss i (some r) t1 rest = o
  rcases o with _ | ⟨a, b⟩ <;> rfl

/-- A resolution against a wall negates one velocity component of the slot and
leaves every other velocity component of the store as it was. -/
theorem collision_resolve_tile_wall_vel_K (ss : spritesheet K) (t t1 : tiles_t K) (wall : wall_t K)
    (j : ℕ) (h : collision_resolve_tile_wall ss t wall j = some t1) :
    (t1.vel_x = Function.update t.vel_x j (-t.vel_x j) ∧ t1.vel_y = t.vel_y) ∨
    (t1.vel_x = t.vel_x ∧ t1.vel_y = Function.update t.vel_y j (-t.vel_y j)) := by
  have hnone : get_tile_texture_rect ss (t.tile_id j) = none →
      (wall.id = WALL_ID_LEFT ∨ wall.id = WALL_ID_RIGHT ∨ wall.id = WALL_ID_TOP ∨
        wall.id = WALL_ID_BOTTOM) → collision_resolve_tile_wall ss t wall j = none := by
    intro hr hw
    rcases hw with hw | hw | hw | hw <;>
      simp [collision_resolve_tile_wall, wall_t.get_id, tiles_t.get_id, hw, hr, WALL_ID_RIGHT,
        WALL_ID_LEFT, WALL_ID_TOP, WALL_ID_BOTTOM]
  by_cases h1 : wall.id = WALL_ID_LEFT
  · cases hr : get_tile_texture_rect ss (t.tile_id j) with
    | none => rw [hnone hr (Or.inl h1)] at h; exact absurd h (by simp)
    | some r =>
      rw [collision_resolve_tile_wall_left_K ss t wall j r hr h1] at h
      rw [← Option.some.inj h]
      exact Or.inl ⟨rfl, rfl⟩
  by_cases h2 : wall.id = WALL_ID_RIGHT
  · cases hr : get_tile_texture_rect ss (t.tile_id j) with
    | none => rw [hnone hr (Or.inr (Or.inl h2))] at h; exact absurd h (by simp)
    | some r =>
      rw [collision_resolve_tile_wall_right_K ss t wall j r hr h2] at h
      rw [← Option.some.inj h]
      exact Or.inl ⟨rfl, rfl⟩
  by_cases h3 : wall.id = WALL_ID_TOP
  · cases hr : get_tile_texture_rect ss (t.tile_id j) with
    | none => rw [hnone hr (Or.inr (Or.inr (Or.inl h3)))] at h; exact absurd h (by simp)
    | some r =>
      rw [collision_resolve_tile_wall_top_K ss t wall j r hr h3] at h
      rw [← Option.some.inj h]
      exact Or.inr ⟨rfl, rfl⟩
  by_cases h4 : wall.id = WALL_ID_BOTTOM
  · cases hr : get_tile_texture_rect ss (t.tile_id j) with
    | none => rw [hnone hr (Or.inr (Or.inr (Or.inr h4)))] at h; exact absurd h (by simp)
    | some r =>
      rw [collision_resolve_tile_wall_bottom_K ss t wall j r hr h4] at h
      rw [← Option.some.inj h]
      exact Or.inr ⟨rfl, rfl⟩
  · rw [collision_resolve_tile_wall_other_K ss t wall j h1 h2 h3 h4] at h
    rw [← Option.some.inj h]
    exact Or.inr ⟨rfl, rfl⟩

/-- A resolution against a wall keeps the squared speed of every slot. -/
theorem collision_resolve_tile_wall_speed_K (ss : spritesheet K) (t t1 : tiles_t K) (wall : wall_t K)
    (j : ℕ) (h : collision_resolve_tile_wall ss t wall j = some t1) (k : ℕ) :
    t1.vel_x k ^ 2 + t1.vel_y k ^ 2 = t.vel_x k ^ 2 + t.vel_y k ^ 2 := by
  rcases collision_resolve_tile_wall_vel_K ss t t1 wall j h with ⟨hx, hy⟩ | ⟨hx, hy⟩
  · rw [hx, hy]
    by_cases hk : k = j
    · subst hk; rw [Function.update_same]; ring
    · rw [Function.update_noteq hk]
  · rw [hx, hy]
    by_cases hk : k = j
    · subst hk; rw [Function.update_same]; ring
    · rw [Function.update_noteq hk]

/-- The inner tile loop keeps the squared speed of every slot. -/
theorem resolve_tile_walls_speed_K (ss : spritesheet K) (i : ℕ) (lhs_rect : Option (texture_rect K))
    (ws : List (wall_t K)) :
    ∀ (t t1 : tiles_t K) (ws1 : List (wall_t K)),
      resolve_tile_walls ss i lhs_rect t ws = some (t1, ws1) →
      ∀ k, t1.vel_x k ^ 2 + t1.vel_y k ^ 2 = t.vel_x k ^ 2 + t.vel_y k ^ 2 := by
  induction ws with
  | nil =>
    intro t t1 ws1 h k
    simp only [resolve_tile_walls, Option.some.injEq, Prod.mk.injEq] at h
    rw [← h.1]
  | cons rhs rest ih =>
    intro t t1 ws1 h k
    cases lhs_rect with
    | none => simp [resolve_tile_walls] at h
    | some r =>
      cases hov : is_overlapping (t.pos_x i) (t.pos_y i) r.width r.height
        rhs.position.x rhs.position.y rhs.size rhs.size with
      | false =>
        rw [resolve_tile_walls_miss_K ss i r t rhs rest hov, Option.map_eq_some'] at h
        obtain ⟨⟨a, b⟩, hab, hq⟩ := h
        simp only [Prod.mk.injEq] at hq
        rw [← hq.1]
        exact ih t a b hab k
      | true =>
        cases hc : collision_resolve_tile_wall ss t rhs i with
        | none =>
          simp [resolve_tile_walls, tiles_t.position, hov, tiles_t.on_collision, hc] at h
        | some t2 =>
          rw [resolve_tile_walls_hit_K ss i r t t2 rhs rest hov hc, Option.map_eq_some'] at h
          obtain ⟨⟨a, b⟩, hab, hq⟩ := h
          simp only [Prod.mk.injEq] at hq
          rw [← hq.1, ih t2 a b hab k]
          exact collision_resolve_tile_wall_speed_K ss t t2 rhs i hc k

/-- The outer tile loop keeps the squared speed of every slot. -/
theorem resolve_tiles_loop_speed_K (ss : spritesheet K) (t : tiles_t K) (w : walls_t K) :
    ∀ (n : ℕ) (t1 : tiles_t K) (w1 : walls_t K), resolve_tiles_loop ss n t w = some (t1, w1) →
      ∀ k, t1.vel_x k ^ 2 + t1.vel_y k ^ 2 = t.vel_x k ^ 2 + t.vel_y k ^ 2 := by
  intro n
  induction n with
  | zero =>
    intro t1 w1 h k
    simp only [resolve_tiles_loop, Option.some.injEq, Prod.mk.injEq] at h
    rw [← h.1]
  | succ n ih =>
    intro t1 w1 h k
    cases hn : resolve_tiles_loop ss n t w with
    | none => simp [resolve_tiles_loop, hn] at h
    | some q =>
      obtain ⟨tn, wn⟩ := q
      cases hb : resolve_tile_walls ss n (get_tile_texture_rect ss (tn.tile_id n)) tn wn.data with
      | none => simp [resolve_tiles_loop, hn, hb] at h
      | some q2 =>
        obtain ⟨t2, d2⟩ := q2
        simp only [resolve_tiles_loop, hn, hb, Option.some.injEq, Prod.mk.injEq] at h
        rw [← h.1, resolve_tile_walls_speed_K ss n _ wn.data tn t2 d2 hb k]
        exact ih tn wn hn k

/-- The function `resolve_collisions` keeps the squared speed of every slot. -/
theorem resolve_collisions_speed_K (N : ℕ) (ss : spritesheet K) (p p1 : player_t K) (t t1 : tiles_t K)
    (w w1 : walls_t K) (h : resolve_collisions N ss p t w = some (p1, t1, w1)) (k : ℕ) :
    t1.vel_x k ^ 2 + t1.vel_y k ^ 2 = t.vel_x k ^ 2 + t.vel_y k ^ 2 := by
  unfold resolve_collisions at h
  cases hp : resolve_player_walls ss p w.data with
  | none => simp [hp] at h
  | some q =>
    obtain ⟨p2, d2⟩ := q
    cases ht : resolve_tiles_loop ss N t ⟨d2⟩ with
    | none => simp [hp, ht] at h
    | some q2 =>
      obtain ⟨t2, w2⟩ := q2
      simp only [hp, ht, Option.some.injEq, Prod.mk.injEq] at h
      rw [← h.2.1]
      exact resolve_tiles_loop_speed_K ss t ⟨d2⟩ N t2 w2 ht k

/-- The first loop of `update` does not write a velocity. -/
theorem update_simd_loop_vel (speed angle_speed : __m128 K) (t : tiles_t K) :
    ∀ n : ℕ, (update_simd_loop speed angle_speed n t).vel_x = t.vel_x ∧
      (update_simd_loop speed angle_speed n t).vel_y = t.vel_y := by
  intro n
  induction n with
  | zero => exact ⟨rfl, rfl⟩
  | succ n ih => exact ih

/-- The second loop of `update` does not write a velocity. -/
theorem update_scalar_loop_vel (two_pi : K) (mod : K → K → K) (e : K) (t : tiles_t K) :
    ∀ n : ℕ, (update_scalar_loop two_pi mod e n t).vel_x = t.vel_x ∧
      (update_scalar_loop two_pi mod e n t).vel_y = t.vel_y := by
  intro n
  induction n with
  | zero => exact ⟨rfl, rfl⟩
  | succ n ih =>
    simp only [update_scalar_loop]
    split_ifs
    · exact ih
    · exact ih

/-- The method `update` does not write a velocity. -/
theorem tiles_update_vel (two_pi : K) (mod : K → K → K) (N : ℕ) (t : tiles_t K) (e : K) :
    (t.update two_pi mod N e).vel_x = t.vel_x ∧ (t.update two_pi mod N e).vel_y = t.vel_y := by
  obtain ⟨a1, a2⟩ := update_simd_loop_vel (_mm_set1_ps ((TILE_SPEED_MOVEMENT : K) * e))
    (_mm_set1_ps (TILE_SPEED_ROTATION two_pi * e)) t (N / 4)
  obtain ⟨b1, b2⟩ := update_scalar_loop_vel two_pi mod e
    (update_simd_loop (_mm_set1_ps ((TILE_SPEED_MOVEMENT : K) * e))
      (_mm_set1_ps (TILE_SPEED_ROTATION two_pi * e)) (N / 4) t) N
  exact ⟨b1.trans a1, b2.trans a2⟩

/-- A vector that is not the zero vector, divided by an exact square root of its
squared length, has unit length. -/
theorem unit_of_exact_sqrt (sqrt : K → K) (hsqrt : ∀ x : K, 0 ≤ x → sqrt x * sqrt x = x)
    (vx vy : K) (h : not_zero_vector vx vy) :
    (vx / sqrt (vx * vx + vy * vy)) ^ 2 + (vy / sqrt (vx * vx + vy * vy)) ^ 2 = 1 := by
  have hs0 : 0 ≤ vx * vx + vy * vy := add_nonneg (mul_self_nonneg vx) (mul_self_nonneg vy)
  have hne : vx * vx + vy * vy ≠ 0 := fun h0 => h (mul_self_add_mul_self_eq_zero.mp h0)
  have hsq : sqrt (vx * vx + vy * vy) ^ 2 = vx * vx + vy * vy := by
    rw [sq]; exact hsqrt _ hs0
  have hpos : sqrt (vx * vx + vy * vy) ^ 2 ≠ 0 := by rw [hsq]; exact hne
  rw [div_pow, div_pow, ← add_div, div_eq_one_iff_eq hpos, hsq]
  ring

/-- The body of the respawn loop at the slot `i` always returns.  It writes no
active flag and no velocity of another slot, and the generator keeps its
stream.  With the active flag of the slot set it keeps the velocity of the
slot; with the flag clear the velocity is the fourth and the fifth coming draw,
divided by what `sqrt` returns for their squared length. -/
theorem respawn_slot_vel (R : ℕ) (sqrt : K → K) (i : ℕ) (t : tiles_t K) (g : rand_state) :
    ∃ t1 g1, respawn_slot R sqrt i t g = some (t1, g1) ∧ t1.active = t.active ∧
      g1.stream = g.stream ∧
      (∀ k, k ≠ i → t1.vel_x k = t.vel_x k ∧ t1.vel_y k = t.vel_y k) ∧
      (t.active i = true → t1.vel_x i = t.vel_x i ∧ t1.vel_y i = t.vel_y i) ∧
      (t.active i = false →
        t1.vel_x i = draw R g 3 (-1) 1 /
          sqrt (draw R g 3 (-1) 1 * draw R g 3 (-1) 1 + draw R g 4 (-1) 1 * draw R g 4 (-1) 1) ∧
        t1.vel_y i = draw R g 4 (-1) 1 /
          sqrt (draw R g 3 (-1) 1 * draw R g 3 (-1) 1
            + draw R g 4 (-1) 1 * draw R g 4 (-1) 1)) := by
  cases ha : t.active i with
  | true =>
    exact ⟨t, g, by simp [respawn_slot, ha], rfl, rfl, fun k _ => ⟨rfl, rfl⟩,
      fun _ => ⟨rfl, rfl⟩, fun h => by simp at h⟩
  | false =>
    have h01 : (0 : K) < 1 := by norm_num
    by_cases hd : draw R g 0 0 1 < (PROBABILITY_WIDE : K)
    · simp only [respawn_slot, ha, Bool.not_false, if_true, random_getd_eq_K R 0 1 g h01, hd,
        create_tile_wide, randomise_tile_eq_K, draw_shift_K]
      refine ⟨_, _, rfl, rfl, rfl, fun k hk => ?_, fun h => by simp at h, fun _ => ?_⟩
      · simp [Function.update_noteq hk]
      · simp
    · simp only [respawn_slot, ha, Bool.not_false, if_true, random_getd_eq_K R 0 1 g h01, hd,
        if_false, create_tile, randomise_tile_eq_K, draw_shift_K]
      refine ⟨_, _, rfl, rfl, rfl, fun k hk => ?_, fun h => by simp at h, fun _ => ?_⟩
      · simp [Function.update_noteq hk]
      · simp

/-- The respawn loop always returns after `n` iterations, writes no active flag
and keeps the stream of the generator.  The slots from `n` on and the slots
whose active flag is set keep their velocity; a slot `k` below `n` whose active
flag is clear has the velocity drawn in the generator state `gi` in which the
loop reached it. -/
theorem respawn_loop_vel (R : ℕ) (sqrt : K → K) (t : tiles_t K) (g : rand_state) :
    ∀ n : ℕ, ∃ tn gn, respawn_loop R sqrt n t g = some (tn, gn) ∧ tn.active = t.active ∧
      gn.stream = g.stream ∧
      (∀ k, n ≤ k → tn.vel_x k = t.vel_x k ∧ tn.vel_y k = t.vel_y k) ∧
      (∀ k, k < n → t.active k = true → tn.vel_x k = t.vel_x k ∧ tn.vel_y k = t.vel_y k) ∧
      (∀ k, k < n → t.active k = false →
        ∃ ti gi, respawn_loop R sqrt k t g = some (ti, gi) ∧ ti.active k = false ∧
          gi.stream = g.stream ∧
          tn.vel_x k = draw R gi 3 (-1) 1 /
            sqrt (draw R gi 3 (-1) 1 * draw R gi 3 (-1) 1
              + draw R gi 4 (-1) 1 * draw R gi 4 (-1) 1) ∧
          tn.vel_y k = draw R gi 4 (-1) 1 /
            sqrt (draw R gi 3 (-1) 1 * draw R gi 3 (-1) 1
              + draw R gi 4 (-1) 1 * draw R gi 4 (-1) 1)) := by
  intro n
  induction n with
  | zero =>
    exact ⟨t, g, rfl, rfl, rfl, fun k _ => ⟨rfl, rfl⟩, fun k hk => absurd hk (by omega),
      fun k hk => absurd hk (by omega)⟩
  | succ n ih =>
    obtain ⟨tn, gn, en, an, sn, hge, hact, hclr⟩ := ih
    obtain ⟨t1, g1, e1, a1, s1, hne, hset, hnew⟩ := respawn_slot_vel R sqrt n tn gn
    refine ⟨t1, g1, ?_, a1.trans an, s1.trans sn, fun k hk => ?_, fun k hk ha => ?_,
      fun k hk ha => ?_⟩
    · simp only [respawn_loop, en, e1]
    · obtain ⟨q1, q2⟩ := hne k (by omega)
      obtain ⟨r1, r2⟩ := hge k (by omega)
      exact ⟨q1.trans r1, q2.trans r2⟩
    · rcases Nat.lt_succ_iff_lt_or_eq.mp hk with hlt | rfl
      · obtain ⟨q1, q2⟩ := hne k (by omega)
        obtain ⟨r1, r2⟩ := hact k hlt ha
        exact ⟨q1.trans r1, q2.trans r2⟩
      · have htn : tn.active k = true := by rw [an]; exact ha
        obtain ⟨q1, q2⟩ := hset htn
        obtain ⟨r1, r2⟩ := hge k le_rfl
        exact ⟨q1.trans r1, q2.trans r2⟩
    · rcases Nat.lt_succ_iff_lt_or_eq.mp hk with hlt | rfl
      · obtain ⟨ti, gi, ei, ai, si, vx, vy⟩ := hclr k hlt ha
        obtain ⟨q1, q2⟩ := hne k (by omega)
        exact ⟨ti, gi, ei, ai, si, q1.trans vx, q2.trans vy⟩
      · have htn : tn.active k = false := by rw [an]; exact ha
        obtain ⟨vx, vy⟩ := hnew htn
        exact ⟨tn, gn, en, htn, sn, vx, vy⟩

/-- The function `replace_expired_tiles` always returns. -/
theorem replace_expired_tiles_returns (R : ℕ) (sqrt : K → K) (N : ℕ) (t : tiles_t K)
    (g : rand_state) : ∃ t1 g1, replace_expired_tiles R sqrt N t g = some (t1, g1) := by
  obtain ⟨t1, g1, e1, -⟩ := respawn_loop_vel R sqrt (mark_loop N t) g N
  exact ⟨t1, g1, e1⟩

/-- With an exact square root, the pass `replace_expired_tiles` keeps the unit
speed of the slots it does not respawn and gives unit speed to the slots it
respawns, when no respawn draws the zero vector. -/
theorem replace_expired_tiles_unit (R : ℕ) (sqrt : K → K)
    (hsqrt : ∀ x : K, 0 ≤ x → sqrt x * sqrt x = x) (N : ℕ) (t : tiles_t K)
    (g : rand_state) (t1 : tiles_t K) (g1 : rand_state)
    (hok : respawns_ok not_zero_vector R sqrt N t g)
    (h : replace_expired_tiles R sqrt N t g = some (t1, g1)) (i : ℕ) (hi : i < N)
    (hunit : t.needs_replacing i = false → t.vel_x i ^ 2 + t.vel_y i ^ 2 = 1) :
    t1.vel_x i ^ 2 + t1.vel_y i ^ 2 = 1 := by
  obtain ⟨-, -, m3, m4, -, -, -, -, m9⟩ := mark_loop_spec_K t N
  obtain ⟨tN, gN, eN, -, -, -, hact, hclr⟩ := respawn_loop_vel R sqrt (mark_loop N t) g N
  have hpair := eN.symm.trans h
  simp only [Option.some.injEq, Prod.mk.injEq] at hpair
  obtain ⟨rfl, -⟩ := hpair
  have hmark : (mark_loop N t).active i = !t.needs_replacing i := by rw [m9 i, if_pos hi]
  cases hn : t.needs_replacing i with
  | true =>
    obtain ⟨ti, gi, ei, ai, -, vx, vy⟩ := hclr i hi (by rw [hmark, hn]; rfl)
    rw [vx, vy]
    exact unit_of_exact_sqrt sqrt hsqrt _ _ (hok i ti gi hi ei ai)
  | false =>
    obtain ⟨vx, vy⟩ := hact i hi (by rw [hmark, hn]; rfl)
    rw [vx, vy, m3, m4]
    exact hunit hn

/-- The function `initialise_tiles` always returns, and each slot `i` below `N`
then has the velocity drawn in the generator state `gi` in which the respawn
loop reached it, divided by what `sqrt` returns for its squared length. -/
theorem initialise_tiles_vel (R : ℕ) (sqrt : K → K) (N : ℕ) (t : tiles_t K) (g : rand_state)
    (i : ℕ) (hi : i < N) :
    ∃ t1 g1 gi, initialise_tiles R sqrt N t g = some (t1, g1) ∧ gi.stream = g.stream ∧
      t1.vel_x i = draw R gi 3 (-1) 1 /
        sqrt (draw R gi 3 (-1) 1 * draw R gi 3 (-1) 1
          + draw R gi 4 (-1) 1 * draw R gi 4 (-1) 1) ∧
      t1.vel_y i = draw R gi 4 (-1) 1 /
        sqrt (draw R gi 3 (-1) 1 * draw R gi 3 (-1) 1
          + draw R gi 4 (-1) 1 * draw R gi 4 (-1) 1) := by
  obtain ⟨-, -, -, -, -, -, -, he, -⟩ := initialise_loop_spec_K t N
  have hneeds : (initialise_loop N t).needs_replacing i = true := by
    rw [needs_replacing_iff_K]
    exact Or.inl (by rw [he i, if_pos hi])
  obtain ⟨-, -, -, -, -, -, -, -, m9⟩ := mark_loop_spec_K (initialise_loop N t) N
  have hclear : (mark_loop N (initialise_loop N t)).active i = false := by
    rw [m9 i, if_pos hi, hneeds]; rfl
  obtain ⟨tN, gN, eN, -, -, -, -, hclr⟩ :=
    respawn_loop_vel R sqrt (mark_loop N (initialise_loop N t)) g N
  obtain ⟨ti, gi, -, -, si, vx, vy⟩ := hclr i hi hclear
  exact ⟨tN, gN, gi, eN, si, vx, vy⟩

/-- With `RAND_MAX` odd, `random_getd (-1, 1)` never returns 0. -/
theorem draw_ne_zero_of_odd (R : ℕ) (hR : R % 2 = 1) (g : rand_state) (k : ℕ) :
    draw R g k (-1 : K) 1 ≠ 0 := by
  intro h
  have hR0 : (R : K) ≠ 0 := by
    have hne : R ≠ 0 := by omega
    exact_mod_cast hne
  simp only [draw] at h
  field_simp at h
  have h2 : ((2 * g.stream (g.calls + k) : ℕ) : K) = ((R : ℕ) : K) := by
    push_cast
    linarith
  have h3 : 2 * g.stream (g.calls + k) = R := Nat.cast_injective h2
  omega

/-- With `RAND_MAX` odd, no respawn draws the zero vector. -/
theorem respawns_ok_of_odd (R : ℕ) (hR : R % 2 = 1) (sqrt : K → K) (N : ℕ) (t : tiles_t K)
    (g : rand_state) : respawns_ok not_zero_vector R sqrt N t g :=
  fun _ _ gi _ _ _ hz => draw_ne_zero_of_odd R hR gi 3 hz.1

/-- With `RAND_MAX` odd, `initialise_tiles` returns a reachable state, whatever
the population size, the prior store and the generator. -/
theorem reachable_of_odd (R : ℕ) (hR : R % 2 = 1) (sqrt : K → K) (two_pi : K)
    (mod : K → K → K) (N : ℕ) (t : tiles_t K) (g : rand_state) :
    ∃ t1 g1, initialise_tiles R sqrt N t g = some (t1, g1) ∧
      reachable not_zero_vector R sqrt two_pi mod N t1 g1 := by
  obtain ⟨t1, g1, e1⟩ := replace_expired_tiles_returns R sqrt N (initialise_loop N t) g
  exact ⟨t1, g1, e1, reachable.init t g t1 g1 (respawns_ok_of_odd R hR sqrt N _ g) e1⟩

end ordered_field

/-- C13: constant tile speed, with `sqrt` an exact square root (on the real
numbers: the real square root).  In every state reachable from
`initialise_tiles` by `update`, `resolve_collisions` and
`replace_expired_tiles`, through passes in which no respawn draws the zero
vector, every tile below `N` has a velocity of unit length, vx^2 + vy^2 = 1. -/
theorem tiles_unit_speed {K : Type} [LinearOrderedField K] (R : ℕ) (sqrt : K → K) (two_pi : K)
    (mod : K → K → K) (N : ℕ) (hsqrt : ∀ x : K, 0 ≤ x → sqrt x * sqrt x = x)
    (t : ordered_field.tiles_t K) (g : rand_state)
    (h : ordered_field.reachable ordered_field.not_zero_vector R sqrt two_pi mod N t g) :
    ∀ i, i < N → t.vel_x i ^ 2 + t.vel_y i ^ 2 = 1 := by
  induction h with
  | init t0 g0 t1 g1 hok hinit =>
    intro i hi
    obtain ⟨-, -, -, -, -, -, -, he, -⟩ := ordered_field.initialise_loop_spec_K t0 N
    have hneeds : (ordered_field.initialise_loop N t0).needs_replacing i = true := by
      rw [ordered_field.needs_replacing_iff_K]
      exact Or.inl (by rw [he i, if_pos hi])
    exact ordered_field.replace_expired_tiles_unit R sqrt hsqrt N
      (ordered_field.initialise_loop N t0) g0 t1 g1 hok hinit i hi
      (fun hf => absurd hneeds (by rw [hf]; decide))
  | update t0 g0 e _ ih =>
    intro i hi
    obtain ⟨hvx, hvy⟩ := ordered_field.tiles_update_vel two_pi mod N t0 e
    rw [hvx, hvy]
    exact ih i hi
  | collide t0 g0 ss p walls p1 t1 w1 _ hres ih =>
    intro i hi
    rw [ordered_field.resolve_collisions_speed_K N ss p p1 t0 t1 walls w1 hres i]
    exact ih i hi
  | replace t0 g0 t1 g1 _ hok hrep ih =>
    intro i hi
    exact ordered_field.replace_expired_tiles_unit R sqrt hsqrt N t0 g0 t1 g1 hok hrep i hi
      (fun _ => ih i hi)

/-- Witness for C13: the real numbers with the real square root, two slots,
`RAND_MAX` = 32767 and a generator that always returns 0, so that every respawn
draws the velocity (-1, -1).  After `initialise_tiles` the slot 1 has the
velocity (-1 / sqrt 2, -1 / sqrt 2), and after an update of half a second it has
unit speed. -/
theorem tiles_unit_speed_witness :
    ∃ (t1 : ordered_field.tiles_t ℝ) (g1 : rand_state),
      ordered_field.initialise_tiles 32767 Real.sqrt 2 ordered_field.tiles_rest rand0
        = some (t1, g1) ∧
      t1.vel_x 1 = -1 / Real.sqrt 2 ∧ t1.vel_y 1 = -1 / Real.sqrt 2 ∧
      (t1.update (2 * Real.pi) (fun x y => x - y * ⌊x / y⌋) 2 (1 / 2)).vel_x 1 ^ 2
        + (t1.update (2 * Real.pi) (fun x y => x - y * ⌊x / y⌋) 2 (1 / 2)).vel_y 1 ^ 2 = 1 := by
  obtain ⟨t1, g1, gi, e1, si, vx, vy⟩ := ordered_field.initialise_tiles_vel 32767 Real.sqrt 2
    ordered_field.tiles_rest rand0 1 (by decide)
  have hd : ∀ k, ordered_field.draw 32767 gi k (-1 : ℝ) 1 = -1 := by
    intro k
    simp [ordered_field.draw, si, rand0]
  have h2 : (-1 : ℝ) * -1 + -1 * -1 = 2 := by norm_num
  rw [hd 3, hd 4, h2] at vx vy
  exact ⟨t1, g1, e1, vx, vy,
    tiles_unit_speed 32767 Real.sqrt (2 * Real.pi) (fun x y => x - y * ⌊x / y⌋) 2
      (fun x hx => Real.mul_self_sqrt hx) _ g1
      (ordered_field.reachable.update _ _ _
        (ordered_field.reachable.init ordered_field.tiles_rest rand0 t1 g1
          (ordered_field.respawns_ok_of_odd 32767 (by decide) Real.sqrt 2 _ rand0) e1))
      1 (by decide)⟩

/-! ### The walls -/

/-- C22: for every screen size (W, H), `initialise_walls` returns exactly four
walls in the order left, right, top, bottom, each of side max (W, H) + 50, with
the inner edge of the left wall at x = -W/2 + 5, of the right wall at
x = W/2 - 5, of the top wall at y = H/2 - 5 and of the bottom wall at
y = -H/2 + 5; for a screen of non-negative size the outer edge of each wall
lies off the screen, so that exactly a strip of 5 is on screen. -/
theorem initialise_walls_spec (W H z w : ℚ) :
    ∃ left right top bottom : wall_t,
      initialise_walls ⟨W, H, z, w⟩ = ⟨[left, right, top, bottom]⟩ ∧
      left.id = WALL_ID_LEFT ∧ right.id = WALL_ID_RIGHT ∧ top.id = WALL_ID_TOP ∧
      bottom.id = WALL_ID_BOTTOM ∧
      left.size = max W H + 50 ∧ right.size = max W H + 50 ∧ top.size = max W H + 50 ∧
      bottom.size = max W H + 50 ∧
      left.position.x + left.size / 2 = -W / 2 + 5 ∧
      right.position.x - right.size / 2 = W / 2 - 5 ∧
      top.position.y - top.size / 2 = H / 2 - 5 ∧
      bottom.position.y + bottom.size / 2 = -H / 2 + 5 ∧
      left.position.y = 0 ∧ right.position.y = 0 ∧ top.position.x = 0 ∧ bottom.position.x = 0 ∧
      (0 ≤ W → 0 ≤ H →
        left.position.x - left.size / 2 ≤ -W / 2 ∧ W / 2 ≤ right.position.x + right.size / 2 ∧
        H / 2 ≤ top.position.y + top.size / 2 ∧ bottom.position.y - bottom.size / 2 ≤ -H / 2) := by
  refine ⟨_, _, _, _, rfl, rfl, rfl, rfl, rfl, rfl, rfl, rfl, rfl, ?_, ?_, ?_, ?_, rfl, rfl, rfl,
    rfl, ?_⟩
  · simp only; ring
  · simp only; ring
  · simp only; ring
  · simp only; ring
  · intro hW hH
    have h1 : W ≤ max W H := le_max_left W H
    have h2 : H ≤ max W H := le_max_right W H
    simp only
    refine ⟨?_, ?_, ?_, ?_⟩ <;> linarith

/-- Witness for C22: the 1280 x 720 screen; the outer edges of the four walls
lie off the screen. -/
theorem initialise_walls_spec_witness :
    ∃ left right top bottom : wall_t,
      initialise_walls ⟨1280, 720, 0, 0⟩ = ⟨[left, right, top, bottom]⟩ ∧
      left.position.x + left.size / 2 = -1280 / 2 + 5 ∧
      left.position.x - left.size / 2 ≤ -1280 / 2 ∧
      1280 / 2 ≤ right.position.x + right.size / 2 ∧
      720 / 2 ≤ top.position.y + top.size / 2 ∧ bottom.position.y - bottom.size / 2 ≤ -720 / 2 := by
  obtain ⟨l, r, t, b, h0, -, -, -, -, -, -, -, -, h1, -, -, -, -, -, -, -, h2⟩ :=
    initialise_walls_spec 1280 720 0 0
  obtain ⟨a1, a2, a3, a4⟩ := h2 (by norm_num) (by norm_num)
  exact ⟨l, r, t, b, h0, h1, a1, a2, a3, a4⟩

/-- C26: resolution separates the pair.  For a slot with sprite size (w, h)
and a wall with one of the four wall ids, as every wall that
`initialise_walls` produces has, `collision_resolve_tile_wall` returns a store
in which the slot and the wall do not overlap. -/
theorem collision_resolve_tile_wall_separates (ss : spritesheet) (t : tiles_t) (wall : wall_t)
    (i : ℕ) (w h : ℚ) (hr : get_tile_texture_rect ss (t.tile_id i) = some ⟨w, h⟩) :
    (∀ dim : vector4, ∀ wl ∈ (initialise_walls dim).data,
      wl.id = WALL_ID_LEFT ∨ wl.id = WALL_ID_RIGHT ∨ wl.id = WALL_ID_TOP ∨
        wl.id = WALL_ID_BOTTOM) ∧
    ((wall.id = WALL_ID_LEFT ∨ wall.id = WALL_ID_RIGHT ∨ wall.id = WALL_ID_TOP ∨
        wall.id = WALL_ID_BOTTOM) →
      ∃ t1, collision_resolve_tile_wall ss t wall i = some t1 ∧
        is_overlapping (t1.pos_x i) (t1.pos_y i) w h
          wall.position.x wall.position.y wall.size wall.size = false) := by
  constructor
  · intro dim wl hmem
    simp only [initialise_walls, List.mem_cons, List.mem_singleton, List.not_mem_nil,
      or_false] at hmem
    rcases hmem with rfl | rfl | rfl | rfl
    · exact Or.inl rfl
    · exact Or.inr (Or.inl rfl)
    · exact Or.inr (Or.inr (Or.inl rfl))
    · exact Or.inr (Or.inr (Or.inr rfl))
  · rintro (hw | hw | hw | hw)
    · refine ⟨_, collision_resolve_tile_wall_left ss t wall i ⟨w, h⟩ hr hw, ?_⟩
      rw [← Bool.not_eq_true, is_overlapping_iff]
      simp only [Function.update_same]
      rintro ⟨⟨h1, h2⟩, -⟩
      linarith
    · refine ⟨_, collision_resolve_tile_wall_right ss t wall i ⟨w, h⟩ hr hw, ?_⟩
      rw [← Bool.not_eq_true, is_overlapping_iff]
      simp only [Function.update_same]
      rintro ⟨⟨h1, h2⟩, -⟩
      linarith
    · refine ⟨_, collision_resolve_tile_wall_top ss t wall i ⟨w, h⟩ hr hw, ?_⟩
      rw [← Bool.not_eq_true, is_overlapping_iff]
      simp only [Function.update_same]
      rintro ⟨-, h1, h2⟩
      linarith
    · refine ⟨_, collision_resolve_tile_wall_bottom ss t wall i ⟨w, h⟩ hr hw, ?_⟩
      rw [← Bool.not_eq_true, is_overlapping_iff]
      simp only [Function.update_same]
      rintro ⟨-, h1, h2⟩
      linarith

/-- Witness for C26: the slot 0 of `tiles700` against the right wall of the
1280 x 720 screen. -/
theorem collision_resolve_tile_wall_separates_witness :
    ∃ t1, collision_resolve_tile_wall sheet32 tiles700 wall_right_1280 0 = some t1 ∧
      is_overlapping (t1.pos_x 0) (t1.pos_y 0) 32 32
        wall_right_1280.position.x wall_right_1280.position.y wall_right_1280.size
        wall_right_1280.size = false :=
  (collision_resolve_tile_wall_separates sheet32 tiles700 wall_right_1280 0 32 32
    (by decide)).2 (Or.inr (Or.inl rfl))

/-! ### Player movement -/

/-- The position update of the player in closed form: each held direction
contributes PLAYER_SPEED * multiplier * elapsed. -/
theorem move_player_eq (pos : vector4) (held : input_t) (m e : ℚ) :
    (move_player pos held m e).x =
      pos.x - (if held.left then PLAYER_SPEED * m * e else 0)
        + (if held.right then PLAYER_SPEED * m * e else 0) ∧
    (move_player pos held m e).y =
      pos.y + (if held.up then PLAYER_SPEED * m * e else 0)
        - (if held.down then PLAYER_SPEED * m * e else 0) ∧
    (move_player pos held m e).z = pos.z ∧ (move_player pos held m e).w = pos.w := by
  obtain ⟨l, r, u, d⟩ := held
  cases l <;> cases r <;> cases u <;> cases d <;> simp [move_player]

/-- The method `update` moves the player by `move_player` with the multiplier
of its class. -/
theorem player_update_position (p : player_t) (held : input_t) (e : ℚ) :
    (p.cls = .player_normal_t →
      (p.update held e).position
        = move_player p.position held PLAYER_SPEED_MULTIPLIER_NORMAL e) ∧
    (∀ L, p.cls = .player_wide_t L →
      (p.update held e).position
        = move_player p.position held PLAYER_SPEED_MULTIPLIER_WIDE e) := by
  refine ⟨fun h => ?_, fun L h => ?_⟩
  · unfold player_t.update
    rw [h]
  · rw [player_update_wide p held e L h]

/-- C25: player movement is direct position control.  For held-input flags
(left, right, up, down) and elapsed time `e`, `update` moves a Normal player by
300 * e and a Wide player by 0.8 * 300 * e = 240 * e along each held direction:
x decreases for left and increases for right, y increases for up and decreases
for down.  Opposite held directions cancel, and with no direction held the
position is unchanged. -/
theorem player_update_moves (p : player_t) (held : input_t) (e : ℚ) :
    (p.cls = .player_normal_t →
      (p.update held e).position.x =
        p.position.x - (if held.left then 300 * e else 0)
          + (if held.right then 300 * e else 0) ∧
      (p.update held e).position.y =
        p.position.y + (if held.up then 300 * e else 0)
          - (if held.down then 300 * e else 0)) ∧
    (∀ L, p.cls = .player_wide_t L →
      (p.update held e).position.x =
        p.position.x - (if held.left then 240 * e else 0)
          + (if held.right then 240 * e else 0) ∧
      (p.update held e).position.y =
        p.position.y + (if held.up then 240 * e else 0)
          - (if held.down then 240 * e else 0)) ∧
    (held.left = held.right → (p.update held e).position.x = p.position.x) ∧
    (held.up = held.down → (p.update held e).position.y = p.position.y) ∧
    (held = ⟨false, false, false, false⟩ → (p.update held e).position = p.position) := by
  obtain ⟨hn, hwide⟩ := player_update_position p held e
  have key : ∀ m : ℚ, (p.update held e).position = move_player p.position held m e →
      (p.update held e).position.x =
        p.position.x - (if held.left then PLAYER_SPEED * m * e else 0)
          + (if held.right then PLAYER_SPEED * m * e else 0) ∧
      (p.update held e).position.y =
        p.position.y + (if held.up then PLAYER_SPEED * m * e else 0)
          - (if held.down then PLAYER_SPEED * m * e else 0) ∧
      (p.update held e).position.z = p.position.z ∧
      (p.update held e).position.w = p.position.w := by
    intro m hm
    rw [hm]
    exact move_player_eq p.position held m e
  have hany : ∃ m : ℚ, (p.update held e).position = move_player p.position held m e := by
    cases hc : p.cls with
    | player_normal_t => exact ⟨_, hn hc⟩
    | player_wide_t L => exact ⟨_, hwide L hc⟩
  refine ⟨fun h => ?_, fun L h => ?_, fun hlr => ?_, fun hud => ?_, fun hnone => ?_⟩
  · obtain ⟨kx, ky, -⟩ := key _ (hn h)
    rw [kx, ky]
    norm_num [PLAYER_SPEED, PLAYER_SPEED_MULTIPLIER_NORMAL]
  · obtain ⟨kx, ky, -⟩ := key _ (hwide L h)
    rw [kx, ky]
    norm_num [PLAYER_SPEED, PLAYER_SPEED_MULTIPLIER_WIDE]
  · obtain ⟨m, hm⟩ := hany
    obtain ⟨kx, -⟩ := key m hm
    rw [kx, hlr]
    ring
  · obtain ⟨m, hm⟩ := hany
    obtain ⟨-, ky, -⟩ := key m hm
    rw [ky, hud]
    ring
  · obtain ⟨m, hm⟩ := hany
    obtain ⟨kx, ky, kz, kw⟩ := key m hm
    have hx : (p.update held e).position.x = p.position.x := by rw [kx, hnone]; simp
    have hy : (p.update held e).position.y = p.position.y := by rw [ky, hnone]; simp
    cases hq : (p.update held e).position
    cases hq2 : p.position
    rw [hq, hq2] at hx hy kz kw
    simp only at hx hy kz kw
    rw [hx, hy, kz, kw]

/-- Witness for C25: the Wide player at (10, 20) with left and right held for
half a second moves by 120 to the left and by 120 to the right. -/
theorem player_update_moves_witness :
    ((player_wide1.update held_left_right (1 / 2)).position.x =
        player_wide1.position.x - (if held_left_right.left then 240 * (1 / 2) else 0)
          + (if held_left_right.right then 240 * (1 / 2) else 0) ∧
      (player_wide1.update held_left_right (1 / 2)).position.y =
        player_wide1.position.y + (if held_left_right.up then 240 * (1 / 2) else 0)
          - (if held_left_right.down then 240 * (1 / 2) else 0)) ∧
    (player_wide1.update held_left_right (1 / 2)).position.x = player_wide1.position.x :=
  ⟨(player_update_moves player_wide1 held_left_right (1 / 2)).2.1 1 rfl,
    (player_update_moves player_wide1 held_left_right (1 / 2)).2.2.1 rfl⟩

/-! ### The vectorised position loop -/

/-- The scalar position update after `n` iterations: the slots below `n` have
moved, and the velocities are as they were. -/
theorem update_positions_scalar_spec (e : ℚ) (t : tiles_t) :
    ∀ n : ℕ,
      (∀ k, (update_positions_scalar e n t).pos_x k =
        if k < n then t.pos_x k + t.vel_x k * TILE_SPEED_MOVEMENT * e else t.pos_x k) ∧
      (∀ k, (update_positions_scalar e n t).pos_y k =
        if k < n then t.pos_y k + t.vel_y k * TILE_SPEED_MOVEMENT * e else t.pos_y k) ∧
      (update_positions_scalar e n t).vel_x = t.vel_x ∧
      (update_positions_scalar e n t).vel_y = t.vel_y := by
  intro n
  induction n with
  | zero =>
    exact ⟨fun k => by simp [update_positions_scalar],
      fun k => by simp [update_positions_scalar], rfl, rfl⟩
  | succ n ih =>
    obtain ⟨hx, hy, hvx, hvy⟩ := ih
    refine ⟨fun k => ?_, fun k => ?_, hvx, hvy⟩
    · simp only [update_positions_scalar]
      rcases Nat.lt_trichotomy k n with hk | hk | hk
      · rw [Function.update_noteq (by omega), hx k, if_pos hk, if_pos (by omega)]
      · subst hk
        rw [Function.update_same, hx k, if_neg (by omega), if_pos (by omega), hvx]
      · rw [Function.update_noteq (by omega), hx k, if_neg (by omega), if_neg (by omega)]
    · simp only [update_positions_scalar]
      rcases Nat.lt_trichotomy k n with hk | hk | hk
      · rw [Function.update_noteq (by omega), hy k, if_pos hk, if_pos (by omega)]
      · subst hk
        rw [Function.update_same, hy k, if_neg (by omega), if_pos (by omega), hvy]
      · rw [Function.update_noteq (by omega), hy k, if_neg (by omega), if_neg (by omega)]

/-- C30: the vectorised position loop of `update` moves exactly the slots with
index below 4 * floor (N / 4).  When `N` is a multiple of 4, as NUM_TILES =
1024 is, the positions after `update` are those of the scalar update
`pos[i] += vel[i] * TILE_SPEED_MOVEMENT * elapsed` over all `N` slots; for any
other `N` the last `N mod 4` slots, from 4 * floor (N / 4) to N - 1, are not
moved. -/
theorem tiles_update_vectorised (two_pi : ℚ) (mod : ℚ → ℚ → ℚ) (N : ℕ) (t : tiles_t) (e : ℚ) :
    (∀ k, (t.update two_pi mod N e).pos_x k =
      if k < 4 * (N / 4) then t.pos_x k + t.vel_x k * TILE_SPEED_MOVEMENT * e else t.pos_x k) ∧
    (∀ k, (t.update two_pi mod N e).pos_y k =
      if k < 4 * (N / 4) then t.pos_y k + t.vel_y k * TILE_SPEED_MOVEMENT * e else t.pos_y k) ∧
    (4 ∣ N →
      (t.update two_pi mod N e).pos_x = (update_positions_scalar e N t).pos_x ∧
      (t.update two_pi mod N e).pos_y = (update_positions_scalar e N t).pos_y) ∧
    4 ∣ NUM_TILES ∧ N - 4 * (N / 4) = N % 4 ∧
    (∀ k, 4 * (N / 4) ≤ k → k < N →
      (t.update two_pi mod N e).pos_x k = t.pos_x k ∧
      (t.update two_pi mod N e).pos_y k = t.pos_y k) := by
  obtain ⟨hx, hy, -⟩ := tiles_update_spec two_pi mod N t e
  obtain ⟨sx, sy, -⟩ := update_positions_scalar_spec e t N
  have hx1 : ∀ k, (t.update two_pi mod N e).pos_x k =
      if k < 4 * (N / 4) then t.pos_x k + t.vel_x k * TILE_SPEED_MOVEMENT * e
      else t.pos_x k := by
    intro k; rw [hx k, mul_assoc]
  have hy1 : ∀ k, (t.update two_pi mod N e).pos_y k =
      if k < 4 * (N / 4) then t.pos_y k + t.vel_y k * TILE_SPEED_MOVEMENT * e
      else t.pos_y k := by
    intro k; rw [hy k, mul_assoc]
  refine ⟨hx1, hy1, fun hdvd => ?_, by decide, by omega, fun k hk _ => ?_⟩
  · have hN : 4 * (N / 4) = N := Nat.mul_div_cancel' hdvd
    constructor
    · funext k; rw [hx1 k, sx k, hN]
    · funext k; rw [hy1 k, sy k, hN]
  · rw [hx1 k, hy1 k, if_neg (by omega), if_neg (by omega)]
    exact ⟨rfl, rfl⟩

/-- Witness for C30: with six slots of `tiles0` the slots 4 and 5 are not
moved; with eight slots the update is the scalar update. -/
theorem tiles_update_vectorised_witness :
    ((tiles0.update (710 / 113) floor_mod 6 (1 / 2)).pos_x 5 = tiles0.pos_x 5 ∧
      (tiles0.update (710 / 113) floor_mod 6 (1 / 2)).pos_y 5 = tiles0.pos_y 5) ∧
    ((tiles0.update (710 / 113) floor_mod 8 (1 / 2)).pos_x
        = (update_positions_scalar (1 / 2) 8 tiles0).pos_x ∧
      (tiles0.update (710 / 113) floor_mod 8 (1 / 2)).pos_y
        = (update_positions_scalar (1 / 2) 8 tiles0).pos_y) :=
  ⟨(tiles_update_vectorised (710 / 113) floor_mod 6 tiles0 (1 / 2)).2.2.2.2.2 5 (by decide)
      (by decide),
    (tiles_update_vectorised (710 / 113) floor_mod 8 tiles0 (1 / 2)).2.2.1 (by decide)⟩

/-! ### Frame conditions of the resolver -/

/-- With a null sprite pointer, a resolution against one of the four walls
dereferences it. -/
theorem collision_resolve_tile_wall_null (ss : spritesheet) (t : tiles_t) (wall : wall_t)
    (j : ℕ) (hr : get_tile_texture_rect ss (t.tile_id j) = none)
    (hw : wall.id = WALL_ID_LEFT ∨ wall.id = WALL_ID_RIGHT ∨ wall.id = WALL_ID_TOP ∨
      wall.id = WALL_ID_BOTTOM) :
    collision_resolve_tile_wall ss t wall j = none := by
  rcases hw with hw | hw | hw | hw <;>
    simp [collision_resolve_tile_wall, wall_t.get_id, tiles_t.get_id, hw, hr, WALL_ID_RIGHT,
      WALL_ID_LEFT, WALL_ID_TOP, WALL_ID_BOTTOM]

/-- Whenever a resolution against a wall returns, it has changed at most the
position and velocity of the slot. -/
theorem collision_resolve_tile_wall_same_outside (ss : spritesheet) (t t1 : tiles_t)
    (wall : wall_t) (j : ℕ) (h : collision_resolve_tile_wall ss t wall j = some t1) :
    same_outside j t t1 := by
  cases hr : get_tile_texture_rect ss (t.tile_id j) with
  | some r =>
    obtain ⟨t2, e2, f2⟩ := collision_resolve_tile_wall_frame ss t wall j r hr
    have := Option.some.inj (e2.symm.trans h)
    rw [← this]
    exact f2
  | none =>
    by_cases hw : wall.id = WALL_ID_LEFT ∨ wall.id = WALL_ID_RIGHT ∨ wall.id = WALL_ID_TOP ∨
        wall.id = WALL_ID_BOTTOM
    · rw [collision_resolve_tile_wall_null ss t wall j hr hw] at h
      exact absurd h (by simp)
    · have h1 : wall.id ≠ WALL_ID_LEFT := fun e => hw (Or.inl e)
      have h2 : wall.id ≠ WALL_ID_RIGHT := fun e => hw (Or.inr (Or.inl e))
      have h3 : wall.id ≠ WALL_ID_TOP := fun e => hw (Or.inr (Or.inr (Or.inl e)))
      have h4 : wall.id ≠ WALL_ID_BOTTOM := fun e => hw (Or.inr (Or.inr (Or.inr e)))
      rw [collision_resolve_tile_wall_other ss t wall j h1 h2 h3 h4] at h
      rw [← Option.some.inj h]
      exact ⟨rfl, rfl, rfl, rfl, rfl,
        fun k hk => ⟨rfl, rfl, rfl, Function.update_noteq hk _ _⟩⟩

/-- Whenever the inner tile loop returns, it has left the walls as they are and
has changed at most the position and velocity of the slot. -/
theorem resolve_tile_walls_same_outside (ss : spritesheet) (i : ℕ)
    (lhs_rect : Option texture_rect) (ws : List wall_t) :
    ∀ (t t1 : tiles_t) (ws1 : List wall_t),
      resolve_tile_walls ss i lhs_rect t ws = some (t1, ws1) →
      ws1 = ws ∧ same_outside i t t1 := by
  induction ws with
  | nil =>
    intro t t1 ws1 h
    simp only [resolve_tile_walls, Option.some.injEq, Prod.mk.injEq] at h
    rw [← h.1, ← h.2]
    exact ⟨rfl, same_outside_refl i t⟩
  | cons rhs rest ih =>
    intro t t1 ws1 h
    cases lhs_rect with
    | none => simp [resolve_tile_walls] at h
    | some r =>
      cases hov : is_overlapping (t.pos_x i) (t.pos_y i) r.width r.height
        rhs.position.x rhs.position.y rhs.size rhs.size with
      | false =>
        rw [resolve_tile_walls_miss ss i r t rhs rest hov, Option.map_eq_some'] at h
        obtain ⟨⟨a, b⟩, hab, hq⟩ := h
        simp only [Prod.mk.injEq] at hq
        obtain ⟨hb, hf⟩ := ih t a b hab
        rw [← hq.1, ← hq.2, hb]
        exact ⟨rfl, hf⟩
      | true =>
        cases hc : collision_resolve_tile_wall ss t rhs i with
        | none =>
          simp [resolve_tile_walls, tiles_t.position, hov, tiles_t.on_collision, hc] at h
        | some t2 =>
          rw [resolve_tile_walls_hit ss i r t t2 rhs rest hov hc, Option.map_eq_some'] at h
          obtain ⟨⟨a, b⟩, hab, hq⟩ := h
          simp only [Prod.mk.injEq] at hq
          obtain ⟨hb, hf⟩ := ih t2 a b hab
          rw [← hq.1, ← hq.2, hb]
          exact ⟨rfl, same_outside_trans
            (collision_resolve_tile_wall_same_outside ss t t2 rhs i hc) hf⟩

/-- When the slot overlaps none of the walls, the inner tile loop returns the
store as it is. -/
theorem resolve_tile_walls_all_miss (ss : spritesheet) (i : ℕ) (r : texture_rect) (t : tiles_t)
    (ws : List wall_t)
    (h : ∀ wall ∈ ws, is_overlapping (t.pos_x i) (t.pos_y i) r.width r.height
      wall.position.x wall.position.y wall.size wall.size = false) :
    resolve_tile_walls ss i (some r) t ws = some (t, ws) := by
  induction ws with
  | nil => rfl
  | cons rhs rest ih =>
    rw [resolve_tile_walls_miss ss i r t rhs rest (h rhs (List.mem_cons_self rhs rest)),
      ih (fun wall hm => h wall (List.mem_cons_of_mem rhs hm))]
    rfl

/-- Whenever the outer tile loop returns after `n` iterations, it has left the
walls, the variant ids, the eaten flags, the active flags, the lifetimes and
the angles as they are, and the position and velocity of every slot from `n`
on. -/
theorem resolve_tiles_loop_same (ss : spritesheet) (t : tiles_t) (w : walls_t) :
    ∀ (n : ℕ) (t1 : tiles_t) (w1 : walls_t), resolve_tiles_loop ss n t w = some (t1, w1) →
      w1 = w ∧ t1.tile_id = t.tile_id ∧ t1.is_eaten = t.is_eaten ∧ t1.active = t.active ∧
      t1.lifetime = t.lifetime ∧ t1.angle_radians = t.angle_radians ∧
      ∀ k, n ≤ k → t1.pos_x k = t.pos_x k ∧ t1.pos_y k = t.pos_y k ∧
        t1.vel_x k = t.vel_x k ∧ t1.vel_y k = t.vel_y k := by
  intro n
  induction n with
  | zero =>
    intro t1 w1 h
    simp only [resolve_tiles_loop, Option.some.injEq, Prod.mk.injEq] at h
    rw [← h.1, ← h.2]
    exact ⟨rfl, rfl, rfl, rfl, rfl, rfl, fun _ _ => ⟨rfl, rfl, rfl, rfl⟩⟩
  | succ n ih =>
    intro t1 w1 h
    cases hn : resolve_tiles_loop ss n t w with
    | none => simp [resolve_tiles_loop, hn] at h
    | some q =>
      obtain ⟨tn, wn⟩ := q
      cases hb : resolve_tile_walls ss n (get_tile_texture_rect ss (tn.tile_id n)) tn wn.data with
      | none => simp [resolve_tiles_loop, hn, hb] at h
      | some q2 =>
        obtain ⟨t2, d2⟩ := q2
        simp only [resolve_tiles_loop, hn, hb, Option.some.injEq, Prod.mk.injEq] at h
        obtain ⟨a0, a1, a2, a3, a4, a5, a6⟩ := ih tn wn hn
        obtain ⟨hd, b1, b2, b3, b4, b5, b6⟩ :=
          resolve_tile_walls_same_outside ss n _ wn.data tn t2 d2 hb
        rw [← h.1, ← h.2]
        refine ⟨?_, b1.trans a1, b2.trans a2, b3.trans a3, b4.trans a4, b5.trans a5,
          fun k hk => ?_⟩
        · rw [hd, a0]
        · obtain ⟨c1, c2, c3, c4⟩ := b6 k (by omega)
          obtain ⟨d1, d2, d3, d4⟩ := a6 k (by omega)
          exact ⟨c1.trans d1, c2.trans d2, c3.trans d3, c4.trans d4⟩

/-- A slot below `n` that overlaps none of the walls has, whenever the outer
tile loop returns after `n` iterations, the position and velocity it had. -/
theorem resolve_tiles_loop_miss (ss : spritesheet) (t : tiles_t) (w : walls_t) (i : ℕ)
    (r : texture_rect) (hr : get_tile_texture_rect ss (t.tile_id i) = some r)
    (hmiss : ∀ wall ∈ w.data, is_overlapping (t.pos_x i) (t.pos_y i) r.width r.height
      wall.position.x wall.position.y wall.size wall.size = false) :
    ∀ (n : ℕ) (t1 : tiles_t) (w1 : walls_t), resolve_tiles_loop ss n t w = some (t1, w1) →
      t1.pos_x i = t.pos_x i ∧ t1.pos_y i = t.pos_y i ∧
      t1.vel_x i = t.vel_x i ∧ t1.vel_y i = t.vel_y i := by
  intro n
  induction n with
  | zero =>
    intro t1 w1 h
    simp only [resolve_tiles_loop, Option.some.injEq, Prod.mk.injEq] at h
    rw [← h.1]
    exact ⟨rfl, rfl, rfl, rfl⟩
  | succ n ih =>
    intro t1 w1 h
    cases hn : resolve_tiles_loop ss n t w with
    | none => simp [resolve_tiles_loop, hn] at h
    | some q =>
      obtain ⟨tn, wn⟩ := q
      cases hb : resolve_tile_walls ss n (get_tile_texture_rect ss (tn.tile_id n)) tn wn.data with
      | none => simp [resolve_tiles_loop, hn, hb] at h
      | some q2 =>
        obtain ⟨t2, d2⟩ := q2
        simp only [resolve_tiles_loop, hn, hb, Option.some.injEq, Prod.mk.injEq] at h
        obtain ⟨a0, a1, -, -, -, -, a6⟩ := resolve_tiles_loop_same ss t w n tn wn hn
        obtain ⟨p1, p2, p3, p4⟩ := ih tn wn hn
        rw [← h.1]
        by_cases hin : i = n
        · subst hin
          have hr1 : get_tile_texture_rect ss (tn.tile_id i) = some r := by rw [a1]; exact hr
          have hall : resolve_tile_walls ss i (some r) tn wn.data = some (tn, wn.data) := by
            apply resolve_tile_walls_all_miss
            intro wall hm
            rw [p1, p2]
            exact hmiss wall (by rw [← a0]; exact hm)
          rw [hr1, hall] at hb
          simp only [Option.some.injEq, Prod.mk.injEq] at hb
          rw [← hb.1]
          exact ⟨p1, p2, p3, p4⟩
        · obtain ⟨-, -, -, -, -, -, b6⟩ :=
            resolve_tile_walls_same_outside ss n _ wn.data tn t2 d2 hb
          obtain ⟨c1, c2, c3, c4⟩ := b6 i hin
          exact ⟨c1.trans p1, c2.trans p2, c3.trans p3, c4.trans p4⟩

/-- Whenever the resolution of the player against a wall returns, it has kept
the class and the pending transition id of the player. -/
theorem collision_resolve_player_wall_keeps (ss : spritesheet) (p p1 : player_t)
    (wall : wall_t) (h : collision_resolve_player_wall ss p wall = some p1) :
    p1.cls = p.cls ∧ p1.new_player_id = p.new_player_id := by
  cases hr : get_player_texture_rect ss p.get_id with
  | some r =>
    obtain ⟨p2, e2, c2, n2⟩ := collision_resolve_player_wall_total ss p wall r hr
    rw [← Option.some.inj (e2.symm.trans h)]
    exact ⟨c2, n2⟩
  | none =>
    by_cases hw : wall.id = WALL_ID_LEFT ∨ wall.id = WALL_ID_RIGHT ∨ wall.id = WALL_ID_TOP ∨
        wall.id = WALL_ID_BOTTOM
    · have hnone : collision_resolve_player_wall ss p wall = none := by
        rcases hw with hw | hw | hw | hw <;>
          simp [collision_resolve_player_wall, wall_t.get_id, hw, hr, WALL_ID_RIGHT,
            WALL_ID_LEFT, WALL_ID_TOP, WALL_ID_BOTTOM]
      rw [hnone] at h
      exact absurd h (by simp)
    · have h1 : wall.id ≠ WALL_ID_LEFT := fun e => hw (Or.inl e)
      have h2 : wall.id ≠ WALL_ID_RIGHT := fun e => hw (Or.inr (Or.inl e))
      have h3 : wall.id ≠ WALL_ID_TOP := fun e => hw (Or.inr (Or.inr (Or.inl e)))
      have h4 : wall.id ≠ WALL_ID_BOTTOM := fun e => hw (Or.inr (Or.inr (Or.inr e)))
      have hsome : collision_resolve_player_wall ss p wall = some p := by
        simp [collision_resolve_player_wall, wall_t.get_id, h1, h2, h3, h4]
      rw [← Option.some.inj (hsome.symm.trans h)]
      exact ⟨rfl, rfl⟩

/-- Whenever the player loop returns, it has left the walls as they are and has
kept the class and the pending transition id of the player. -/
theorem resolve_player_walls_same (ss : spritesheet) (ws : List wall_t) :
    ∀ (p p1 : player_t) (ws1 : List wall_t), resolve_player_walls ss p ws = some (p1, ws1) →
      ws1 = ws ∧ p1.cls = p.cls ∧ p1.new_player_id = p.new_player_id := by
  induction ws with
  | nil =>
    intro p p1 ws1 h
    simp only [resolve_player_walls, Option.some.injEq, Prod.mk.injEq] at h
    rw [← h.1, ← h.2]
    exact ⟨rfl, rfl, rfl⟩
  | cons rhs rest ih =>
    intro p p1 ws1 h
    cases hr : get_player_texture_rect ss p.get_id with
    | none => simp [resolve_player_walls, hr] at h
    | some r =>
      cases hov : is_overlapping p.position.x p.position.y r.width r.height
        rhs.position.x rhs.position.y rhs.size rhs.size with
      | false =>
        simp only [resolve_player_walls, hr, hov, Bool.false_eq_true, if_false] at h
        cases hrest : resolve_player_walls ss p rest with
        | none => rw [hrest] at h; exact absurd h (by simp)
        | some q =>
          obtain ⟨p2, rest1⟩ := q
          rw [hrest] at h
          simp only [Option.some.injEq, Prod.mk.injEq] at h
          obtain ⟨hb, hc, hid⟩ := ih p p2 rest1 hrest
          rw [← h.1, ← h.2, hb]
          exact ⟨rfl, hc, hid⟩
      | true =>
        simp only [resolve_player_walls, hr, hov, if_true, player_on_collision_wall,
          wall_t.on_collision] at h
        cases hc1 : collision_resolve_player_wall ss p rhs with
        | none => rw [hc1] at h; exact absurd h (by simp)
        | some pa =>
          rw [hc1] at h
          simp only at h
          obtain ⟨ka, kb⟩ := collision_resolve_player_wall_keeps ss p pa rhs hc1
          cases hrest : resolve_player_walls ss pa rest with
          | none => rw [hrest] at h; exact absurd h (by simp)
          | some q =>
            obtain ⟨p2, rest1⟩ := q
            rw [hrest] at h
            simp only [Option.some.injEq, Prod.mk.injEq] at h
            obtain ⟨hb, hc, hid⟩ := ih pa p2 rest1 hrest
            rw [← h.1, ← h.2, hb]
            exact ⟨rfl, hc.trans ka, hid.trans kb⟩

/-- Whenever `resolve_collisions` returns, the walls are as they were, the
player has its class and its pending transition id, and every slot has its
variant id, eaten flag, active flag, lifetime and angle. -/
theorem resolve_collisions_same (N : ℕ) (ss : spritesheet) (p p1 : player_t) (t t1 : tiles_t)
    (w w1 : walls_t) (h : resolve_collisions N ss p t w = some (p1, t1, w1)) :
    w1 = w ∧ p1.cls = p.cls ∧ p1.new_player_id = p.new_player_id ∧
    t1.tile_id = t.tile_id ∧ t1.is_eaten = t.is_eaten ∧ t1.active = t.active ∧
    t1.lifetime = t.lifetime ∧ t1.angle_radians = t.angle_radians ∧
    ∃ p2 ws, resolve_player_walls ss p w.data = some (p2, ws) ∧
      resolve_tiles_loop ss N t w = some (t1, w) := by
  unfold resolve_collisions at h
  cases hp : resolve_player_walls ss p w.data with
  | none => simp [hp] at h
  | some q =>
    obtain ⟨p2, d2⟩ := q
    cases ht : resolve_tiles_loop ss N t ⟨d2⟩ with
    | none => simp [hp, ht] at h
    | some q2 =>
      obtain ⟨t2, w2⟩ := q2
      simp only [hp, ht, Option.some.injEq, Prod.mk.injEq] at h
      obtain ⟨hd, hc, hid⟩ := resolve_player_walls_same ss w.data p p2 d2 hp
      have hw : (⟨d2⟩ : walls_t) = w := by rw [hd]
      rw [hw] at ht
      obtain ⟨a0, a1, a2, a3, a4, a5, -⟩ := resolve_tiles_loop_same ss t w N t2 w2 ht
      rw [← h.1, ← h.2.1, ← h.2.2]
      refine ⟨a0, hc, hid, a1, a2, a3, a4, a5, p2, d2, rfl, ?_⟩
      rw [ht, a0]

/-- With the sprites of the player and of every slot below `N` found,
`resolve_collisions` returns. -/
theorem resolve_collisions_total (N : ℕ) (ss : spritesheet) (p : player_t) (t : tiles_t)
    (w : walls_t) (rp : texture_rect) (hp : get_player_texture_rect ss p.get_id = some rp)
    (hall : ∀ j, j < N → (get_tile_texture_rect ss (t.tile_id j)).isSome = true) :
    ∃ p1 t1, resolve_collisions N ss p t w = some (p1, t1, w) := by
  obtain ⟨p1, ep, -, -⟩ := resolve_player_walls_total ss w.data p rp hp
  obtain ⟨t1, et, -, -⟩ := resolve_tiles_loop_frame ss t w N hall
  exact ⟨p1, t1, by simp only [resolve_collisions, ep, et]⟩

/-- C23: walls are immovable.  The method `wall_t::on_collision` returns the
wall as it is for every category, payload and index; whenever
`resolve_collisions` returns, the wall set is the one it was given (position,
size and id of every wall); and it does return when the sprites of the player
and of the tiles are found. -/
theorem resolve_collisions_walls (N : ℕ) (ss : spritesheet) (p : player_t) (t : tiles_t)
    (w : walls_t) :
    (∀ (wall : wall_t) (other_type : object_type_t) (other_data : other_data_t)
        (ss1 : spritesheet) (index : ℤ),
      wall.on_collision other_type other_data ss1 index = wall) ∧
    (∀ p1 t1 w1, resolve_collisions N ss p t w = some (p1, t1, w1) → w1 = w) ∧
    (∀ rp, get_player_texture_rect ss p.get_id = some rp →
      (∀ j, j < N → (get_tile_texture_rect ss (t.tile_id j)).isSome = true) →
      ∃ p1 t1, resolve_collisions N ss p t w = some (p1, t1, w)) := by
  refine ⟨fun _ _ _ _ _ => rfl, fun p1 t1 w1 h => ?_, fun rp hp hall => ?_⟩
  · exact (resolve_collisions_same N ss p p1 t t1 w w1 h).1
  · exact resolve_collisions_total N ss p t w rp hp hall

/-- Witness for C23: two slots, the slot 0 at (700, 0) inside the right wall;
the walls of the 1280 x 720 screen come back as they were. -/
theorem resolve_collisions_walls_witness :
    ∃ p1 t1, resolve_collisions 2 sheet32 player0 tiles700 (initialise_walls ⟨1280, 720, 0, 0⟩)
      = some (p1, t1, initialise_walls ⟨1280, 720, 0, 0⟩) :=
  (resolve_collisions_walls 2 sheet32 player0 tiles700
    (initialise_walls ⟨1280, 720, 0, 0⟩)).2.2 ⟨32, 32⟩ (by decide) (fun _ _ => rfl)

/-- A slot below `N` that overlaps none of the walls holds, whenever
`resolve_collisions` returns, the data it held. -/
theorem resolve_collisions_miss (N : ℕ) (ss : spritesheet) (p p1 : player_t) (t t1 : tiles_t)
    (w w1 : walls_t) (i : ℕ) (r : texture_rect)
    (hr : get_tile_texture_rect ss (t.tile_id i) = some r)
    (hmiss : ∀ wall ∈ w.data, is_overlapping (t.pos_x i) (t.pos_y i) r.width r.height
      wall.position.x wall.position.y wall.size wall.size = false)
    (h : resolve_collisions N ss p t w = some (p1, t1, w1)) : slot_same t t1 i := by
  obtain ⟨-, -, -, a1, a2, a3, a4, a5, -, -, -, hloop⟩ :=
    resolve_collisions_same N ss p p1 t t1 w w1 h
  obtain ⟨q1, q2, q3, q4⟩ := resolve_tiles_loop_miss ss t w i r hr hmiss N t1 w hloop
  exact ⟨q1, q2, q3, q4, congrFun a5 i, congrFun a4 i, congrFun a1 i, congrFun a2 i,
    congrFun a3 i⟩

/-- C24: `resolve_collisions` handles only the pairs of the player with a wall
and of a tile with a wall.  With the sprites found it returns; a tile below `N`
that overlaps none of the walls is left as it was (position, velocity, angle,
lifetime, variant, eaten flag), whatever its overlap with other tiles or with
the player; and the pending transition id of the player is never changed. -/
theorem resolve_collisions_only_walls (N : ℕ) (ss : spritesheet) (p : player_t) (t : tiles_t)
    (w : walls_t) (i : ℕ) (r rp : texture_rect)
    (hp : get_player_texture_rect ss p.get_id = some rp)
    (hall : ∀ j, j < N → (get_tile_texture_rect ss (t.tile_id j)).isSome = true)
    (hr : get_tile_texture_rect ss (t.tile_id i) = some r)
    (hmiss : ∀ wall ∈ w.data, is_overlapping (t.pos_x i) (t.pos_y i) r.width r.height
      wall.position.x wall.position.y wall.size wall.size = false) :
    (∃ p1 t1, resolve_collisions N ss p t w = some (p1, t1, w) ∧ slot_same t t1 i ∧
      p1.new_player_id = p.new_player_id) ∧
    (∀ (q : player_t) (s : tiles_t) (v : walls_t) q1 s1 v1,
      resolve_collisions N ss q s v = some (q1, s1, v1) → q1.new_player_id = q.new_player_id) := by
  constructor
  · obtain ⟨p1, t1, h⟩ := resolve_collisions_total N ss p t w rp hp hall
    exact ⟨p1, t1, h, resolve_collisions_miss N ss p p1 t t1 w w i r hr hmiss h,
      (resolve_collisions_same N ss p p1 t t1 w w h).2.2.1⟩
  · intro q s v q1 s1 v1 h
    exact (resolve_collisions_same N ss q q1 s s1 v v1 h).2.2.1

/-- The four walls of the 1280 x 720 screen do not overlap a 32 x 32 box at
the origin. -/
theorem origin_misses_walls_1280 :
    ∀ wall ∈ (initialise_walls ⟨1280, 720, 0, 0⟩).data,
      is_overlapping 0 0 32 32 wall.position.x wall.position.y wall.size wall.size = false := by
  intro wall hm
  rw [initialise_walls_1280] at hm
  simp only [List.mem_cons, List.mem_singleton, List.not_mem_nil, or_false] at hm
  rcases hm with rfl | rfl | rfl | rfl <;>
    norm_num [is_overlapping, wall_left_1280, wall_right_1280, wall_top_1280, wall_bottom_1280]

/-- Witness for C24: two Wide tiles at the origin, where the Normal player is:
they overlap each other and the player, and no wall; the slot 0 is left as it
was. -/
theorem resolve_collisions_only_walls_witness :
    ∃ p1 t1, resolve_collisions 2 sheet32 player0 tiles_wide (initialise_walls ⟨1280, 720, 0, 0⟩)
        = some (p1, t1, initialise_walls ⟨1280, 720, 0, 0⟩) ∧
      slot_same tiles_wide t1 0 ∧ p1.new_player_id = player0.new_player_id :=
  (resolve_collisions_only_walls 2 sheet32 player0 tiles_wide
    (initialise_walls ⟨1280, 720, 0, 0⟩) 0 ⟨32, 32⟩ ⟨32, 32⟩ (by decide) (fun _ _ => rfl)
    (by decide) origin_misses_walls_1280).1

/-! ### Frame conditions of the lifecycle pass -/

/-- When the active flag of every slot below `n` is set, the respawn loop
changes nothing and makes no draw. -/
theorem respawn_loop_noop (R : ℕ) (sqrt : ℚ → ℚ) (t : tiles_t) (g : rand_state) :
    ∀ n : ℕ, (∀ k, k < n → t.active k = true) → respawn_loop R sqrt n t g = some (t, g) := by
  intro n
  induction n with
  | zero => intro _; rfl
  | succ n ih =>
    intro hall
    have hn : t.active n = true := hall n (Nat.lt_succ_self n)
    simp only [respawn_loop, ih (fun k hk => hall k (Nat.lt_succ_of_lt hk)), respawn_slot, hn,
      Bool.not_true, Bool.false_eq_true, if_false]

/-- When no slot below `N` needs replacing, `replace_expired_tiles` only sets
the active flags and makes no draw. -/
theorem replace_expired_tiles_noop (R : ℕ) (sqrt : ℚ → ℚ) (N : ℕ) (t : tiles_t)
    (g : rand_state) (h : ∀ k, k < N → t.needs_replacing k = false) :
    replace_expired_tiles R sqrt N t g = some (mark_loop N t, g) := by
  obtain ⟨-, -, -, -, -, -, -, -, m9⟩ := mark_loop_spec t N
  apply respawn_loop_noop
  intro k hk
  rw [m9 k, if_pos hk, h k hk]
  rfl

/-- A slot below `N` that does not need replacing holds, after
`replace_expired_tiles`, the data it held, the active flag apart. -/
theorem replace_expired_tiles_keeps (R : ℕ) (sqrt : ℚ → ℚ) (N : ℕ) (t : tiles_t)
    (g : rand_state) (i : ℕ) (hi : i < N) (hn : t.needs_replacing i = false) :
    ∃ t1 g1, replace_expired_tiles R sqrt N t g = some (t1, g1) ∧
      t1.pos_x i = t.pos_x i ∧ t1.pos_y i = t.pos_y i ∧ t1.vel_x i = t.vel_x i ∧
      t1.vel_y i = t.vel_y i ∧ t1.angle_radians i = t.angle_radians i ∧
      t1.lifetime i = t.lifetime i ∧ t1.tile_id i = t.tile_id i ∧
      t1.is_eaten i = t.is_eaten i := by
  obtain ⟨t1, g1, e1, -, -, hsame⟩ := replace_expired_tiles_spec R sqrt N t g
  obtain ⟨s1, s2, s3, s4, s5, s6, s7, s8, -⟩ := hsame i hi hn
  obtain ⟨m1, m2, m3, m4, m5, m6, m7, m8, -⟩ := mark_loop_spec t N
  exact ⟨t1, g1, e1, s1.trans (congrFun m1 i), s2.trans (congrFun m2 i),
    s3.trans (congrFun m3 i), s4.trans (congrFun m4 i), s5.trans (congrFun m5 i),
    s6.trans (congrFun m6 i), s7.trans (congrFun m7 i), s8.trans (congrFun m8 i)⟩

/-- C27: after `replace_expired_tiles` no slot below `N` needs replacing: its
eaten flag is clear and it is not a Wide tile with a negative lifetime.  An
immediately repeated pass therefore returns with the generator as it was (no
slot respawned, no random number drawn) and with the position, velocity,
variant, lifetime, eaten flag and angle of every slot as they were. -/
theorem replace_expired_tiles_twice (R : ℕ) (sqrt : ℚ → ℚ) (N : ℕ) (t : tiles_t)
    (g : rand_state) :
    ∃ t1 g1 t2, replace_expired_tiles R sqrt N t g = some (t1, g1) ∧
      (∀ i, i < N → t1.needs_replacing i = false ∧ t1.is_eaten i = false ∧
        ¬ (t1.tile_id i = TILE_ID_WIDE ∧ t1.lifetime i < 0)) ∧
      replace_expired_tiles R sqrt N t1 g1 = some (t2, g1) ∧
      t2.pos_x = t1.pos_x ∧ t2.pos_y = t1.pos_y ∧ t2.vel_x = t1.vel_x ∧ t2.vel_y = t1.vel_y ∧
      t2.tile_id = t1.tile_id ∧ t2.lifetime = t1.lifetime ∧ t2.is_eaten = t1.is_eaten ∧
      t2.angle_radians = t1.angle_radians := by
  obtain ⟨t1, g1, e1, -, hlive, -⟩ := replace_expired_tiles_spec R sqrt N t g
  obtain ⟨m1, m2, m3, m4, m5, m6, m7, m8, -⟩ := mark_loop_spec t1 N
  refine ⟨t1, g1, mark_loop N t1, e1, fun i hi => ?_,
    replace_expired_tiles_noop R sqrt N t1 g1 hlive, m1, m2, m3, m4, m7, m6, m8, m5⟩
  have hn := hlive i hi
  have hiff := needs_replacing_iff t1 i
  rw [hn] at hiff
  have hnot : ¬ (t1.is_eaten i = true ∨ (t1.tile_id i = TILE_ID_WIDE ∧ t1.lifetime i < 0)) :=
    fun hc => absurd (hiff.mpr hc) (by decide)
  refine ⟨hn, ?_, fun hc => hnot (Or.inr hc)⟩
  cases he : t1.is_eaten i with
  | false => rfl
  | true => exact absurd (Or.inl he) hnot

/-- Witness for C27: two eaten slots; after the first pass the slot 1 does not
need replacing, and the second pass leaves the generator as it was. -/
theorem replace_expired_tiles_twice_witness :
    ∃ t1 g1 t2, replace_expired_tiles 32767 (fun _ => 1) 2 tiles_eaten rand0 = some (t1, g1) ∧
      (t1.needs_replacing 1 = false ∧ t1.is_eaten 1 = false ∧
        ¬ (t1.tile_id 1 = TILE_ID_WIDE ∧ t1.lifetime 1 < 0)) ∧
      replace_expired_tiles 32767 (fun _ => 1) 2 t1 g1 = some (t2, g1) ∧
      t2.pos_x = t1.pos_x ∧ t2.tile_id = t1.tile_id := by
  obtain ⟨t1, g1, t2, h1, h2, h3, h4, -, -, -, h8, -⟩ :=
    replace_expired_tiles_twice 32767 (fun _ => 1) 2 tiles_eaten rand0
  exact ⟨t1, g1, t2, h1, h2 1 (by decide), h3, h4, h8⟩

/-- C28: lifecycle frame condition.  A slot below `N` that does not need
replacing (its eaten flag is clear and it is not a Wide tile with a negative
lifetime) has, after `replace_expired_tiles`, the position, velocity, rotation
angle, lifetime, variant id and eaten flag it had, whatever the other slots
are and whatever is drawn for them. -/
theorem replace_expired_tiles_frame (R : ℕ) (sqrt : ℚ → ℚ) (N : ℕ) (t : tiles_t)
    (g : rand_state) (i : ℕ) (hi : i < N) (he : t.is_eaten i = false)
    (hl : ¬ (t.tile_id i = TILE_ID_WIDE ∧ t.lifetime i < 0)) :
    ∃ t1 g1, replace_expired_tiles R sqrt N t g = some (t1, g1) ∧
      t1.pos_x i = t.pos_x i ∧ t1.pos_y i = t.pos_y i ∧ t1.vel_x i = t.vel_x i ∧
      t1.vel_y i = t.vel_y i ∧ t1.angle_radians i = t.angle_radians i ∧
      t1.lifetime i = t.lifetime i ∧ t1.tile_id i = t.tile_id i ∧
      t1.is_eaten i = t.is_eaten i := by
  apply replace_expired_tiles_keeps R sqrt N t g i hi
  cases hn : t.needs_replacing i with
  | false => rfl
  | true =>
    rcases (needs_replacing_iff t i).mp hn with h | h
    · rw [he] at h; exact absurd h (by decide)
    · exact absurd h hl

/-- Witness for C28: two slots, the slot 0 not eaten and the slot 1 eaten; the
slot 1 is respawned and the slot 0 is left as it was. -/
theorem replace_expired_tiles_frame_witness :
    ∃ t1 g1, replace_expired_tiles 32767 (fun _ => 1) 2 tiles_eaten_but0 rand0 = some (t1, g1) ∧
      t1.pos_x 0 = 0 ∧ t1.pos_y 0 = 0 ∧ t1.vel_x 0 = 1 ∧ t1.vel_y 0 = 0 ∧
      t1.angle_radians 0 = 0 ∧ t1.lifetime 0 = 0 ∧ t1.tile_id 0 = TILE_ID_NORMAL ∧
      t1.is_eaten 0 = false :=
  replace_expired_tiles_frame 32767 (fun _ => 1) 2 tiles_eaten_but0 rand0 0 (by decide)
    (by decide) (by decide)

/-! ### The variant ids -/

/-- After `replace_expired_tiles`, a slot below `N` holds a Normal or a Wide
tile when it held one before or has been respawned. -/
theorem replace_expired_tiles_variant_valid (R : ℕ) (sqrt : ℚ → ℚ) (N : ℕ) (t : tiles_t)
    (g : rand_state) (t1 : tiles_t) (g1 : rand_state)
    (h : replace_expired_tiles R sqrt N t g = some (t1, g1)) (i : ℕ) (hi : i < N)
    (hvalid : t.needs_replacing i = false →
      t.tile_id i = TILE_ID_NORMAL ∨ t.tile_id i = TILE_ID_WIDE) :
    t1.tile_id i = TILE_ID_NORMAL ∨ t1.tile_id i = TILE_ID_WIDE := by
  cases hn : t.needs_replacing i with
  | true =>
    obtain ⟨ti, gi, tN, gN, -, -, -, eN, -, -, -, -, -, r6, r7⟩ :=
      replace_expired_tiles_slot R sqrt N t g i hi hn
    have hpair := eN.symm.trans h
    simp only [Option.some.injEq, Prod.mk.injEq] at hpair
    obtain ⟨rfl, -⟩ := hpair
    by_cases hd : draw R gi 0 0 1 < PROBABILITY_WIDE
    · exact Or.inr (r6 hd).1
    · exact Or.inl (r7 hd)
  | false =>
    obtain ⟨t2, g2, e2, -, -, -, -, -, -, hid, -⟩ :=
      replace_expired_tiles_keeps R sqrt N t g i hi hn
    have hpair := e2.symm.trans h
    simp only [Option.some.injEq, Prod.mk.injEq] at hpair
    obtain ⟨rfl, -⟩ := hpair
    rw [hid]
    exact hvalid hn

/-- In every reachable state the variant id of every slot below `N` is Normal
or Wide. -/
theorem reachable_variant_valid (ok : ℚ → ℚ → Prop) (R : ℕ) (sqrt : ℚ → ℚ) (two_pi : ℚ)
    (mod : ℚ → ℚ → ℚ) (N : ℕ) (t : tiles_t) (g : rand_state)
    (h : reachable ok R sqrt two_pi mod N t g) :
    ∀ i, i < N → t.tile_id i = TILE_ID_NORMAL ∨ t.tile_id i = TILE_ID_WIDE := by
  induction h with
  | init t0 g0 t1 g1 _ hinit =>
    intro i hi
    obtain ⟨-, -, -, -, -, -, -, he, -⟩ := initialise_loop_spec t0 N
    have hneeds : (initialise_loop N t0).needs_replacing i = true := by
      rw [needs_replacing_iff]
      exact Or.inl (by rw [he i, if_pos hi])
    exact replace_expired_tiles_variant_valid R sqrt N (initialise_loop N t0) g0 t1 g1 hinit i hi
      (fun hf => absurd hneeds (by rw [hf]; decide))
  | update t0 g0 e _ ih =>
    intro i hi
    obtain ⟨-, -, -, -, -, -, hid, -⟩ := tiles_update_spec two_pi mod N t0 e
    rw [hid]
    exact ih i hi
  | collide t0 g0 ss p walls p1 t1 w1 _ hres ih =>
    intro i hi
    rw [(resolve_collisions_same N ss p p1 t0 t1 walls w1 hres).2.2.2.1]
    exact ih i hi
  | replace t0 g0 t1 g1 _ _ hrep ih =>
    intro i hi
    exact replace_expired_tiles_variant_valid R sqrt N t0 g0 t1 g1 hrep i hi (fun _ => ih i hi)

/-- C29: variant-id invariant.  In every state reachable from
`initialise_tiles` by `update`, `resolve_collisions` and
`replace_expired_tiles`, the variant id of every slot below `N` is
TILE_ID_NORMAL or TILE_ID_WIDE, so with a sprite sheet that holds both tile
sprites `get_tile_texture_rect` returns a sprite, not the null pointer, for
every slot. -/
theorem reachable_tile_sprite (ok : ℚ → ℚ → Prop) (R : ℕ) (sqrt : ℚ → ℚ) (two_pi : ℚ)
    (mod : ℚ → ℚ → ℚ) (N : ℕ) (t : tiles_t) (g : rand_state)
    (h : reachable ok R sqrt two_pi mod N t g) (i : ℕ) (hi : i < N) :
    (t.tile_id i = TILE_ID_NORMAL ∨ t.tile_id i = TILE_ID_WIDE) ∧
    ∀ (ss : spritesheet) (r0 r1 : texture_rect),
      ss.get_sprite_info "tile_0.png" = some r0 → ss.get_sprite_info "tile_1.png" = some r1 →
      get_tile_texture_rect ss (t.tile_id i) = some r0 ∨
        get_tile_texture_rect ss (t.tile_id i) = some r1 := by
  have hv := reachable_variant_valid ok R sqrt two_pi mod N t g h i hi
  refine ⟨hv, fun ss r0 r1 h0 h1 => ?_⟩
  rcases hv with hv | hv
  · left
    rw [hv]
    simp [get_tile_texture_rect, TILE_ID_NORMAL, TILE_ID_WIDE, h0]
  · right
    rw [hv]
    simp [get_tile_texture_rect, h1]

/-- Witness for C29: the state after `initialise_tiles` on one slot and an
update of half a second. -/
theorem reachable_tile_sprite_witness :
    ∃ t1 g1, initialise_tiles 32767 (fun _ => 1) 1 tiles0 rand0 = some (t1, g1) ∧
      ((t1.update (710 / 113) floor_mod 1 (1 / 2)).tile_id 0 = TILE_ID_NORMAL ∨
        (t1.update (710 / 113) floor_mod 1 (1 / 2)).tile_id 0 = TILE_ID_WIDE) ∧
      (get_tile_texture_rect sheet32 ((t1.update (710 / 113) floor_mod 1 (1 / 2)).tile_id 0)
          = some ⟨32, 32⟩ ∨
        get_tile_texture_rect sheet32 ((t1.update (710 / 113) floor_mod 1 (1 / 2)).tile_id 0)
          = some ⟨32, 32⟩) := by
  obtain ⟨t1, g1, e1, -⟩ :=
    replace_expired_tiles_spec 32767 (fun _ => 1) 1 (initialise_loop 1 tiles0) rand0
  have hreach : reachable (fun _ _ => True) 32767 (fun _ => 1) (710 / 113) floor_mod 1
      (t1.update (710 / 113) floor_mod 1 (1 / 2)) g1 :=
    reachable.update _ _ _ (reachable.init tiles0 rand0 t1 g1 (fun _ _ _ _ _ _ => trivial) e1)
  obtain ⟨hv, hs⟩ := reachable_tile_sprite (fun _ _ => True) 32767 (fun _ => 1) (710 / 113)
    floor_mod 1 _ g1 hreach 0 (by decide)
  exact ⟨t1, g1, e1, hv, hs sheet32 ⟨32, 32⟩ ⟨32, 32⟩ rfl rfl⟩

/-! ### The frame: collisions, player replacement, lifecycle -/

/-- C21, what the code does: `resolve_collisions` has no player-tile pair, so a
frame (`resolve_collisions`, then `check_player_needs_replacing`, then
`replace_expired_tiles`) with a Normal player that has no pending transition
leaves a Normal player, and a tile that is not eaten and not expired is not
eaten afterwards and is not respawned, whether or not the player overlaps it;
when no slot needs replacing the pass makes no draw. -/
theorem frame_ignores_player_tile (N R : ℕ) (sqrt : ℚ → ℚ) (ss : spritesheet) (p : player_t)
    (t : tiles_t) (w : walls_t) (g : rand_state) (i : ℕ) (rp : texture_rect) (hi : i < N)
    (hp : get_player_texture_rect ss p.get_id = some rp)
    (hall : ∀ j, j < N → (get_tile_texture_rect ss (t.tile_id j)).isSome = true)
    (hcls : p.cls = .player_normal_t) (hpend : p.new_player_id = "")
    (he : t.is_eaten i = false) (hl : ¬ (t.tile_id i = TILE_ID_WIDE ∧ t.lifetime i < 0)) :
    ∃ p1 t1 t2 g2, resolve_collisions N ss p t w = some (p1, t1, w) ∧
      check_player_needs_replacing p1 = p1 ∧ p1.cls = .player_normal_t ∧
      p1.new_player_id = "" ∧ t1.is_eaten i = false ∧
      replace_expired_tiles R sqrt N t1 g = some (t2, g2) ∧
      t2.pos_x i = t1.pos_x i ∧ t2.pos_y i = t1.pos_y i ∧ t2.vel_x i = t1.vel_x i ∧
      t2.vel_y i = t1.vel_y i ∧ t2.lifetime i = t.lifetime i ∧ t2.tile_id i = t.tile_id i ∧
      t2.is_eaten i = false ∧
      ((∀ k, k < N → t.needs_replacing k = false) → g2 = g) := by
  obtain ⟨p1, t1, hres⟩ := resolve_collisions_total N ss p t w rp hp hall
  obtain ⟨-, c1, c2, a1, a2, -, a4, -⟩ := resolve_collisions_same N ss p p1 t t1 w w hres
  have hnr : ∀ k, t1.needs_replacing k = t.needs_replacing k := fun k =>
    needs_replacing_congr (congrFun a1 k) (congrFun a4 k) (congrFun a2 k)
  have hn : t.needs_replacing i = false := by
    cases hq : t.needs_replacing i with
    | false => rfl
    | true =>
      rcases (needs_replacing_iff t i).mp hq with h | h
      · rw [he] at h; exact absurd h (by decide)
      · exact absurd h hl
  obtain ⟨t2, g2, e2, k1, k2, k3, k4, -, k6, k7, k8⟩ :=
    replace_expired_tiles_keeps R sqrt N t1 g i hi ((hnr i).trans hn)
  have hid : p1.new_player_id = "" := c2.trans hpend
  refine ⟨p1, t1, t2, g2, hres, ?_, c1.trans hcls, hid, (congrFun a2 i).trans he, e2, k1, k2,
    k3, k4, k6.trans (congrFun a4 i), k7.trans (congrFun a1 i),
    k8.trans ((congrFun a2 i).trans he), fun hnone => ?_⟩
  · simp [check_player_needs_replacing, hid, PLAYER_ID_WIDE, PLAYER_ID_NORMAL]
  · have hnoop := replace_expired_tiles_noop R sqrt N t1 g
      (fun k hk => (hnr k).trans (hnone k hk))
    have hpair := hnoop.symm.trans e2
    simp only [Option.some.injEq, Prod.mk.injEq] at hpair
    exact hpair.2.symm

/-- Witness for C21: the Normal player and two Wide tiles, all 32 x 32 and all
at the origin, so the player overlaps the tile in the slot 0; after the frame
the player is Normal, the slot 0 still holds its Wide tile at the origin and no
random number has been drawn. -/
theorem frame_ignores_player_tile_witness :
    is_overlapping player0.position.x player0.position.y 32 32
      (tiles_wide.pos_x 0) (tiles_wide.pos_y 0) 32 32 = true ∧
    ∃ p1 t1 t2, resolve_collisions 2 sheet32 player0 tiles_wide
        (initialise_walls ⟨1280, 720, 0, 0⟩) = some (p1, t1, initialise_walls ⟨1280, 720, 0, 0⟩) ∧
      check_player_needs_replacing p1 = p1 ∧ p1.cls = .player_normal_t ∧
      replace_expired_tiles 32767 (fun _ => 1) 2 t1 rand0 = some (t2, rand0) ∧
      t2.tile_id 0 = TILE_ID_WIDE ∧ t2.is_eaten 0 = false ∧ t2.lifetime 0 = 3 := by
  refine ⟨by norm_num [is_overlapping, player0, tiles_wide, tiles0], ?_⟩
  obtain ⟨p1, t1, t2, g2, h1, h2, h3, -, -, h6, -, -, -, -, h11, h12, h13, h14⟩ :=
    frame_ignores_player_tile 2 32767 (fun _ => 1) sheet32 player0 tiles_wide
      (initialise_walls ⟨1280, 720, 0, 0⟩) rand0 0 ⟨32, 32⟩ (by decide) (by decide)
      (fun _ _ => rfl) rfl rfl rfl (by norm_num [tiles_wide])
  have hg : g2 = rand0 := h14 (fun k _ => by
    simp [tiles_t.needs_replacing, tiles_wide, tiles0])
  rw [hg] at h6
  exact ⟨p1, t1, t2, h1, h2, h3, h6, h12, h13, h11⟩

end DOD
